import Mathlib

/-!
# Houdini Engine for Unreal: transform codec, attribute marshalling, mesh sockets

A shallow embedding of parts of
`Source/HoudiniEngine/Private/HoudiniEngineUtils.cpp`.

Conventions of the embedding:

* C `float` values are modelled as rationals (`ℚ`) with exact arithmetic;
  `int32` values as `Int`. The casts between the two are `castFloatToInt32`, which stays
  within the `int32` range, and `castInt32ToFloat`, which rounds to a 24-bit significand.
* Out-parameters become components of the returned value.
* The engine session (`FHoudiniApi::…` calls) is a record of pure functions.
* Preprocessor constants of `HoudiniEngineRuntimePrivatePCH.h`
  (`HAPI_UNREAL_CONVERT_COORDINATE_SYSTEM`, `HAPI_UNREAL_SCALE_FACTOR_TRANSLATION`)
  are parameters of the functions that read them.
* `HOUDINI_CHECK_ERROR_RETURN(call, value)` returns `value` from the enclosing function
  when the call's result is not `HAPI_RESULT_SUCCESS`; `HOUDINI_CHECK_ERROR_GET(&result,
  call)` stores the result, logs a failure and goes on.
* Loops without a bound (`while (true)`, `while (bAttributeFound)`) take the number of
  rounds allowed and yield `none` when it is used up.
-/

namespace HoudiniEngine

/-! ## Transform codec: data model -/

/-- Unreal `FQuat`, constructed as `FQuat(X, Y, Z, W)`. -/
structure FQuat where
  X : ℚ
  Y : ℚ
  Z : ℚ
  W : ℚ
  deriving DecidableEq, Repr

/-- Unreal `FVector`, constructed as `FVector(X, Y, Z)`. -/
structure FVector where
  X : ℚ
  Y : ℚ
  Z : ℚ
  deriving DecidableEq, Repr

/-- Unreal `FTransform`: the three components written by `SetComponents` and read
by `GetRotation`, `GetTranslation`, `GetScale3D`. -/
structure FTransform where
  Rotation : FQuat
  Translation : FVector
  Scale3D : FVector
  deriving DecidableEq, Repr

/-- The engine's `float[3]` arrays (`position`, `scale`), by index. -/
structure Float3 where
  c0 : ℚ
  c1 : ℚ
  c2 : ℚ
  deriving DecidableEq, Repr

/-- The engine's `float[4]` array (`rotationQuaternion`), by index. -/
structure Float4 where
  c0 : ℚ
  c1 : ℚ
  c2 : ℚ
  c3 : ℚ
  deriving DecidableEq, Repr

/-- The engine's order tag of a transform. The source names only `HAPI_SRT`;
`HAPI_TRS` is the tag a zeroed record carries. -/
inductive HAPI_RSTOrder where
  | HAPI_TRS
  | HAPI_SRT
  deriving DecidableEq, Repr

/-- The engine's quaternion transform `HAPI_Transform`, with the fields the
source reads or writes. -/
structure HAPI_Transform where
  position : Float3
  rotationQuaternion : Float4
  scale : Float3
  rstOrder : HAPI_RSTOrder
  deriving DecidableEq, Repr

/-- `FVector::operator*=(float)`: every component is multiplied by the factor. -/
def FVector.mulScalar (v : FVector) (k : ℚ) : FVector :=
  { X := v.X * k, Y := v.Y * k, Z := v.Z * k }

/-- `FHoudiniEngineUtils::TranslateHapiTransform(const HAPI_Transform &, FTransform &)`.
`convert` is `HAPI_UNREAL_CONVERT_COORDINATE_SYSTEM`, `factor` is
`HAPI_UNREAL_SCALE_FACTOR_TRANSLATION`. -/
def TranslateHapiTransform (convert : Bool) (factor : ℚ) (HapiTransform : HAPI_Transform) :
    FTransform :=
  if convert then
    -- Swap Y/Z, invert W
    let ObjectRotation : FQuat :=
      { X := HapiTransform.rotationQuaternion.c0, Y := HapiTransform.rotationQuaternion.c2,
        Z := HapiTransform.rotationQuaternion.c1, W := -HapiTransform.rotationQuaternion.c3 }
    -- Swap Y/Z and scale
    let ObjectTranslation : FVector :=
      FVector.mulScalar
        { X := HapiTransform.position.c0, Y := HapiTransform.position.c2,
          Z := HapiTransform.position.c1 } factor
    -- Swap Y/Z
    let ObjectScale3D : FVector :=
      { X := HapiTransform.scale.c0, Y := HapiTransform.scale.c2, Z := HapiTransform.scale.c1 }
    { Rotation := ObjectRotation, Translation := ObjectTranslation, Scale3D := ObjectScale3D }
  else
    let ObjectRotation : FQuat :=
      { X := HapiTransform.rotationQuaternion.c0, Y := HapiTransform.rotationQuaternion.c1,
        Z := HapiTransform.rotationQuaternion.c2, W := HapiTransform.rotationQuaternion.c3 }
    let ObjectTranslation : FVector :=
      FVector.mulScalar
        { X := HapiTransform.position.c0, Y := HapiTransform.position.c1,
          Z := HapiTransform.position.c2 } factor
    let ObjectScale3D : FVector :=
      { X := HapiTransform.scale.c0, Y := HapiTransform.scale.c1, Z := HapiTransform.scale.c2 }
    { Rotation := ObjectRotation, Translation := ObjectTranslation, Scale3D := ObjectScale3D }

/-- `FHoudiniEngineUtils::TranslateUnrealTransform(const FTransform &, HAPI_Transform &)`.
The record is zeroed, tagged `HAPI_SRT`, and then every component is assigned. -/
def TranslateUnrealTransform (convert : Bool) (factor : ℚ) (UnrealTransform : FTransform) :
    HAPI_Transform :=
  let UnrealRotation := UnrealTransform.Rotation
  let UnrealTranslation := UnrealTransform.Translation
  let UnrealScale := UnrealTransform.Scale3D
  if convert then
    { rstOrder := HAPI_RSTOrder.HAPI_SRT
      -- Swap Y/Z, invert XYZ
      rotationQuaternion :=
        { c0 := -UnrealRotation.X, c1 := -UnrealRotation.Z, c2 := -UnrealRotation.Y,
          c3 := UnrealRotation.W }
      -- Swap Y/Z, scale
      position :=
        { c0 := UnrealTranslation.X / factor, c1 := UnrealTranslation.Z / factor,
          c2 := UnrealTranslation.Y / factor }
      -- Swap Y/Z
      scale := { c0 := UnrealScale.X, c1 := UnrealScale.Z, c2 := UnrealScale.Y } }
  else
    { rstOrder := HAPI_RSTOrder.HAPI_SRT
      rotationQuaternion :=
        { c0 := UnrealRotation.X, c1 := UnrealRotation.Y, c2 := UnrealRotation.Z,
          c3 := UnrealRotation.W }
      position :=
        { c0 := UnrealTranslation.X, c1 := UnrealTranslation.Y, c2 := UnrealTranslation.Z }
      scale := { c0 := UnrealScale.X, c1 := UnrealScale.Y, c2 := UnrealScale.Z } }

/-- Componentwise negation of a quaternion array (the same rotation). -/
def Float4.neg (q : Float4) : Float4 :=
  { c0 := -q.c0, c1 := -q.c1, c2 := -q.c2, c3 := -q.c3 }

/-- The identity engine transform tagged `HAPI_SRT`: rotation `(0,0,0,1)`, position
`(1,2,3)`, unit scale. Used as a concrete input. -/
def sampleHapiTransform : HAPI_Transform :=
  { position := { c0 := 1, c1 := 2, c2 := 3 }
    rotationQuaternion := { c0 := 0, c1 := 0, c2 := 0, c3 := 1 }
    scale := { c0 := 1, c1 := 1, c2 := 1 }
    rstOrder := HAPI_RSTOrder.HAPI_SRT }

/-- A concrete host transform: rotation `(0,0,0,1)`, translation `(100,200,300)`,
unit scale. -/
def sampleUnrealTransform : FTransform :=
  { Rotation := { X := 0, Y := 0, Z := 0, W := 1 }
    Translation := { X := 100, Y := 200, Z := 300 }
    Scale3D := { X := 1, Y := 1, Z := 1 } }

/-! ## Attribute marshalling: data model -/

/-- Result code of an engine call. The getters only test for `HAPI_RESULT_SUCCESS`. -/
inductive HAPI_Result where
  | HAPI_RESULT_SUCCESS
  | HAPI_RESULT_FAILURE
  | HAPI_RESULT_INVALID_ARGUMENT
  | HAPI_RESULT_INVALID_SESSION
  deriving DecidableEq, Repr

/-- Storage type of an attribute. The getters branch on `FLOAT`, `INT` and `STRING`;
every other tag falls through to the warning. -/
inductive HAPI_StorageType where
  | HAPI_STORAGETYPE_INVALID
  | HAPI_STORAGETYPE_INT
  | HAPI_STORAGETYPE_INT64
  | HAPI_STORAGETYPE_FLOAT
  | HAPI_STORAGETYPE_FLOAT64
  | HAPI_STORAGETYPE_STRING
  deriving DecidableEq, Repr

/-- Modelled from the spec: the enumeration `HAPI_AttributeOwner` is declared in the
engine's own header, which is not among the files of this repository. The owners are the spec's
`Point, Vertex, Prim, Detail`, and `HAPI_ATTROWNER_INVALID` is the "any owner" sentinel. -/
inductive HAPI_AttributeOwner where
  | HAPI_ATTROWNER_INVALID
  | HAPI_ATTROWNER_POINT
  | HAPI_ATTROWNER_VERTEX
  | HAPI_ATTROWNER_PRIM
  | HAPI_ATTROWNER_DETAIL
  deriving DecidableEq, Repr

/-- Modelled from the spec: `HAPI_ATTROWNER_MAX`, the number of owners (four). -/
def HAPI_ATTROWNER_MAX : Nat := 4

/-- Modelled from the spec: the cast `(HAPI_AttributeOwner)AttrIdx` of a loop index, with
the numbering the spec publishes as the fallback order `[Point, Vertex, Prim, Detail]`. -/
def HAPI_AttributeOwner.ofIndex : Nat → HAPI_AttributeOwner
  | 0 => HAPI_AttributeOwner.HAPI_ATTROWNER_POINT
  | 1 => HAPI_AttributeOwner.HAPI_ATTROWNER_VERTEX
  | 2 => HAPI_AttributeOwner.HAPI_ATTROWNER_PRIM
  | 3 => HAPI_AttributeOwner.HAPI_ATTROWNER_DETAIL
  | _ => HAPI_AttributeOwner.HAPI_ATTROWNER_INVALID

/-- The engine's `HAPI_AttributeInfo` (field `exists` is written `exists_`). The element
count and the tuple size are the non-negative numbers the engine reports. -/
structure HAPI_AttributeInfo where
  exists_ : Bool
  owner : HAPI_AttributeOwner
  storage : HAPI_StorageType
  count : Nat
  tupleSize : Nat
  deriving DecidableEq, Repr

/-- `FHoudiniApi::AttributeInfo_Init`: the cleared info record. -/
def AttributeInfo_Init : HAPI_AttributeInfo :=
  { exists_ := false
    owner := HAPI_AttributeOwner.HAPI_ATTROWNER_INVALID
    storage := HAPI_StorageType.HAPI_STORAGETYPE_INVALID
    count := 0
    tupleSize := 0 }

/-- The engine session as seen by the attribute getters. Every call returns its result
code together with what it leaves in its out-parameter. For the data calls the second
component gives, for every slot of the caller's buffer, the value that slot holds after
the call. `ToFString` is `FHoudiniEngineString::ToFString`, the handle-to-text service. -/
structure FHoudiniApi where
  GetAttributeInfo :
    Int → Int → String → HAPI_AttributeOwner → HAPI_Result × HAPI_AttributeInfo
  GetAttributeFloatData :
    Int → Int → String → HAPI_AttributeInfo → Int → Nat → Nat → HAPI_Result × (Nat → ℚ)
  GetAttributeIntData :
    Int → Int → String → HAPI_AttributeInfo → Int → Nat → Nat → HAPI_Result × (Nat → Int)
  GetAttributeStringData :
    Int → Int → String → HAPI_AttributeInfo → Nat → Nat → HAPI_Result × (Nat → Int)
  ToFString : Int → String

/-- The host string library used by the getters: `FString::IsNumeric`, `FCString::Atoi`,
`FCString::Atof` and `FString::SanitizeFloat`. -/
structure FStringLibrary where
  IsNumeric : String → Bool
  Atoi : String → Int
  Atof : String → ℚ
  SanitizeFloat : ℚ → String

/-- `FString::FromInt`: the decimal text of an integer. -/
def FString_FromInt (n : Int) : String := toString n

/-- The least `int32`. -/
def INT32_MIN : Int := -2147483648

/-- The greatest `int32`. -/
def INT32_MAX : Int := 2147483647

/-- A rational truncated toward zero: its integer part. -/
def truncateTowardZero (x : ℚ) : Int := Int.tdiv x.num x.den

/-- The C cast `(int32)x` of a float: truncation toward zero when the truncated value is
an `int32`. Outside that range the language leaves the conversion undefined; the value
taken here is the one the x86 conversion instruction yields, `INT32_MIN`. Floats are
rationals here, so there is no NaN and no infinity. -/
def castFloatToInt32 (x : ℚ) : Int :=
  if INT32_MIN ≤ truncateTowardZero x ∧ truncateTowardZero x ≤ INT32_MAX then
    truncateTowardZero x
  else INT32_MIN

/-- The number of low bits a natural number loses in a 24-bit significand: how often it
is halved before it is below `2 ^ 24`. -/
def excessBits : Nat → Nat → Nat
  | 0, _ => 0
  | fuel + 1, n => if n < 2 ^ 24 then 0 else excessBits fuel (n / 2) + 1

/-- The nearest single-precision value of a natural number: the leading 24 bits are kept,
the bits dropped round to nearest, ties to the even significand. -/
def roundToFloat (n : Nat) : Nat :=
  let e := excessBits n n
  let q := n / 2 ^ e
  let r := n % 2 ^ e
  if 2 * r < 2 ^ e ∨ (2 * r = 2 ^ e ∧ q % 2 = 0) then q * 2 ^ e else (q + 1) * 2 ^ e

/-- The C cast `(float)n` of an `int32`: the nearest single-precision value, with the sign
of `n`. -/
def castInt32ToFloat (n : Int) : ℚ :=
  if 0 ≤ n then ((roundToFloat n.natAbs : Nat) : ℚ) else -((roundToFloat n.natAbs : Nat) : ℚ)

/-- A buffer of `n` slots after a data call: slot `i` holds `written i`. -/
def fillBuffer {α : Type} (n : Nat) (written : Nat → α) : List α :=
  (List.range n).map written

/-- What a getter hands back: its boolean result and its two out-parameters. -/
structure AttributeFetch (α : Type) where
  ok : Bool
  OutAttributeInfo : HAPI_AttributeInfo
  OutData : List α

/-! ## Attribute marshalling: owner resolution -/

/-- Outcome of the owner probing block: the owners probed, in call order, and the
`AttributeInfo` the block ends with (`none` when `HOUDINI_CHECK_ERROR_RETURN` returned). -/
structure OwnerProbe where
  probed : List HAPI_AttributeOwner
  info : Option HAPI_AttributeInfo
  deriving DecidableEq, Repr

/-- The loop `for (AttrIdx = 0; AttrIdx < HAPI_ATTROWNER_MAX; ++AttrIdx)` over the owners
still to probe: a failed `GetAttributeInfo` returns at once, an existing attribute breaks
out of the loop. -/
def probeOwnersLoop (api : FHoudiniApi) (InGeoId InPartId : Int) (InAttribName : String) :
    List HAPI_AttributeOwner → HAPI_AttributeInfo → OwnerProbe
  | [], AttributeInfo => { probed := [], info := some AttributeInfo }
  | owner :: rest, _ =>
    let r := api.GetAttributeInfo InGeoId InPartId InAttribName owner
    if r.1 ≠ HAPI_Result.HAPI_RESULT_SUCCESS then
      { probed := [owner], info := none }
    else if r.2.exists_ then
      { probed := [owner], info := some r.2 }
    else
      let later := probeOwnersLoop api InGeoId InPartId InAttribName rest r.2
      { probed := owner :: later.probed, info := later.info }

/-- The owner resolution block shared by `HapiGetAttributeDataAsFloat`,
`HapiGetAttributeDataAsInteger` and `HapiGetAttributeDataAsString`. -/
def probeOwners (api : FHoudiniApi) (InGeoId InPartId : Int) (InAttribName : String)
    (InOwner : HAPI_AttributeOwner) : OwnerProbe :=
  if InOwner = HAPI_AttributeOwner.HAPI_ATTROWNER_INVALID then
    probeOwnersLoop api InGeoId InPartId InAttribName
      ((List.range HAPI_ATTROWNER_MAX).map HAPI_AttributeOwner.ofIndex) AttributeInfo_Init
  else
    let r := api.GetAttributeInfo InGeoId InPartId InAttribName InOwner
    if r.1 ≠ HAPI_Result.HAPI_RESULT_SUCCESS then
      { probed := [InOwner], info := none }
    else
      { probed := [InOwner], info := some r.2 }

/-- The attribute a getter goes on with after the block and its `exists` test. -/
def OwnerProbe.selected (p : OwnerProbe) : Option HAPI_AttributeInfo :=
  match p.info with
  | none => none
  | some AttributeInfo => if AttributeInfo.exists_ then some AttributeInfo else none

/-- `FHoudiniEngineUtils::HapiCheckAttributeExists` for one given owner (the `else`
branch): a failed info call counts as "does not exist". -/
def HapiCheckAttributeExistsOwner (api : FHoudiniApi) (GeoId PartId : Int)
    (AttribName : String) (Owner : HAPI_AttributeOwner) : Bool :=
  let r := api.GetAttributeInfo GeoId PartId AttribName Owner
  if r.1 ≠ HAPI_Result.HAPI_RESULT_SUCCESS then false else r.2.exists_

/-- `FHoudiniEngineUtils::HapiCheckAttributeExists`: with the "any owner" sentinel every
owner index is tried in turn through the single-owner check. -/
def HapiCheckAttributeExists (api : FHoudiniApi) (GeoId PartId : Int) (AttribName : String)
    (Owner : HAPI_AttributeOwner) : Bool :=
  if Owner = HAPI_AttributeOwner.HAPI_ATTROWNER_INVALID then
    ((List.range HAPI_ATTROWNER_MAX).map HAPI_AttributeOwner.ofIndex).any
      (fun o => HapiCheckAttributeExistsOwner api GeoId PartId AttribName o)
  else
    HapiCheckAttributeExistsOwner api GeoId PartId AttribName Owner

/-- The tuple size override `if (OriginalTupleSize > 0) AttributeInfo.tupleSize = …`. -/
def overrideTupleSize (AttributeInfo : HAPI_AttributeInfo) (OriginalTupleSize : Int) :
    HAPI_AttributeInfo :=
  if 0 < OriginalTupleSize then
    { AttributeInfo with tupleSize := OriginalTupleSize.toNat }
  else AttributeInfo

/-! ## Attribute marshalling: string handles -/

/-- State of the handle loop of `HapiGetAttributeDataAsStringFromInfo`: the local map
`StringHandleToStringMap`, the entries of `OutData` assigned so far, and (as a ghost
record) the handles passed to `FHoudiniEngineString::ToFString`, in call order. -/
structure StringHandleLoop where
  StringHandleToStringMap : List (Int × String)
  OutData : List String
  Calls : List Int
  deriving DecidableEq, Repr

/-- The loop `for (Idx = 0; Idx < StringHandles.Num(); ++Idx)` of
`HapiGetAttributeDataAsStringFromInfo`, over the handles still to convert. -/
def convertStringHandles (ToFString : Int → String) :
    List Int → StringHandleLoop → StringHandleLoop
  | [], st => st
  | CurrentSH :: rest, st =>
    if CurrentSH < 0 then
      convertStringHandles ToFString rest { st with OutData := st.OutData ++ [""] }
    else
      match st.StringHandleToStringMap.lookup CurrentSH with
      | some FoundString =>
        convertStringHandles ToFString rest { st with OutData := st.OutData ++ [FoundString] }
      | none =>
        let HapiString := ToFString CurrentSH
        convertStringHandles ToFString rest
          { StringHandleToStringMap := (CurrentSH, HapiString) :: st.StringHandleToStringMap
            OutData := st.OutData ++ [HapiString]
            Calls := st.Calls ++ [CurrentSH] }

/-- The loop started with an empty map and an empty output. -/
def convertAllStringHandles (ToFString : Int → String) (StringHandles : List Int) :
    StringHandleLoop :=
  convertStringHandles ToFString StringHandles
    { StringHandleToStringMap := [], OutData := [], Calls := [] }

/-- Resolution of one handle without any memo: the empty string for a negative handle,
the resolver's text otherwise. -/
def resolveHandleDirect (ToFString : Int → String) (sh : Int) : String :=
  if sh < 0 then "" else ToFString sh

/-- `FHoudiniEngineUtils::HapiGetAttributeDataAsStringFromInfo`. `OutData` is left as it
was when the function returns `false`. -/
def HapiGetAttributeDataAsStringFromInfo (api : FHoudiniApi) (InGeoId InPartId : Int)
    (InAttribName : String) (InAttributeInfo : HAPI_AttributeInfo) (OutData : List String) :
    Bool × List String :=
  if !InAttributeInfo.exists_ then (false, OutData)
  else
    let r := api.GetAttributeStringData InGeoId InPartId InAttribName InAttributeInfo
      0 InAttributeInfo.count
    if r.1 ≠ HAPI_Result.HAPI_RESULT_SUCCESS then (false, OutData)
    else
      let StringHandles := fillBuffer (InAttributeInfo.count * InAttributeInfo.tupleSize) r.2
      (true, (convertAllStringHandles api.ToFString StringHandles).OutData)

/-! ## Attribute marshalling: the three getters -/

/-- `FHoudiniEngineUtils::HapiGetAttributeDataAsFloat`. -/
def HapiGetAttributeDataAsFloat (api : FHoudiniApi) (lib : FStringLibrary)
    (InGeoId InPartId : Int) (InAttribName : String) (OutAttributeInfo : HAPI_AttributeInfo)
    (InTupleSize : Int) (InOwner : HAPI_AttributeOwner) : AttributeFetch ℚ :=
  let OutAttributeInfo := { OutAttributeInfo with exists_ := false }
  let OriginalTupleSize := InTupleSize
  match (probeOwners api InGeoId InPartId InAttribName InOwner).info with
  | none => { ok := false, OutAttributeInfo := OutAttributeInfo, OutData := [] }
  | some probedInfo =>
    if !probedInfo.exists_ then
      { ok := false, OutAttributeInfo := OutAttributeInfo, OutData := [] }
    else
      let AttributeInfo := overrideTupleSize probedInfo OriginalTupleSize
      if AttributeInfo.storage = HAPI_StorageType.HAPI_STORAGETYPE_FLOAT then
        let r := api.GetAttributeFloatData InGeoId InPartId InAttribName AttributeInfo (-1)
          0 AttributeInfo.count
        { ok := decide (r.1 = HAPI_Result.HAPI_RESULT_SUCCESS)
          OutAttributeInfo := AttributeInfo
          OutData := fillBuffer (AttributeInfo.count * AttributeInfo.tupleSize) r.2 }
      else if AttributeInfo.storage = HAPI_StorageType.HAPI_STORAGETYPE_INT then
        let r := api.GetAttributeIntData InGeoId InPartId InAttribName AttributeInfo (-1)
          0 AttributeInfo.count
        let IntData := fillBuffer (AttributeInfo.count * AttributeInfo.tupleSize) r.2
        if r.1 = HAPI_Result.HAPI_RESULT_SUCCESS then
          { ok := true, OutAttributeInfo := AttributeInfo
            OutData := IntData.map castInt32ToFloat }
        else
          { ok := false, OutAttributeInfo := AttributeInfo, OutData := [] }
      else if AttributeInfo.storage = HAPI_StorageType.HAPI_STORAGETYPE_STRING then
        let s := HapiGetAttributeDataAsStringFromInfo api InGeoId InPartId InAttribName
          AttributeInfo []
        if s.1 then
          let StringData := s.2
          let bConversionError := StringData.any (fun str => !lib.IsNumeric str)
          { ok := !bConversionError
            OutAttributeInfo := AttributeInfo
            OutData := StringData.map (fun str => if lib.IsNumeric str then lib.Atof str else 0) }
        else
          { ok := false, OutAttributeInfo := AttributeInfo, OutData := [] }
      else
        { ok := false, OutAttributeInfo := AttributeInfo, OutData := [] }

/-- `FHoudiniEngineUtils::HapiGetAttributeDataAsInteger`. -/
def HapiGetAttributeDataAsInteger (api : FHoudiniApi) (lib : FStringLibrary)
    (InGeoId InPartId : Int) (InAttribName : String) (OutAttributeInfo : HAPI_AttributeInfo)
    (InTupleSize : Int) (InOwner : HAPI_AttributeOwner) : AttributeFetch Int :=
  let OutAttributeInfo := { OutAttributeInfo with exists_ := false }
  let OriginalTupleSize := InTupleSize
  match (probeOwners api InGeoId InPartId InAttribName InOwner).info with
  | none => { ok := false, OutAttributeInfo := OutAttributeInfo, OutData := [] }
  | some probedInfo =>
    if !probedInfo.exists_ then
      { ok := false, OutAttributeInfo := OutAttributeInfo, OutData := [] }
    else
      let AttributeInfo := overrideTupleSize probedInfo OriginalTupleSize
      if AttributeInfo.storage = HAPI_StorageType.HAPI_STORAGETYPE_INT then
        let r := api.GetAttributeIntData InGeoId InPartId InAttribName AttributeInfo (-1)
          0 AttributeInfo.count
        { ok := decide (r.1 = HAPI_Result.HAPI_RESULT_SUCCESS)
          OutAttributeInfo := AttributeInfo
          OutData := fillBuffer (AttributeInfo.count * AttributeInfo.tupleSize) r.2 }
      else if AttributeInfo.storage = HAPI_StorageType.HAPI_STORAGETYPE_FLOAT then
        let r := api.GetAttributeFloatData InGeoId InPartId InAttribName AttributeInfo (-1)
          0 AttributeInfo.count
        let FloatData := fillBuffer (AttributeInfo.count * AttributeInfo.tupleSize) r.2
        if r.1 = HAPI_Result.HAPI_RESULT_SUCCESS then
          { ok := true, OutAttributeInfo := AttributeInfo
            OutData := FloatData.map castFloatToInt32 }
        else
          { ok := false, OutAttributeInfo := AttributeInfo, OutData := [] }
      else if AttributeInfo.storage = HAPI_StorageType.HAPI_STORAGETYPE_STRING then
        let s := HapiGetAttributeDataAsStringFromInfo api InGeoId InPartId InAttribName
          AttributeInfo []
        if s.1 then
          let StringData := s.2
          let bConversionError := StringData.any (fun str => !lib.IsNumeric str)
          { ok := !bConversionError
            OutAttributeInfo := AttributeInfo
            OutData := StringData.map (fun str => if lib.IsNumeric str then lib.Atoi str else 0) }
        else
          { ok := false, OutAttributeInfo := AttributeInfo, OutData := [] }
      else
        { ok := false, OutAttributeInfo := AttributeInfo, OutData := [] }

/-- `FHoudiniEngineUtils::HapiGetAttributeDataAsString`. The info is stored in
`OutAttributeInfo` before the tuple size override is applied. -/
def HapiGetAttributeDataAsString (api : FHoudiniApi) (lib : FStringLibrary)
    (InGeoId InPartId : Int) (InAttribName : String) (OutAttributeInfo : HAPI_AttributeInfo)
    (InTupleSize : Int) (InOwner : HAPI_AttributeOwner) : AttributeFetch String :=
  let OutAttributeInfo := { OutAttributeInfo with exists_ := false }
  let OriginalTupleSize := InTupleSize
  match (probeOwners api InGeoId InPartId InAttribName InOwner).info with
  | none => { ok := false, OutAttributeInfo := OutAttributeInfo, OutData := [] }
  | some probedInfo =>
    if !probedInfo.exists_ then
      { ok := false, OutAttributeInfo := OutAttributeInfo, OutData := [] }
    else
      let OutAttributeInfo := probedInfo
      let AttributeInfo := overrideTupleSize probedInfo OriginalTupleSize
      if AttributeInfo.storage = HAPI_StorageType.HAPI_STORAGETYPE_STRING then
        let s := HapiGetAttributeDataAsStringFromInfo api InGeoId InPartId InAttribName
          AttributeInfo []
        { ok := s.1, OutAttributeInfo := OutAttributeInfo, OutData := s.2 }
      else if AttributeInfo.storage = HAPI_StorageType.HAPI_STORAGETYPE_FLOAT then
        let r := api.GetAttributeFloatData InGeoId InPartId InAttribName AttributeInfo (-1)
          0 AttributeInfo.count
        let FloatData := fillBuffer (AttributeInfo.count * AttributeInfo.tupleSize) r.2
        if r.1 = HAPI_Result.HAPI_RESULT_SUCCESS then
          { ok := true, OutAttributeInfo := OutAttributeInfo
            OutData := FloatData.map lib.SanitizeFloat }
        else
          { ok := false, OutAttributeInfo := OutAttributeInfo, OutData := [] }
      else if AttributeInfo.storage = HAPI_StorageType.HAPI_STORAGETYPE_INT then
        let r := api.GetAttributeIntData InGeoId InPartId InAttribName AttributeInfo (-1)
          0 AttributeInfo.count
        let IntData := fillBuffer (AttributeInfo.count * AttributeInfo.tupleSize) r.2
        if r.1 = HAPI_Result.HAPI_RESULT_SUCCESS then
          { ok := true, OutAttributeInfo := OutAttributeInfo
            OutData := IntData.map FString_FromInt }
        else
          { ok := false, OutAttributeInfo := OutAttributeInfo, OutData := [] }
      else
        { ok := false, OutAttributeInfo := OutAttributeInfo, OutData := [] }

/-! ## Mesh sockets -/

/-- The record `FHoudiniMeshSocket` filled by the socket extraction. -/
structure FHoudiniMeshSocket where
  Transform : FTransform
  Name : String
  Actor : String
  Tag : String
  deriving DecidableEq, Repr

/-- A socket object `UStaticMeshSocket` of the static mesh. `SocketName` keeps the text
the `FName` is built from; `RelativeRotation` keeps the quaternion the rotator is built
from. -/
structure UStaticMeshSocket where
  RelativeLocation : FVector
  RelativeRotation : FQuat
  RelativeScale : FVector
  SocketName : String
  Tag : String
  bSocketCreatedAtImport : Bool
  deriving DecidableEq, Repr

/-- The part of `UStaticMesh` the function touches: the pending-kill flag and the socket
array (whose entries may be null pointers). -/
structure UStaticMesh where
  IsPendingKill : Bool
  Sockets : List (Option UStaticMeshSocket)
  deriving DecidableEq, Repr

/-- First loop of `AddMeshSocketsToStaticMesh`, from index `Idx` on: a socket with an
empty name gets the name `"Socket " + FString::FromInt(Idx)`. -/
def assignDefaultSocketNamesFrom : Nat → List FHoudiniMeshSocket → List FHoudiniMeshSocket
  | _, [] => []
  | Idx, Socket :: rest =>
    (if Socket.Name = "" then
        { Socket with Name := "Socket " ++ FString_FromInt (Idx : Int) }
      else Socket) :: assignDefaultSocketNamesFrom (Idx + 1) rest

/-- First loop of `AddMeshSocketsToStaticMesh`. -/
def assignDefaultSocketNames (AllSockets : List FHoudiniMeshSocket) :
    List FHoudiniMeshSocket :=
  assignDefaultSocketNamesFrom 0 AllSockets

/-- Inner loop of the renaming pass for a fixed `Idx_i`, over the indices `Idx_j` still to
visit, carrying `Count`: a socket whose name equals the current name of socket `Idx_i`
gets the suffix `"_" + FString::FromInt(Count)` after `Count` has been incremented. -/
def renameDuplicatesInner (Idx_i : Nat) :
    List Nat → Int → List FHoudiniMeshSocket → List FHoudiniMeshSocket
  | [], _, AllSockets => AllSockets
  | Idx_j :: rest, Count, AllSockets =>
    match AllSockets[Idx_i]?, AllSockets[Idx_j]? with
    | some Socket_i, some Socket_j =>
      if Socket_i.Name = Socket_j.Name then
        renameDuplicatesInner Idx_i rest (Count + 1)
          (AllSockets.set Idx_j
            { Socket_j with Name := Socket_j.Name ++ "_" ++ FString_FromInt (Count + 1) })
      else
        renameDuplicatesInner Idx_i rest Count AllSockets
    | _, _ => renameDuplicatesInner Idx_i rest Count AllSockets

/-- Outer loop of the renaming pass, over the indices `Idx_i` still to visit; the inner
loop runs over `Idx_i + 1 … AllSockets.Num() - 1` with `Count` starting at `0`. -/
def renameDuplicatesOuter : List Nat → List FHoudiniMeshSocket → List FHoudiniMeshSocket
  | [], AllSockets => AllSockets
  | Idx_i :: rest, AllSockets =>
    renameDuplicatesOuter rest
      (renameDuplicatesInner Idx_i
        (List.range' (Idx_i + 1) (AllSockets.length - (Idx_i + 1))) 0 AllSockets)

/-- The renaming pass ("ensure the socket names are unique") of
`AddMeshSocketsToStaticMesh`. -/
def renameDuplicateSockets (AllSockets : List FHoudiniMeshSocket) : List FHoudiniMeshSocket :=
  renameDuplicatesOuter (List.range AllSockets.length) AllSockets

/-- The socket object created for one entry of `AllSockets` in the last loop. -/
def makeStaticMeshSocket (Socket : FHoudiniMeshSocket) : UStaticMeshSocket :=
  { RelativeLocation := Socket.Transform.Translation
    RelativeRotation := Socket.Transform.Rotation
    RelativeScale := Socket.Transform.Scale3D
    SocketName := Socket.Name
    Tag := (if Socket.Tag ≠ "" then Socket.Tag else "") ++ ("|" ++ Socket.Actor)
    bSocketCreatedAtImport := true }

/-- What `AddMeshSocketsToStaticMesh` leaves behind: its result, the in-out array
`AllSockets`, and the static mesh. -/
structure AddMeshSocketsResult where
  result : Bool
  AllSockets : List FHoudiniMeshSocket
  StaticMesh : Option UStaticMesh
  deriving DecidableEq, Repr

/-- `FHoudiniEngineUtils::AddMeshSocketsToStaticMesh`. A null mesh pointer is `none`;
`NewObject` is taken to deliver a live socket object. -/
def AddMeshSocketsToStaticMesh (StaticMesh : Option UStaticMesh)
    (AllSockets : List FHoudiniMeshSocket) (CleanImportSockets : Bool) :
    AddMeshSocketsResult :=
  match StaticMesh with
  | none => { result := false, AllSockets := AllSockets, StaticMesh := none }
  | some Mesh =>
    if Mesh.IsPendingKill then
      { result := false, AllSockets := AllSockets, StaticMesh := some Mesh }
    else
      -- Remove the sockets from the previous cook
      let Mesh1 : UStaticMesh :=
        if CleanImportSockets then
          { Mesh with
            Sockets := Mesh.Sockets.filter (fun Socket =>
              !(match Socket with
                | some s => s.bSocketCreatedAtImport
                | none => true)) }
        else Mesh
      if AllSockets.length ≤ 0 then
        { result := true, AllSockets := AllSockets, StaticMesh := some Mesh1 }
      else
        let Named := assignDefaultSocketNames AllSockets
        let Unique := renameDuplicateSockets Named
        { result := true
          AllSockets := Unique
          StaticMesh :=
            some { Mesh1 with Sockets := Unique.map (fun s => some (makeStaticMeshSocket s)) } }

/-- A socket with the given name, identity transform, no actor and no tag. -/
def socketNamed (Name : String) : FHoudiniMeshSocket :=
  { Transform :=
      { Rotation := { X := 0, Y := 0, Z := 0, W := 1 }
        Translation := { X := 0, Y := 0, Z := 0 }
        Scale3D := { X := 1, Y := 1, Z := 1 } }
    Name := Name
    Actor := ""
    Tag := "" }

/-- A live static mesh without sockets. -/
def emptyStaticMesh : UStaticMesh := { IsPendingKill := false, Sockets := [] }

/-! ## Auxiliary predicates and concrete sessions -/

/-- Whether the selected attribute's data call, the one its storage type calls for,
returns `HAPI_RESULT_SUCCESS` (`AttributeInfo` is the info handed to the call). -/
def attributeFetchSucceeds (api : FHoudiniApi) (InGeoId InPartId : Int)
    (InAttribName : String) (AttributeInfo : HAPI_AttributeInfo) : Bool :=
  match AttributeInfo.storage with
  | HAPI_StorageType.HAPI_STORAGETYPE_FLOAT =>
    decide ((api.GetAttributeFloatData InGeoId InPartId InAttribName AttributeInfo (-1) 0
      AttributeInfo.count).1 = HAPI_Result.HAPI_RESULT_SUCCESS)
  | HAPI_StorageType.HAPI_STORAGETYPE_INT =>
    decide ((api.GetAttributeIntData InGeoId InPartId InAttribName AttributeInfo (-1) 0
      AttributeInfo.count).1 = HAPI_Result.HAPI_RESULT_SUCCESS)
  | HAPI_StorageType.HAPI_STORAGETYPE_STRING =>
    decide ((api.GetAttributeStringData InGeoId InPartId InAttribName AttributeInfo 0
      AttributeInfo.count).1 = HAPI_Result.HAPI_RESULT_SUCCESS)
  | _ => false

/-- A string library for the concrete inputs: a text is numeric when it is a non-empty
run of decimal digits; `Atoi` reads such a run, `Atof` agrees with it. -/
def digitStringLibrary : FStringLibrary :=
  { IsNumeric := fun str => !str.data.isEmpty && str.data.all Char.isDigit
    Atoi := fun str => str.data.foldl (fun acc c => 10 * acc + ((c.toNat - 48 : Nat) : Int)) 0
    Atof := fun str => str.data.foldl (fun acc c => 10 * acc + ((c.toNat - 48 : Nat) : ℚ)) 0
    SanitizeFloat := fun _ => "" }

/-- An attribute that exists on exactly one owner, with the given storage, one element
per tuple slot: `count` elements of tuple size `tupleSize`. -/
def attributeOn (owner : HAPI_AttributeOwner) (storage : HAPI_StorageType)
    (count tupleSize : Nat) : HAPI_AttributeInfo :=
  { exists_ := true, owner := owner, storage := storage, count := count,
    tupleSize := tupleSize }

/-- A session with one attribute, present on the detail owner only, of the given storage,
with two elements of tuple size one. Float slots hold `37/10` and `-37/10`, integer slots
hold `5` and `-2`, string slots hold the handles `7` and `8`, which resolve to `"12"` and
`"abc"`. The data calls answer with `dataResult`. -/
def detailAttributeApi (storage : HAPI_StorageType) (dataResult : HAPI_Result) : FHoudiniApi :=
  { GetAttributeInfo := fun _ _ _ owner =>
      if owner = HAPI_AttributeOwner.HAPI_ATTROWNER_DETAIL then
        (HAPI_Result.HAPI_RESULT_SUCCESS,
          attributeOn HAPI_AttributeOwner.HAPI_ATTROWNER_DETAIL storage 2 1)
      else (HAPI_Result.HAPI_RESULT_SUCCESS, AttributeInfo_Init)
    GetAttributeFloatData := fun _ _ _ _ _ _ _ =>
      (dataResult, fun i => if i = 0 then mkRat 37 10 else mkRat (-37) 10)
    GetAttributeIntData := fun _ _ _ _ _ _ _ => (dataResult, fun i => if i = 0 then 5 else -2)
    GetAttributeStringData := fun _ _ _ _ _ _ => (dataResult, fun i => if i = 0 then 7 else 8)
    ToFString := fun sh => if sh = 7 then "12" else "abc" }

/-- A session with one attribute, present on the detail owner only, of the given storage,
with two elements of tuple size one. The float slots hold `2147483648` (the least value
above the `int32` range) and `37/10`; the integer slots hold `16777217` (the least
positive integer that is no single-precision value) and `-3`. -/
def wideValueApi (storage : HAPI_StorageType) : FHoudiniApi :=
  { GetAttributeInfo := fun _ _ _ owner =>
      if owner = HAPI_AttributeOwner.HAPI_ATTROWNER_DETAIL then
        (HAPI_Result.HAPI_RESULT_SUCCESS,
          attributeOn HAPI_AttributeOwner.HAPI_ATTROWNER_DETAIL storage 2 1)
      else (HAPI_Result.HAPI_RESULT_SUCCESS, AttributeInfo_Init)
    GetAttributeFloatData := fun _ _ _ _ _ _ _ =>
      (HAPI_Result.HAPI_RESULT_SUCCESS,
        fun i => if i = 0 then mkRat 2147483648 1 else mkRat 37 10)
    GetAttributeIntData := fun _ _ _ _ _ _ _ =>
      (HAPI_Result.HAPI_RESULT_SUCCESS, fun i => if i = 0 then 16777217 else -3)
    GetAttributeStringData := fun _ _ _ _ _ _ => (HAPI_Result.HAPI_RESULT_FAILURE, fun _ => 0)
    ToFString := fun _ => "" }

/-- A session with one string attribute on the detail owner, four elements of tuple size
one, whose slots hold the handles `7, 7, -1, 8`; handle `7` resolves to `"12"`, handle
`8` to `"345"`. -/
def repeatedHandlesApi : FHoudiniApi :=
  { GetAttributeInfo := fun _ _ _ owner =>
      if owner = HAPI_AttributeOwner.HAPI_ATTROWNER_DETAIL then
        (HAPI_Result.HAPI_RESULT_SUCCESS,
          attributeOn HAPI_AttributeOwner.HAPI_ATTROWNER_DETAIL
            HAPI_StorageType.HAPI_STORAGETYPE_STRING 4 1)
      else (HAPI_Result.HAPI_RESULT_SUCCESS, AttributeInfo_Init)
    GetAttributeFloatData := fun _ _ _ _ _ _ _ => (HAPI_Result.HAPI_RESULT_FAILURE, fun _ => 0)
    GetAttributeIntData := fun _ _ _ _ _ _ _ => (HAPI_Result.HAPI_RESULT_FAILURE, fun _ => 0)
    GetAttributeStringData := fun _ _ _ _ _ _ =>
      (HAPI_Result.HAPI_RESULT_SUCCESS,
        fun i => if i = 0 then 7 else if i = 1 then 7 else if i = 2 then -1 else 8)
    ToFString := fun sh => if sh = 7 then "12" else "345" }

/-- A session with one string attribute on the detail owner, two elements of tuple size
one, with the handles `7` and `8`, which resolve to the numeric texts `"12"` and
`"345"`. -/
def numericStringsApi : FHoudiniApi :=
  { GetAttributeInfo := fun _ _ _ owner =>
      if owner = HAPI_AttributeOwner.HAPI_ATTROWNER_DETAIL then
        (HAPI_Result.HAPI_RESULT_SUCCESS,
          attributeOn HAPI_AttributeOwner.HAPI_ATTROWNER_DETAIL
            HAPI_StorageType.HAPI_STORAGETYPE_STRING 2 1)
      else (HAPI_Result.HAPI_RESULT_SUCCESS, AttributeInfo_Init)
    GetAttributeFloatData := fun _ _ _ _ _ _ _ => (HAPI_Result.HAPI_RESULT_FAILURE, fun _ => 0)
    GetAttributeIntData := fun _ _ _ _ _ _ _ => (HAPI_Result.HAPI_RESULT_FAILURE, fun _ => 0)
    GetAttributeStringData := fun _ _ _ _ _ _ =>
      (HAPI_Result.HAPI_RESULT_SUCCESS, fun i => if i = 0 then 7 else 8)
    ToFString := fun sh => if sh = 7 then "12" else "345" }

/-- Invariant of the handle loop: the map holds exactly the handles that were passed to
the resolver, each with the resolver's text; no handle was passed twice; every handle
passed is non-negative. -/
def MemoInvariant (ToFString : Int → String) (st : StringHandleLoop) : Prop :=
  (∀ h str, st.StringHandleToStringMap.lookup h = some str → str = ToFString h)
  ∧ (∀ h, h ∈ st.Calls ↔ (st.StringHandleToStringMap.lookup h).isSome = true)
  ∧ st.Calls.Nodup
  ∧ (∀ h ∈ st.Calls, 0 ≤ h)

/-- The output length the tuple size override calls for: `c * s` entries for a positive
override `s`, `c * n` entries (native tuple size `n`) for a zero or negative one. -/
def SizedByOverride (len c n : Nat) (s : Int) : Prop :=
  (0 < s → (len : Int) = (c : Int) * s) ∧ (s ≤ 0 → len = c * n)

/-! ## Identifier sanitisation -/

/-- The terminating character `TEXT('\0')` of a character array. -/
def NulChar : Char := Char.ofNat 0

/-- `FString::GetCharArray`: the characters of the string followed by the terminating
NUL; the array of the empty string is empty. -/
def GetCharArray (Str : String) : List Char :=
  if Str.data = [] then [] else Str.data ++ [NulChar]

/-- The string held by a character array: its entries without the last one, which is the
terminator. -/
def stringOfCharArray (StrArray : List Char) : String := ⟨StrArray.dropLast⟩

/-- The test `bIsValid` of `SanitizeHAPIVariableName`. -/
def bIsValid (CurChar : Char) : Bool :=
  (decide ('A' ≤ CurChar) && decide (CurChar ≤ 'Z'))
    || (decide ('a' ≤ CurChar) && decide (CurChar ≤ 'z'))
    || (decide ('0' ≤ CurChar) && decide (CurChar ≤ '9'))
    || (CurChar == '_') || (CurChar == NulChar)

/-- The test `FirstChar >= TEXT('0') && FirstChar <= TEXT('9')`. -/
def isDigitChar (c : Char) : Bool := decide ('0' ≤ c) && decide (c ≤ '9')

/-- `FHoudiniEngineUtils::SanitizeHAPIVariableName`: the result and the in-out string. -/
def SanitizeHAPIVariableName (Str : String) : Bool × String :=
  let StrArray := GetCharArray Str
  if StrArray.length ≤ 0 then (false, Str)
  else
    let StrArray := StrArray.map (fun CurChar => if bIsValid CurChar then CurChar else '_')
    let StrArray :=
      match StrArray with
      | [] => StrArray
      | FirstChar :: _ => if isDigitChar FirstChar then '_' :: StrArray else StrArray
    (true, stringOfCharArray StrArray)

/-- Membership in the character class `[A-Za-z0-9_]`. -/
def isIdentifierChar (c : Char) : Bool :=
  (decide ('A' ≤ c) && decide (c ≤ 'Z'))
    || (decide ('a' ≤ c) && decide (c ≤ 'z'))
    || (decide ('0' ≤ c) && decide (c ≤ '9'))
    || (c == '_')

/-- The rewriting in the spec's words: every character outside `[A-Za-z0-9_]` is replaced
one-for-one by `'_'`, then a single `'_'` is put in front if and only if the first
character is a digit. -/
def sanitizedBySpec (Str : String) : String :=
  let replaced := Str.data.map (fun c => if isIdentifierChar c then c else '_')
  match Str.data with
  | [] => ⟨replaced⟩
  | first :: _ => if isDigitChar first then ⟨'_' :: replaced⟩ else ⟨replaced⟩

/-! ## Tag attributes -/

/-- The `while (bAttributeFound)` loop of `GetUnrealTagAttributes`, with the number of
iterations still allowed; `none` when they are used up. Slot `0` of `StringData` is read
as the empty text when the array has no slot. -/
def GetUnrealTagAttributesLoop (api : FHoudiniApi) (lib : FStringLibrary)
    (GeoId PartId : Int) : Nat → Int → List String → Option (List String)
  | 0, _, _ => none
  | fuel + 1, TagIdx, OutTags =>
    let CurrentTagAttr := "unreal_tag_" ++ FString_FromInt TagIdx
    let bAttributeFound := HapiCheckAttributeExists api GeoId PartId CurrentTagAttr
      HAPI_AttributeOwner.HAPI_ATTROWNER_PRIM
    if !bAttributeFound then some OutTags
    else
      let r := HapiGetAttributeDataAsString api lib GeoId PartId CurrentTagAttr
        AttributeInfo_Init 1 HAPI_AttributeOwner.HAPI_ATTROWNER_PRIM
      let TagValue := if r.ok then r.OutData[0]?.getD "" else ""
      GetUnrealTagAttributesLoop api lib GeoId PartId fuel (TagIdx + 1) (OutTags ++ [TagValue])

/-- `FHoudiniEngineUtils::GetUnrealTagAttributes`: the result and the in-out array
`OutTags` (tags kept as the text their `FName` is made from). -/
def GetUnrealTagAttributes (api : FHoudiniApi) (lib : FStringLibrary) (GeoId PartId : Int)
    (OutTags : List String) (fuel : Nat) : Option (Bool × List String) :=
  (GetUnrealTagAttributesLoop api lib GeoId PartId fuel 0 OutTags).map (fun tags => (true, tags))

/-- A session with the single string attribute `unreal_tag_0` on the given owner: one
element of tuple size one, whose handle `7` resolves to `"Foo"`. -/
def tagOnOwnerApi (owner : HAPI_AttributeOwner) : FHoudiniApi :=
  { GetAttributeInfo := fun _ _ name o =>
      if name = "unreal_tag_0" ∧ o = owner then
        (HAPI_Result.HAPI_RESULT_SUCCESS,
          attributeOn owner HAPI_StorageType.HAPI_STORAGETYPE_STRING 1 1)
      else (HAPI_Result.HAPI_RESULT_SUCCESS, AttributeInfo_Init)
    GetAttributeFloatData := fun _ _ _ _ _ _ _ => (HAPI_Result.HAPI_RESULT_FAILURE, fun _ => 0)
    GetAttributeIntData := fun _ _ _ _ _ _ _ => (HAPI_Result.HAPI_RESULT_FAILURE, fun _ => 0)
    GetAttributeStringData := fun _ _ _ _ _ _ => (HAPI_Result.HAPI_RESULT_SUCCESS, fun _ => 7)
    ToFString := fun _ => "Foo" }

/-! ## Asset state -/

/-- The enumeration `EHoudiniAssetState` of `HoudiniAssetComponent.h`, in declaration
order. -/
inductive EHoudiniAssetState where
  | NeedInstantiation
  | PreInstantiation
  | Instantiating
  | PreCook
  | Cooking
  | PostCook
  | PreProcess
  | Processing
  | None
  | NeedRebuild
  | NeedDelete
  | Deleting
  | ProcessTemplate
  deriving DecidableEq, Repr

/-- The `uint8` value of a state: its position in the declaration. -/
def EHoudiniAssetState.toUInt8 : EHoudiniAssetState → Nat
  | NeedInstantiation => 0
  | PreInstantiation => 1
  | Instantiating => 2
  | PreCook => 3
  | Cooking => 4
  | PostCook => 5
  | PreProcess => 6
  | Processing => 7
  | None => 8
  | NeedRebuild => 9
  | NeedDelete => 10
  | Deleting => 11
  | ProcessTemplate => 12

/-- The part of `UHoudiniAssetComponent` read here: its `AssetState`, its `AssetId` (what
`GetAssetId` returns, `-1` on construction) and whether `IsPendingKill` holds of it. -/
structure UHoudiniAssetComponent where
  AssetState : EHoudiniAssetState
  AssetId : Int := -1
  bPendingKill : Bool := false
  deriving DecidableEq, Repr

/-- The objects `IsHoudiniAssetComponentCooking` tells apart: an asset component, a
parameter with its outer object (possibly null), any other object. -/
inductive UObject where
  | HoudiniAssetComponent (Component : UHoudiniAssetComponent)
  | HoudiniParameter (Outer : Option UObject)
  | Other

/-- `Cast<UHoudiniAssetComponent>`: the component when the object is one, null otherwise. -/
def CastToHoudiniAssetComponent : Option UObject → Option UHoudiniAssetComponent
  | some (UObject.HoudiniAssetComponent Component) => some Component
  | _ => none

/-- `FHoudiniEngineUtils::IsHoudiniAssetComponentCooking`; a null pointer is `none`. -/
def IsHoudiniAssetComponentCooking (InObj : Option UObject) : Bool :=
  match InObj with
  | none => false
  | some Obj =>
    let HoudiniAssetComponent : Option UHoudiniAssetComponent :=
      match Obj with
      | UObject.HoudiniAssetComponent Component => some Component
      | UObject.HoudiniParameter Outer => CastToHoudiniAssetComponent Outer
      | UObject.Other => none
    match HoudiniAssetComponent with
    | none => false
    | some Component =>
      let AssetState := Component.AssetState
      decide (EHoudiniAssetState.PreCook.toUInt8 ≤ AssetState.toUInt8)
        && decide (AssetState.toUInt8 ≤ EHoudiniAssetState.PostCook.toUInt8)

/-! ## Cook state polling -/

/-- Modelled from the spec: the cook-state code `Ready` of the engine header, which is not
among the files of this repository. The three ready codes are the ones not above
`HAPI_STATE_MAX_READY_STATE`; every busy code lies above it. -/
def HAPI_STATE_READY : Int := 0

/-- Modelled from the spec: the cook-state code `ReadyWithFatalErrors`. -/
def HAPI_STATE_READY_WITH_FATAL_ERRORS : Int := 1

/-- Modelled from the spec: the cook-state code `ReadyWithCookErrors`. -/
def HAPI_STATE_READY_WITH_COOK_ERRORS : Int := 2

/-- Modelled from the spec: the busy cook-state code "starting cook". -/
def HAPI_STATE_STARTING_COOK : Int := 3

/-- Modelled from the spec: the busy cook-state code "cooking". -/
def HAPI_STATE_COOKING : Int := 4

/-- Modelled from the spec: the busy cook-state code "starting load". -/
def HAPI_STATE_STARTING_LOAD : Int := 5

/-- Modelled from the spec: the busy cook-state code "loading". -/
def HAPI_STATE_LOADING : Int := 6

/-- Modelled from the spec: the largest ready code, `HAPI_STATE_READY_WITH_COOK_ERRORS`. -/
def HAPI_STATE_MAX_READY_STATE : Int := HAPI_STATE_READY_WITH_COOK_ERRORS

/-- Answer of one `FHoudiniApi::GetStatus(…, HAPI_STATUS_COOK_STATE, &Status)` call: its
result code and the value it stored in `Status`, if it stored one. -/
structure StatusReply where
  result : HAPI_Result
  written : Option Int
  deriving DecidableEq, Repr

/-- The session as seen by `CreateNode` and `HapiCookNode`: the cook request, the node
creation (result code and new node id), and the answer to the k-th status query. -/
structure FHoudiniCookApi where
  CookNode : Int → HAPI_Result
  CreateNode : Int → String → String → Bool → HAPI_Result × Int
  GetStatus : Nat → StatusReply

/-- The value of `Status` in the k-th round of the loop of `HapiCookNode`: the variable is
set to `HAPI_STATE_STARTING_COOK` and then handed to the status query. -/
def cookStatusAt (api : FHoudiniCookApi) (k : Nat) : Int :=
  (api.GetStatus k).written.getD HAPI_STATE_STARTING_COOK

/-- One of the three statuses `Ready`, `ReadyWithFatalErrors`, `ReadyWithCookErrors`. -/
def isReadyStatus (Status : Int) : Bool :=
  decide (Status = HAPI_STATE_READY)
    || decide (Status = HAPI_STATE_READY_WITH_FATAL_ERRORS)
    || decide (Status = HAPI_STATE_READY_WITH_COOK_ERRORS)

/-- What `HapiCookNode` hands back, with the number of status queries it issued. -/
structure CookNodeOutcome where
  result : Bool
  queries : Nat
  deriving DecidableEq, Repr

/-- The loop `while (true)` of `HapiCookNode` from the k-th status query on, with the
number of rounds still allowed; `none` when they are used up. The result code of the
query is only logged. -/
def HapiCookNodePoll (api : FHoudiniCookApi) : Nat → Nat → Option CookNodeOutcome
  | 0, _ => none
  | fuel + 1, k =>
    let Status := cookStatusAt api k
    if Status = HAPI_STATE_READY then
      some { result := true, queries := k + 1 }
    else if Status = HAPI_STATE_READY_WITH_FATAL_ERRORS
        ∨ Status = HAPI_STATE_READY_WITH_COOK_ERRORS then
      some { result := false, queries := k + 1 }
    else
      HapiCookNodePoll api fuel (k + 1)

/-- `FHoudiniEngineUtils::HapiCookNode`. Both branches on `InCookOptions` issue the same
cook request. -/
def HapiCookNode (api : FHoudiniCookApi) (InNodeId : Int) (bWaitForCompletion : Bool)
    (fuel : Nat) : Option CookNodeOutcome :=
  if InNodeId < 0 then some { result := false, queries := 0 }
  else if api.CookNode InNodeId ≠ HAPI_Result.HAPI_RESULT_SUCCESS then
    some { result := false, queries := 0 }
  else if !bWaitForCompletion then some { result := true, queries := 0 }
  else HapiCookNodePoll api fuel 0

/-- The loop `while (CurrentStatus > HAPI_STATE_MAX_READY_STATE)` of `CreateNode` from the
k-th status query on; it yields the value of `CurrentStatus` on leaving the loop, `none`
when the rounds allowed are used up. A failed query breaks out of the loop. -/
def CreateNodePoll (api : FHoudiniCookApi) : Nat → Nat → Int → Option Int
  | 0, _, CurrentStatus =>
    if CurrentStatus > HAPI_STATE_MAX_READY_STATE then none else some CurrentStatus
  | fuel + 1, k, CurrentStatus =>
    if CurrentStatus > HAPI_STATE_MAX_READY_STATE then
      let reply := api.GetStatus k
      let CurrentStatus := reply.written.getD CurrentStatus
      if reply.result ≠ HAPI_Result.HAPI_RESULT_SUCCESS then some CurrentStatus
      else CreateNodePoll api fuel (k + 1) CurrentStatus
    else some CurrentStatus

/-- `FHoudiniEngineUtils::CreateNode`: the result code and `*OutNewNodeId`. -/
def CreateNode (api : FHoudiniCookApi) (InParentNodeId : Int)
    (InOperatorName InNodeLabel : String) (bInCookOnCreation : Bool) (fuel : Nat) :
    Option (HAPI_Result × Int) :=
  let r := api.CreateNode InParentNodeId InOperatorName InNodeLabel bInCookOnCreation
  if r.1 ≠ HAPI_Result.HAPI_RESULT_SUCCESS then some (r.1, r.2)
  else
    match CreateNodePoll api fuel 0 HAPI_STATE_STARTING_LOAD with
    | none => none
    | some CurrentStatus =>
      if CurrentStatus = HAPI_STATE_READY_WITH_FATAL_ERRORS then
        some (HAPI_Result.HAPI_RESULT_FAILURE, r.2)
      else some (HAPI_Result.HAPI_RESULT_SUCCESS, r.2)

/-- A session whose cook request and node creation succeed (new node id `42`) and whose
status queries answer "cooking" twice and then `final` for ever. -/
def cookingThenApi (final : Int) : FHoudiniCookApi :=
  { CookNode := fun _ => HAPI_Result.HAPI_RESULT_SUCCESS
    CreateNode := fun _ _ _ _ => (HAPI_Result.HAPI_RESULT_SUCCESS, 42)
    GetStatus := fun k =>
      if k < 2 then { result := HAPI_Result.HAPI_RESULT_SUCCESS, written := some HAPI_STATE_COOKING }
      else { result := HAPI_Result.HAPI_RESULT_SUCCESS, written := some final } }

/-! ## Node, parameter and group queries -/

/-- Node types of the engine: the source tells `HAPI_NODETYPE_SOP` (geometry level) and
`HAPI_NODETYPE_OBJ` (object level) apart from every other type. -/
inductive HAPI_NodeType where
  | HAPI_NODETYPE_ANY
  | HAPI_NODETYPE_NONE
  | HAPI_NODETYPE_OBJ
  | HAPI_NODETYPE_SOP
  | HAPI_NODETYPE_OTHER
  deriving DecidableEq, Repr

/-- The fields of `HAPI_NodeInfo` read by the queries. -/
structure HAPI_NodeInfo where
  id : Int
  parentId : Int
  type : HAPI_NodeType
  parmCount : Int
  deriving DecidableEq, Repr

/-- An object info record `HAPI_ObjectInfo`, identified by its node id and name handle. -/
structure HAPI_ObjectInfo where
  nodeId : Int
  nameSH : Int
  deriving DecidableEq, Repr

/-- A parameter info record `HAPI_ParmInfo`, identified by its id and name handle. -/
structure HAPI_ParmInfo where
  id : Int
  nameSH : Int
  deriving DecidableEq, Repr

/-- `FHoudiniApi::ParmInfo_Init`: the cleared parameter info. -/
def ParmInfo_Init : HAPI_ParmInfo := { id := -1, nameSH := 0 }

/-- The session as seen by the node and parameter queries. Every call returns its result
code together with what its out-parameter holds after the call. -/
structure FHoudiniNodeApi where
  GetNodeInfo : Int → HAPI_Result × HAPI_NodeInfo
  GetObjectInfo : Int → HAPI_Result × HAPI_ObjectInfo
  ComposeObjectList : Int → HAPI_Result × Int
  GetComposedObjectList : Int → Nat → Int → HAPI_Result × (Nat → HAPI_ObjectInfo)
  GetParmIdFromName : Int → String → HAPI_Result × Int
  GetParmWithTag : Int → String → HAPI_Result × Int
  GetParmInfo : Int → Int → HAPI_Result × HAPI_ParmInfo

/-- `FHoudiniEngineUtils::HapiGetObjectInfos`: the result and the in-out array
`OutObjectInfos`. -/
def HapiGetObjectInfos (api : FHoudiniNodeApi) (InNodeId : Int)
    (OutObjectInfos : List HAPI_ObjectInfo) : Bool × List HAPI_ObjectInfo :=
  let n := api.GetNodeInfo InNodeId
  if n.1 ≠ HAPI_Result.HAPI_RESULT_SUCCESS then (false, OutObjectInfos)
  else
    let NodeInfo := n.2
    if NodeInfo.type = HAPI_NodeType.HAPI_NODETYPE_SOP then
      let r := api.GetObjectInfo NodeInfo.parentId
      (decide (r.1 = HAPI_Result.HAPI_RESULT_SUCCESS), [r.2])
    else if NodeInfo.type = HAPI_NodeType.HAPI_NODETYPE_OBJ then
      let c := api.ComposeObjectList InNodeId
      if c.1 ≠ HAPI_Result.HAPI_RESULT_SUCCESS then (false, OutObjectInfos)
      else
        let ObjectCount := c.2
        if ObjectCount ≤ 0 then
          let r := api.GetObjectInfo InNodeId
          (decide (r.1 = HAPI_Result.HAPI_RESULT_SUCCESS), [r.2])
        else
          let r := api.GetComposedObjectList InNodeId 0 ObjectCount
          (decide (r.1 = HAPI_Result.HAPI_RESULT_SUCCESS), fillBuffer ObjectCount.toNat r.2)
    else (false, OutObjectInfos)

/-- `FHoudiniEngineUtils::HapiFindParameterByNameOrTag(NodeId, ParmName)`. -/
def HapiFindParameterByNameOrTag (api : FHoudiniNodeApi) (NodeId : Int) (ParmName : String) :
    Int :=
  -- First, try to find the parameter by its name
  let r := api.GetParmIdFromName NodeId ParmName
  if r.1 ≠ HAPI_Result.HAPI_RESULT_SUCCESS then -1
  else
    let ParmId := r.2
    if ParmId ≥ 0 then ParmId
    else
      -- Second, try to find it by its tag
      let t := api.GetParmWithTag NodeId ParmName
      if t.1 ≠ HAPI_Result.HAPI_RESULT_SUCCESS then -1
      else
        let ParmId := t.2
        if ParmId ≥ 0 then ParmId else -1

/-- `FHoudiniEngineUtils::HapiFindParameterByNameOrTag(NodeId, ParmName, FoundParmInfo)`:
the id returned and `FoundParmInfo`. The result code of `GetNodeInfo` is not looked at. -/
def HapiFindParameterByNameOrTag_ParmInfo (api : FHoudiniNodeApi) (NodeId : Int)
    (ParmName : String) : Int × HAPI_ParmInfo :=
  let FoundParmInfo := ParmInfo_Init
  let NodeInfo := (api.GetNodeInfo NodeId).2
  if NodeInfo.parmCount ≤ 0 then (-1, FoundParmInfo)
  else
    let ParmId := HapiFindParameterByNameOrTag api NodeInfo.id ParmName
    if ParmId < 0 ∨ ParmId ≥ NodeInfo.parmCount then (-1, FoundParmInfo)
    else
      let g := api.GetParmInfo NodeId ParmId
      if g.1 ≠ HAPI_Result.HAPI_RESULT_SUCCESS then (-1, g.2) else (ParmId, g.2)

/-- Group types of the engine named by the source. -/
inductive HAPI_GroupType where
  | HAPI_GROUPTYPE_INVALID
  | HAPI_GROUPTYPE_POINT
  | HAPI_GROUPTYPE_PRIM
  deriving DecidableEq, Repr

/-- The fields of `HAPI_PartInfo` read by the group queries. -/
structure HAPI_PartInfo where
  id : Int
  faceCount : Int
  vertexCount : Int
  pointCount : Int
  isInstanced : Bool
  deriving DecidableEq, Repr

/-- Answer of a group membership call: its result code, the value `OutAllEquals` holds
after the call, and for every slot of the membership buffer the value it holds after the
call. -/
structure GroupMembershipReply where
  result : HAPI_Result
  membership_array_all_equal : Bool
  membership : Nat → Int

/-- The session as seen by `HapiGetGroupMembership`: the two membership calls, by geometry
id, part id, group type, group name, start and length. -/
structure FHoudiniGroupApi where
  GetGroupMembership : Int → Int → HAPI_GroupType → String → Nat → Int → GroupMembershipReply
  GetGroupMembershipOnPackedInstancePart :
    Int → Int → HAPI_GroupType → String → Nat → Int → GroupMembershipReply

/-- What `HapiGetGroupMembership` leaves behind: its result, its two out-parameters, and
the number of engine calls it issued. -/
structure GroupMembershipOutcome where
  result : Bool
  OutGroupMembership : List Int
  OutAllEquals : Bool
  engineCalls : Nat
  deriving DecidableEq, Repr

/-- `FHoudiniEngineUtils::HapiGetGroupMembership`. -/
def HapiGetGroupMembership (api : FHoudiniGroupApi) (GeoId : Int) (PartInfo : HAPI_PartInfo)
    (GroupType : HAPI_GroupType) (GroupName : String) (OutGroupMembership : List Int)
    (OutAllEquals : Bool) : GroupMembershipOutcome :=
  let ElementCount :=
    if GroupType = HAPI_GroupType.HAPI_GROUPTYPE_POINT then PartInfo.pointCount
    else PartInfo.faceCount
  if ElementCount < 1 then
    { result := false, OutGroupMembership := OutGroupMembership, OutAllEquals := OutAllEquals
      engineCalls := 0 }
  else
    let reply :=
      if !PartInfo.isInstanced then
        api.GetGroupMembership GeoId PartInfo.id GroupType GroupName 0 ElementCount
      else
        api.GetGroupMembershipOnPackedInstancePart GeoId PartInfo.id GroupType GroupName 0
          ElementCount
    { result := decide (reply.result = HAPI_Result.HAPI_RESULT_SUCCESS)
      OutGroupMembership := fillBuffer ElementCount.toNat reply.membership
      OutAllEquals := reply.membership_array_all_equal
      engineCalls := 1 }

/-- The element count `HapiGetGroupMembership` works with. -/
def groupElementCount (PartInfo : HAPI_PartInfo) (GroupType : HAPI_GroupType) : Int :=
  if GroupType = HAPI_GroupType.HAPI_GROUPTYPE_POINT then PartInfo.pointCount
  else PartInfo.faceCount

/-- A session for the node queries: node `1` is a geometry node with parent `10`, node `2`
an object node with three composed objects, node `3` an object node composing none, every
other node is of another type; the parameter `"scale"` has id `4` by name, `"tagged"` has
id `6` by tag only; nodes report eight parameters. -/
def sampleNodeApi : FHoudiniNodeApi :=
  { GetNodeInfo := fun n =>
      (HAPI_Result.HAPI_RESULT_SUCCESS,
        { id := n, parentId := 10 * n, parmCount := 8
          type := if n = 1 then HAPI_NodeType.HAPI_NODETYPE_SOP
            else if n = 2 ∨ n = 3 then HAPI_NodeType.HAPI_NODETYPE_OBJ
            else HAPI_NodeType.HAPI_NODETYPE_OTHER })
    GetObjectInfo := fun n => (HAPI_Result.HAPI_RESULT_SUCCESS, { nodeId := n, nameSH := 0 })
    ComposeObjectList := fun n => (HAPI_Result.HAPI_RESULT_SUCCESS, if n = 2 then 3 else 0)
    GetComposedObjectList := fun n _ _ =>
      (HAPI_Result.HAPI_RESULT_SUCCESS, fun i => { nodeId := 100 * n + i, nameSH := 0 })
    GetParmIdFromName := fun _ name =>
      (HAPI_Result.HAPI_RESULT_SUCCESS, if name = "scale" then 4 else -1)
    GetParmWithTag := fun _ name =>
      (HAPI_Result.HAPI_RESULT_SUCCESS, if name = "tagged" then 6 else -1)
    GetParmInfo := fun _ id => (HAPI_Result.HAPI_RESULT_SUCCESS, { id := id, nameSH := 0 }) }

/-- A session for the group queries in which the even elements are members. -/
def evenMembersApi : FHoudiniGroupApi :=
  { GetGroupMembership := fun _ _ _ _ _ _ =>
      { result := HAPI_Result.HAPI_RESULT_SUCCESS, membership_array_all_equal := false
        membership := fun i => if i % 2 = 0 then 1 else 0 }
    GetGroupMembershipOnPackedInstancePart := fun _ _ _ _ _ _ =>
      { result := HAPI_Result.HAPI_RESULT_SUCCESS, membership_array_all_equal := false
        membership := fun i => if i % 2 = 0 then 1 else 0 } }

/-- A part with five points and no faces, not instanced. -/
def fivePointPart : HAPI_PartInfo :=
  { id := 0, faceCount := 0, vertexCount := 0, pointCount := 5, isInstanced := false }

/-- The number a run of decimal digit characters stands for. -/
def decimalValue (ds : List Char) : Nat := ds.foldl (fun a c => 10 * a + (c.toNat - 48)) 0

/-! ## Group membership flag and vertex lists -/

/-- The reply of the membership call `HapiGetGroupMembership` issues for a part with at
least one element. -/
def groupMembershipReply (api : FHoudiniGroupApi) (GeoId : Int) (PartInfo : HAPI_PartInfo)
    (GroupType : HAPI_GroupType) (GroupName : String) : GroupMembershipReply :=
  if !PartInfo.isInstanced then
    api.GetGroupMembership GeoId PartInfo.id GroupType GroupName 0
      (groupElementCount PartInfo GroupType)
  else
    api.GetGroupMembershipOnPackedInstancePart GeoId PartInfo.id GroupType GroupName 0
      (groupElementCount PartInfo GroupType)

/-- Modelled from the spec: the engine's all-equal flag is a "shortcut flag meaning every
element has identical membership"; the engine itself is not part of this repository. A
reply over `n` elements conforms when its flag is set exactly when its first `n`
membership entries are all equal. -/
def FlagsUniformMembership (reply : GroupMembershipReply) (n : Nat) : Prop :=
  reply.membership_array_all_equal = true
    ↔ ∀ i j, i < n → j < n → reply.membership i = reply.membership j

/-- A session for the group queries in which no element is a member of any group and the
flag reports the uniform membership. -/
def noMembersApi : FHoudiniGroupApi :=
  { GetGroupMembership := fun _ _ _ _ _ _ =>
      { result := HAPI_Result.HAPI_RESULT_SUCCESS, membership_array_all_equal := true
        membership := fun _ => 0 }
    GetGroupMembershipOnPackedInstancePart := fun _ _ _ _ _ _ =>
      { result := HAPI_Result.HAPI_RESULT_SUCCESS, membership_array_all_equal := true
        membership := fun _ => 0 } }

/-- A session for the group queries in which every element is a member of every group. -/
def allMembersApi : FHoudiniGroupApi :=
  { GetGroupMembership := fun _ _ _ _ _ _ =>
      { result := HAPI_Result.HAPI_RESULT_SUCCESS, membership_array_all_equal := true
        membership := fun _ => 1 }
    GetGroupMembershipOnPackedInstancePart := fun _ _ _ _ _ _ =>
      { result := HAPI_Result.HAPI_RESULT_SUCCESS, membership_array_all_equal := true
        membership := fun _ => 1 } }

/-! ## Vertex list of a group: definitions -/

/-- The variables the face loop of `HapiGetVertexListForGroup` works on. -/
structure VertexListLoop where
  ProcessedWedges : Nat
  NewVertexList : List Int
  AllVertexList : List Int
  AllFaceList : List Nat
  AllGroupFaceIndices : List Int
  FirstValidVertex : Nat
  FirstValidPrim : Nat
  deriving DecidableEq, Repr

/-- The loop "go through all primitives" of `HapiGetVertexListForGroup`, from face
`FaceIdx` on, over the membership entries still to visit. A slot of `FullVertexList` is
read only after `IsValidIndex` has accepted the last index of the face. -/
def vertexListForGroupLoop (FullVertexList : List Int) :
    Nat → List Int → VertexListLoop → VertexListLoop
  | _, [], st => st
  | FaceIdx, Membership :: rest, st =>
    if Membership ≤ 0 then
      -- The face is not in the group, skip
      vertexListForGroupLoop FullVertexList (FaceIdx + 1) rest st
    else
      let FirstVertexIdx := FaceIdx * 3
      let SecondVertexIdx := FirstVertexIdx + 1
      let LastVertexIdx := FirstVertexIdx + 2
      vertexListForGroupLoop FullVertexList (FaceIdx + 1) rest
        { AllFaceList := st.AllFaceList ++ [FaceIdx]
          NewVertexList :=
            if LastVertexIdx < FullVertexList.length then
              ((st.NewVertexList.set FirstVertexIdx (FullVertexList.getD FirstVertexIdx 0)).set
                SecondVertexIdx (FullVertexList.getD SecondVertexIdx 0)).set
                LastVertexIdx (FullVertexList.getD LastVertexIdx 0)
            else st.NewVertexList
          AllVertexList :=
            if LastVertexIdx < st.AllVertexList.length then
              ((st.AllVertexList.set FirstVertexIdx 1).set SecondVertexIdx 1).set LastVertexIdx 1
            else st.AllVertexList
          AllGroupFaceIndices :=
            if FaceIdx < st.AllGroupFaceIndices.length then st.AllGroupFaceIndices.set FaceIdx 1
            else st.AllGroupFaceIndices
          FirstValidVertex :=
            if st.ProcessedWedges = 0 then FirstVertexIdx else st.FirstValidVertex
          FirstValidPrim := if st.ProcessedWedges = 0 then FaceIdx else st.FirstValidPrim
          ProcessedWedges := st.ProcessedWedges + 3 }

/-- What `HapiGetVertexListForGroup` leaves behind: the value returned and its out- and
in-out-parameters. -/
structure VertexListOutcome where
  result : Nat
  lists : VertexListLoop
  deriving DecidableEq, Repr

/-- `FHoudiniEngineUtils::HapiGetVertexListForGroup`. `AllVertexList` and
`AllGroupFaceIndices` are in-out arrays; `return false` is the value `0`. -/
def HapiGetVertexListForGroup (api : FHoudiniGroupApi) (GeoId : Int) (PartInfo : HAPI_PartInfo)
    (GroupName : String) (FullVertexList AllVertexList AllGroupFaceIndices : List Int) :
    VertexListOutcome :=
  let start : VertexListLoop :=
    { ProcessedWedges := 0
      AllFaceList := []
      FirstValidPrim := 0
      FirstValidVertex := 0
      NewVertexList := List.replicate FullVertexList.length (-1)
      AllVertexList := AllVertexList
      AllGroupFaceIndices := AllGroupFaceIndices }
  -- Get the faces membership for this group
  let m := HapiGetGroupMembership api GeoId PartInfo HAPI_GroupType.HAPI_GROUPTYPE_PRIM
    GroupName [] false
  if !m.result then { result := 0, lists := start }
  else
    let st := vertexListForGroupLoop FullVertexList 0 m.OutGroupMembership start
    { result := st.ProcessedWedges, lists := st }

/-- The member faces among the entries still to visit, counted from face `k`: the faces
with a positive membership entry, in increasing order. -/
def memberFacesFrom : Nat → List Int → List Nat
  | _, [] => []
  | k, m :: rest => if m ≤ 0 then memberFacesFrom (k + 1) rest else k :: memberFacesFrom (k + 1) rest

/-- A part with three faces and nine vertices, not instanced. -/
def threeFacePart : HAPI_PartInfo :=
  { id := 0, faceCount := 3, vertexCount := 9, pointCount := 5, isInstanced := false }

/-! ## Generic attributes: definitions -/

/-- Modelled from the spec: `FHoudiniGenericAttribute` is declared in a header that is not
among the files of this repository. The fields are the ones `GetGenericAttributeList`
writes; the three value arrays of a freshly constructed record are empty. The casts
`(EAttribStorageType)` and `(EAttribOwner)` keep the engine's tags. -/
structure FHoudiniGenericAttribute where
  AttributeName : String
  AttributeType : HAPI_StorageType
  AttributeOwner : HAPI_AttributeOwner
  AttributeCount : Nat
  AttributeTupleSize : Nat
  DoubleValues : List ℚ
  IntValues : List Int
  StringValues : List String
  deriving DecidableEq, Repr

/-- The engine session as seen by `GetGenericAttributeList`: the calls of `FHoudiniApi`
and four more. `GetPartInfo` gives, next to its result code, the table
`PartInfo.attributeCounts` it leaves; `GetAttributeNames` and the two 64-bit data calls
give, for every slot of the caller's buffer, the value the slot holds after the call. -/
structure FHoudiniGenericApi extends FHoudiniApi where
  GetPartInfo : Int → Int → HAPI_Result × (HAPI_AttributeOwner → Nat)
  GetAttributeNames : Int → Int → HAPI_AttributeOwner → Nat → HAPI_Result × (Nat → Int)
  GetAttributeFloat64Data :
    Int → Int → String → HAPI_AttributeInfo → Int → Nat → Nat → HAPI_Result × (Nat → ℚ)
  GetAttributeInt64Data :
    Int → Int → String → HAPI_AttributeInfo → Int → Nat → Nat → HAPI_Result × (Nat → Int)

/-- Unreal's `FString::Right(Count)`: the rightmost `Count` characters, `Count` clamped to
the length of the string. -/
def FString_Right (s : String) (Count : Int) : String :=
  String.mk (s.data.drop (s.data.length - (max 0 (min Count s.data.length)).toNat))

/-- Unreal's `FString::StartsWith(Prefix, ESearchCase::IgnoreCase)` for the concrete
sessions below: a non-empty prefix whose characters agree with the first characters of
the string once both are lower-cased. The functions take the comparison as an argument. -/
def FString_StartsWith_IgnoreCase (s InPrefix : String) : Bool :=
  decide (0 < InPrefix.data.length)
    && ((s.data.take InPrefix.data.length).map Char.toLower == InPrefix.data.map Char.toLower)

/-- `HandleSplit` of `GetGenericAttributeList`: an index was given and the owner is not
detail. -/
def genericHandleSplit (AttributeOwner : HAPI_AttributeOwner) (InAttribIndex : Int) : Bool :=
  decide (AttributeOwner ≠ HAPI_AttributeOwner.HAPI_ATTROWNER_DETAIL ∧ InAttribIndex ≠ -1)

/-- `AttribIndex` of `GetGenericAttributeList`: the given index when `HandleSplit` is
set, `-1` otherwise. -/
def genericAttribIndex (AttributeOwner : HAPI_AttributeOwner) (InAttribIndex : Int) : Int :=
  if genericHandleSplit AttributeOwner InAttribIndex then InAttribIndex else -1

/-- The pair `(AttribStart, AttribCount)` of `GetGenericAttributeList` for one attribute:
the whole attribute, or the single element `AttribIndex` when splitting and the index is
valid. -/
def genericFetchRange (HandleSplit : Bool) (AttribIndex : Int)
    (AttribInfo : HAPI_AttributeInfo) : Nat × Nat :=
  if HandleSplit then
    if 0 ≤ AttribIndex ∧ AttribIndex < (AttribInfo.count : Int) then (AttribIndex.toNat, 1)
    else (0, AttribInfo.count)
  else (0, AttribInfo.count)

/-- `CurrentGenericAttribute` of `GetGenericAttributeList` once its name, owner, type,
count and tuple size are set and before any value is fetched. -/
def newGenericAttribute (InGenericAttributePrefix AttribName : String)
    (AttribInfo : HAPI_AttributeInfo) : FHoudiniGenericAttribute :=
  { AttributeName :=
      FString_Right AttribName
        ((AttribName.data.length : Int) - (InGenericAttributePrefix.data.length : Int))
    AttributeOwner := AttribInfo.owner
    AttributeType := AttribInfo.storage
    AttributeCount := AttribInfo.count
    AttributeTupleSize := AttribInfo.tupleSize
    DoubleValues := []
    IntValues := []
    StringValues := [] }

/-- The storage-type branches of `GetGenericAttributeList`: the data call for the type of
`Current`, over the elements `AttribStart .. AttribStart + AttribCount`. `none` is the
`continue` of a failed data call and of an unsupported type. -/
def fetchGenericValues (api : FHoudiniGenericApi) (InGeoNodeId InPartId : Int)
    (AttribName : String) (AttribInfo : HAPI_AttributeInfo) (AttribStart AttribCount : Nat)
    (Current : FHoudiniGenericAttribute) : Option FHoudiniGenericAttribute :=
  if Current.AttributeType = HAPI_StorageType.HAPI_STORAGETYPE_FLOAT64 then
    let r := api.GetAttributeFloat64Data InGeoNodeId InPartId AttribName AttribInfo 0
      AttribStart AttribCount
    if r.1 ≠ HAPI_Result.HAPI_RESULT_SUCCESS then none
    else some { Current with DoubleValues := fillBuffer (AttribCount * AttribInfo.tupleSize) r.2 }
  else if Current.AttributeType = HAPI_StorageType.HAPI_STORAGETYPE_FLOAT then
    let r := api.GetAttributeFloatData InGeoNodeId InPartId AttribName AttribInfo 0
      AttribStart AttribCount
    let FloatValues := fillBuffer (AttribCount * AttribInfo.tupleSize) r.2
    if r.1 ≠ HAPI_Result.HAPI_RESULT_SUCCESS then none
    else some { Current with DoubleValues := FloatValues }
  else if Current.AttributeType = HAPI_StorageType.HAPI_STORAGETYPE_INT64 then
    let r := api.GetAttributeInt64Data InGeoNodeId InPartId AttribName AttribInfo 0
      AttribStart AttribCount
    if r.1 ≠ HAPI_Result.HAPI_RESULT_SUCCESS then none
    else some { Current with IntValues := fillBuffer (AttribCount * AttribInfo.tupleSize) r.2 }
  else if Current.AttributeType = HAPI_StorageType.HAPI_STORAGETYPE_INT then
    let r := api.GetAttributeIntData InGeoNodeId InPartId AttribName AttribInfo 0
      AttribStart AttribCount
    let IntValues := fillBuffer (AttribCount * AttribInfo.tupleSize) r.2
    if r.1 ≠ HAPI_Result.HAPI_RESULT_SUCCESS then none
    else some { Current with IntValues := IntValues }
  else if Current.AttributeType = HAPI_StorageType.HAPI_STORAGETYPE_STRING then
    let r := api.GetAttributeStringData InGeoNodeId InPartId AttribName AttribInfo
      AttribStart AttribCount
    let HapiSHArray := fillBuffer (AttribCount * AttribInfo.tupleSize) r.2
    if r.1 ≠ HAPI_Result.HAPI_RESULT_SUCCESS then none
    else some { Current with StringValues := HapiSHArray.map api.ToFString }
  else
    -- Unsupported type, skipping!
    none

/-- One pass through the body of the name loop of `GetGenericAttributeList`: the record
the pass adds, or `none` when the pass ends in a `continue`. `StartsWith` is
`FString::StartsWith` with `ESearchCase::IgnoreCase`. -/
def genericAttributeFor (api : FHoudiniGenericApi) (StartsWith : String → String → Bool)
    (InGeoNodeId InPartId : Int) (InGenericAttributePrefix : String)
    (AttributeOwner : HAPI_AttributeOwner) (HandleSplit : Bool) (AttribIndex : Int)
    (AttribNameSH : Int) : Option FHoudiniGenericAttribute :=
  let AttribName := api.ToFString AttribNameSH
  if !StartsWith AttribName InGenericAttributePrefix then none
  else
    let info := api.GetAttributeInfo InGeoNodeId InPartId AttribName AttributeOwner
    if info.1 ≠ HAPI_Result.HAPI_RESULT_SUCCESS then
      -- failed to get that attribute's info
      none
    else
      let AttribInfo := info.2
      let range := genericFetchRange HandleSplit AttribIndex AttribInfo
      fetchGenericValues api InGeoNodeId InPartId AttribName AttribInfo range.1 range.2
        (newGenericAttribute InGenericAttributePrefix AttribName AttribInfo)

/-- The name loop of `GetGenericAttributeList` over the handles still to visit, carrying
`OutFoundAttributes` and `FoundCount`. -/
def GetGenericAttributeListLoop (api : FHoudiniGenericApi)
    (StartsWith : String → String → Bool) (InGeoNodeId InPartId : Int)
    (InGenericAttributePrefix : String) (AttributeOwner : HAPI_AttributeOwner)
    (HandleSplit : Bool) (AttribIndex : Int) :
    List Int → List FHoudiniGenericAttribute × Nat → List FHoudiniGenericAttribute × Nat
  | [], acc => acc
  | AttribNameSH :: rest, acc =>
    match genericAttributeFor api StartsWith InGeoNodeId InPartId InGenericAttributePrefix
        AttributeOwner HandleSplit AttribIndex AttribNameSH with
    | none =>
      GetGenericAttributeListLoop api StartsWith InGeoNodeId InPartId InGenericAttributePrefix
        AttributeOwner HandleSplit AttribIndex rest acc
    | some CurrentGenericAttribute =>
      GetGenericAttributeListLoop api StartsWith InGeoNodeId InPartId InGenericAttributePrefix
        AttributeOwner HandleSplit AttribIndex rest
        (acc.1 ++ [CurrentGenericAttribute], acc.2 + 1)

/-- What `GetGenericAttributeList` hands back: the returned count and the array
`OutFoundAttributes`. -/
structure GenericAttributeList where
  result : Nat
  OutFoundAttributes : List FHoudiniGenericAttribute
  deriving DecidableEq, Repr

/-- `FHoudiniEngineUtils::GetGenericAttributeList`. -/
def GetGenericAttributeList (api : FHoudiniGenericApi) (StartsWith : String → String → Bool)
    (InGeoNodeId InPartId : Int) (InGenericAttributePrefix : String)
    (OutFoundAttributes : List FHoudiniGenericAttribute)
    (AttributeOwner : HAPI_AttributeOwner) (InAttribIndex : Int) : GenericAttributeList :=
  let part := api.GetPartInfo InGeoNodeId InPartId
  if part.1 ≠ HAPI_Result.HAPI_RESULT_SUCCESS then
    { result := 0, OutFoundAttributes := OutFoundAttributes }
  else
    let nAttribCount := part.2 AttributeOwner
    let names := api.GetAttributeNames InGeoNodeId InPartId AttributeOwner nAttribCount
    if names.1 ≠ HAPI_Result.HAPI_RESULT_SUCCESS then
      { result := 0, OutFoundAttributes := OutFoundAttributes }
    else
      let AttribNameSHArray := fillBuffer nAttribCount names.2
      let r := GetGenericAttributeListLoop api StartsWith InGeoNodeId InPartId
        InGenericAttributePrefix AttributeOwner
        (genericHandleSplit AttributeOwner InAttribIndex)
        (genericAttribIndex AttributeOwner InAttribIndex) AttribNameSHArray
        (OutFoundAttributes, 0)
      { result := r.2, OutFoundAttributes := r.1 }

/-- The attribute names `GetGenericAttributeList` enumerates for an owner, in order of
enumeration, given that its part-info and name calls succeed. -/
def enumeratedAttributeNames (api : FHoudiniGenericApi) (InGeoNodeId InPartId : Int)
    (AttributeOwner : HAPI_AttributeOwner) : List String :=
  (fillBuffer ((api.GetPartInfo InGeoNodeId InPartId).2 AttributeOwner)
    (api.GetAttributeNames InGeoNodeId InPartId AttributeOwner
      ((api.GetPartInfo InGeoNodeId InPartId).2 AttributeOwner)).2).map api.ToFString

/-- The elements asked of the engine for an attribute, in the words of the index mode:
element `InAttribIndex` alone when the owner is not detail and the index lies within the
attribute, the whole attribute otherwise. -/
def indexModeRange (AttributeOwner : HAPI_AttributeOwner) (InAttribIndex : Int)
    (AttribInfo : HAPI_AttributeInfo) : Nat × Nat :=
  if AttributeOwner ≠ HAPI_AttributeOwner.HAPI_ATTROWNER_DETAIL ∧ 0 ≤ InAttribIndex
      ∧ InAttribIndex < (AttribInfo.count : Int) then
    (InAttribIndex.toNat, 1)
  else (0, AttribInfo.count)

/-- Whether the data call for the storage type of `AttribInfo` succeeds over the elements
`indexModeRange` names; `false` for a storage type without a data call. -/
def genericDataFetchSucceeds (api : FHoudiniGenericApi) (InGeoNodeId InPartId : Int)
    (AttribName : String) (AttributeOwner : HAPI_AttributeOwner) (InAttribIndex : Int)
    (AttribInfo : HAPI_AttributeInfo) : Bool :=
  match AttribInfo.storage with
  | HAPI_StorageType.HAPI_STORAGETYPE_FLOAT64 =>
    decide ((api.GetAttributeFloat64Data InGeoNodeId InPartId AttribName AttribInfo 0
      (indexModeRange AttributeOwner InAttribIndex AttribInfo).1
      (indexModeRange AttributeOwner InAttribIndex AttribInfo).2).1
        = HAPI_Result.HAPI_RESULT_SUCCESS)
  | HAPI_StorageType.HAPI_STORAGETYPE_FLOAT =>
    decide ((api.GetAttributeFloatData InGeoNodeId InPartId AttribName AttribInfo 0
      (indexModeRange AttributeOwner InAttribIndex AttribInfo).1
      (indexModeRange AttributeOwner InAttribIndex AttribInfo).2).1
        = HAPI_Result.HAPI_RESULT_SUCCESS)
  | HAPI_StorageType.HAPI_STORAGETYPE_INT64 =>
    decide ((api.GetAttributeInt64Data InGeoNodeId InPartId AttribName AttribInfo 0
      (indexModeRange AttributeOwner InAttribIndex AttribInfo).1
      (indexModeRange AttributeOwner InAttribIndex AttribInfo).2).1
        = HAPI_Result.HAPI_RESULT_SUCCESS)
  | HAPI_StorageType.HAPI_STORAGETYPE_INT =>
    decide ((api.GetAttributeIntData InGeoNodeId InPartId AttribName AttribInfo 0
      (indexModeRange AttributeOwner InAttribIndex AttribInfo).1
      (indexModeRange AttributeOwner InAttribIndex AttribInfo).2).1
        = HAPI_Result.HAPI_RESULT_SUCCESS)
  | HAPI_StorageType.HAPI_STORAGETYPE_STRING =>
    decide ((api.GetAttributeStringData InGeoNodeId InPartId AttribName AttribInfo
      (indexModeRange AttributeOwner InAttribIndex AttribInfo).1
      (indexModeRange AttributeOwner InAttribIndex AttribInfo).2).1
        = HAPI_Result.HAPI_RESULT_SUCCESS)
  | HAPI_StorageType.HAPI_STORAGETYPE_INVALID => false

/-- The names the claim says are recorded: the name starts with the prefix, its info call
succeeds, and the data call for its (supported) storage type succeeds. -/
def genericAttributeAccepted (api : FHoudiniGenericApi) (StartsWith : String → String → Bool)
    (InGeoNodeId InPartId : Int) (InGenericAttributePrefix : String)
    (AttributeOwner : HAPI_AttributeOwner) (InAttribIndex : Int) (AttribName : String) : Bool :=
  StartsWith AttribName InGenericAttributePrefix
    && decide ((api.GetAttributeInfo InGeoNodeId InPartId AttribName AttributeOwner).1
        = HAPI_Result.HAPI_RESULT_SUCCESS)
    && genericDataFetchSucceeds api InGeoNodeId InPartId AttribName AttributeOwner InAttribIndex
        (api.GetAttributeInfo InGeoNodeId InPartId AttribName AttributeOwner).2

/-- The number of entries of the value array that matches the storage type of a record:
the double values for the float types, the integer values for the integer types, the
string values for strings. -/
def FHoudiniGenericAttribute.valueCount (a : FHoudiniGenericAttribute) : Nat :=
  match a.AttributeType with
  | HAPI_StorageType.HAPI_STORAGETYPE_FLOAT64 => a.DoubleValues.length
  | HAPI_StorageType.HAPI_STORAGETYPE_FLOAT => a.DoubleValues.length
  | HAPI_StorageType.HAPI_STORAGETYPE_INT64 => a.IntValues.length
  | HAPI_StorageType.HAPI_STORAGETYPE_INT => a.IntValues.length
  | HAPI_StorageType.HAPI_STORAGETYPE_STRING => a.StringValues.length
  | HAPI_StorageType.HAPI_STORAGETYPE_INVALID => 0

/-- A session for `GetGenericAttributeList`: the point owner has five attributes,
`unreal_uproperty_Mobility` (int, three elements of one value), `UNREAL_UPROPERTY_Tag`
(string), `Cd` (float), `unreal_uproperty_broken` (its data call fails) and
`unreal_uproperty_blob` (no supported storage type). -/
def sampleGenericApi : FHoudiniGenericApi :=
  { GetAttributeInfo := fun _ _ name owner =>
      (HAPI_Result.HAPI_RESULT_SUCCESS,
        { exists_ := true, owner := owner, count := 3, tupleSize := 1
          storage :=
            if name = "unreal_uproperty_Mobility" then HAPI_StorageType.HAPI_STORAGETYPE_INT
            else if name = "UNREAL_UPROPERTY_Tag" then HAPI_StorageType.HAPI_STORAGETYPE_STRING
            else if name = "unreal_uproperty_broken" then
              HAPI_StorageType.HAPI_STORAGETYPE_INT64
            else if name = "Cd" then HAPI_StorageType.HAPI_STORAGETYPE_FLOAT
            else HAPI_StorageType.HAPI_STORAGETYPE_INVALID })
    GetAttributeFloatData := fun _ _ _ _ _ _ _ => (HAPI_Result.HAPI_RESULT_SUCCESS, fun _ => 0)
    GetAttributeIntData := fun _ _ _ _ _ start _ =>
      (HAPI_Result.HAPI_RESULT_SUCCESS, fun i => 10 * ((start + i : Nat) : Int))
    GetAttributeStringData := fun _ _ _ _ start _ =>
      (HAPI_Result.HAPI_RESULT_SUCCESS, fun i => 100 + ((start + i : Nat) : Int))
    ToFString := fun h =>
      if h = 0 then "unreal_uproperty_Mobility"
      else if h = 1 then "Cd"
      else if h = 2 then "UNREAL_UPROPERTY_Tag"
      else if h = 3 then "unreal_uproperty_broken"
      else if h = 4 then "unreal_uproperty_blob"
      else if h = 100 then "red"
      else if h = 101 then "green"
      else "blue"
    GetPartInfo := fun _ _ =>
      (HAPI_Result.HAPI_RESULT_SUCCESS, fun owner =>
        if owner = HAPI_AttributeOwner.HAPI_ATTROWNER_POINT then 5 else 0)
    GetAttributeNames := fun _ _ _ _ => (HAPI_Result.HAPI_RESULT_SUCCESS, fun i => (i : Int))
    GetAttributeFloat64Data := fun _ _ _ _ _ _ _ =>
      (HAPI_Result.HAPI_RESULT_SUCCESS, fun _ => 0)
    GetAttributeInt64Data := fun _ _ _ _ _ _ _ => (HAPI_Result.HAPI_RESULT_FAILURE, fun _ => 0) }

/-- A session with one detail attribute, `unreal_uproperty_Scale`, of storage type
`FLOAT64`, one element of three values. -/
def detailFloat64Api : FHoudiniGenericApi :=
  { GetAttributeInfo := fun _ _ _ owner =>
      (HAPI_Result.HAPI_RESULT_SUCCESS,
        { exists_ := true, owner := owner, count := 1, tupleSize := 3
          storage := HAPI_StorageType.HAPI_STORAGETYPE_FLOAT64 })
    GetAttributeFloatData := fun _ _ _ _ _ _ _ => (HAPI_Result.HAPI_RESULT_FAILURE, fun _ => 0)
    GetAttributeIntData := fun _ _ _ _ _ _ _ => (HAPI_Result.HAPI_RESULT_FAILURE, fun _ => 0)
    GetAttributeStringData := fun _ _ _ _ _ _ => (HAPI_Result.HAPI_RESULT_FAILURE, fun _ => 0)
    ToFString := fun _ => "unreal_uproperty_Scale"
    GetPartInfo := fun _ _ =>
      (HAPI_Result.HAPI_RESULT_SUCCESS, fun owner =>
        if owner = HAPI_AttributeOwner.HAPI_ATTROWNER_DETAIL then 1 else 0)
    GetAttributeNames := fun _ _ _ _ => (HAPI_Result.HAPI_RESULT_SUCCESS, fun _ => 7)
    GetAttributeFloat64Data := fun _ _ _ _ _ _ _ =>
      (HAPI_Result.HAPI_RESULT_SUCCESS, fun i => (i : ℚ) + 1)
    GetAttributeInt64Data := fun _ _ _ _ _ _ _ => (HAPI_Result.HAPI_RESULT_FAILURE, fun _ => 0) }

/-! ## Cook log: definitions -/

/-- The status kinds `GetCookLog` asks for. -/
inductive HAPI_StatusType where
  | HAPI_STATUS_CALL_RESULT
  | HAPI_STATUS_COOK_RESULT
  | HAPI_STATUS_COOK_STATE
  deriving DecidableEq, Repr

/-- The verbosity levels passed by the cook-log functions. -/
inductive HAPI_StatusVerbosity where
  | HAPI_STATUSVERBOSITY_ERRORS
  | HAPI_STATUSVERBOSITY_MESSAGES
  | HAPI_STATUSVERBOSITY_ALL
  deriving DecidableEq, Repr

/-- The engine and the session holder as seen by the cook-log functions, over a state `σ`
of both. Every call that may change that state returns the state it leaves.
`GetSession` tells whether `FHoudiniEngine::Get().GetSession()` is a non-null pointer.
The two length calls give their result code and the value the length out-parameter holds
after the call; the two text calls give the text read back from the buffer they fill. -/
structure FHoudiniStatusApi (σ : Type) where
  GetSession : σ → Bool
  OnSessionLost : σ → σ
  GetStatusStringBufLength :
    σ → HAPI_StatusType → HAPI_StatusVerbosity → (HAPI_Result × Int) × σ
  GetStatusString : σ → HAPI_StatusType → Int → String × σ
  ComposeNodeCookResult : σ → Int → HAPI_StatusVerbosity → (HAPI_Result × Int) × σ
  GetComposedNodeCookResult : σ → Int → String × σ
  IsHAPIInitialized : σ → Bool
  IsSessionValid : σ → HAPI_Result
  IsInitialized : σ → HAPI_Result

/-- `FHoudiniEngineUtils::GetStatusString`: the text and the state left. -/
def GetStatusString {σ : Type} (api : FHoudiniStatusApi σ) (s : σ)
    (status_type : HAPI_StatusType) (verbosity : HAPI_StatusVerbosity) : String × σ :=
  if !api.GetSession s then
    -- No valid session
    ("No valid Houdini Engine session.", s)
  else
    let r := api.GetStatusStringBufLength s status_type verbosity
    let Result := r.1.1
    let StatusBufferLength := r.1.2
    let s1 :=
      if Result = HAPI_Result.HAPI_RESULT_INVALID_SESSION then api.OnSessionLost r.2 else r.2
    if StatusBufferLength > 0 then api.GetStatusString s1 status_type StatusBufferLength
    else ("", s1)

/-- The two group counts of `HAPI_GeoInfo` read by `HapiGetGroupNames`. -/
structure HAPI_GeoInfo where
  pointGroupCount : Int
  primitiveGroupCount : Int
  deriving DecidableEq, Repr

/-- The engine session as seen by `AddMeshSocketsToArray_Group`: the attribute calls, the
membership calls, the group-name calls and the part-info call. The name calls give, for
every slot of the handle buffer, the handle the slot holds after the call. -/
structure FHoudiniSocketApi extends FHoudiniApi, FHoudiniGroupApi where
  GetGeoInfo : Int → HAPI_Result × HAPI_GeoInfo
  GetGroupCountOnPackedInstancePart : Int → Int → HAPI_Result × (Int × Int)
  GetGroupNames : Int → HAPI_GroupType → Int → HAPI_Result × (Nat → Int)
  GetGroupNamesOnPackedInstancePart :
    Int → Int → HAPI_GroupType → Int → HAPI_Result × (Nat → Int)
  GetPartInfo : Int → Int → HAPI_Result × HAPI_PartInfo

/-- The names and the factor `AddMeshSocketsToArray_Group` takes from macros of a header
that is not among the files of this repository, and the default arguments the declaration
of the attribute getters gives for the tuple size and the owner. -/
structure FHoudiniSocketConstants where
  HAPI_UNREAL_SCALE_FACTOR_POSITION : ℚ
  HAPI_UNREAL_ATTRIB_POSITION : String
  HAPI_UNREAL_ATTRIB_ROTATION : String
  HAPI_UNREAL_ATTRIB_NORMAL : String
  HAPI_UNREAL_ATTRIB_SCALE : String
  HAPI_UNREAL_ATTRIB_MESH_SOCKET_NAME : String
  HAPI_UNREAL_ATTRIB_MESH_SOCKET_NAME_OLD : String
  HAPI_UNREAL_ATTRIB_MESH_SOCKET_ACTOR : String
  HAPI_UNREAL_ATTRIB_MESH_SOCKET_ACTOR_OLD : String
  HAPI_UNREAL_ATTRIB_MESH_SOCKET_TAG : String
  HAPI_UNREAL_ATTRIB_MESH_SOCKET_TAG_OLD : String
  HAPI_UNREAL_GROUP_SOCKET_PREFIX : String
  HAPI_UNREAL_GROUP_SOCKET_PREFIX_OLD : String
  DefaultTupleSize : Int
  DefaultOwner : HAPI_AttributeOwner

/-- The host library used by the socket extraction: `FString::StartsWith` with
`ESearchCase::IgnoreCase`, `FQuat::FindBetween`, and the comparison `operator==` of
`FHoudiniMeshSocket` that `AddUnique` uses. -/
structure FSocketLibrary where
  StartsWith : String → String → Bool
  FindBetween : FVector → FVector → FQuat
  SocketEquals : FHoudiniMeshSocket → FHoudiniMeshSocket → Bool

/-- `FHoudiniEngineUtils::HapiGetGroupNames`: the result and the in-out array
`OutGroupNames`. -/
def HapiGetGroupNames (api : FHoudiniSocketApi) (GeoId PartId : Int)
    (GroupType : HAPI_GroupType) (isPackedPrim : Bool) (OutGroupNames : List String) :
    Bool × List String :=
  let counted : Option Int :=
    if !isPackedPrim then
      -- Get group count on the geo
      let r := api.GetGeoInfo GeoId
      if r.1 ≠ HAPI_Result.HAPI_RESULT_SUCCESS then none
      else if GroupType = HAPI_GroupType.HAPI_GROUPTYPE_POINT then some r.2.pointGroupCount
      else if GroupType = HAPI_GroupType.HAPI_GROUPTYPE_PRIM then some r.2.primitiveGroupCount
      else some 0
    else
      -- We need the group count for this packed prim
      let r := api.GetGroupCountOnPackedInstancePart GeoId PartId
      if r.1 ≠ HAPI_Result.HAPI_RESULT_SUCCESS then none
      else if GroupType = HAPI_GroupType.HAPI_GROUPTYPE_POINT then some r.2.1
      else if GroupType = HAPI_GroupType.HAPI_GROUPTYPE_PRIM then some r.2.2
      else some 0
  match counted with
  | none => (false, OutGroupNames)
  | some GroupCount =>
    if GroupCount ≤ 0 then (true, OutGroupNames)
    else
      let r :=
        if !isPackedPrim then api.GetGroupNames GeoId GroupType GroupCount
        else api.GetGroupNamesOnPackedInstancePart GeoId PartId GroupType GroupCount
      if r.1 ≠ HAPI_Result.HAPI_RESULT_SUCCESS then (false, OutGroupNames)
      else
        let GroupNameStringHandles := fillBuffer GroupCount.toNat r.2
        (true, GroupNameStringHandles.map api.ToFString)

/-- The arrays and flags the lambda `AddSocketToArray` captures. -/
structure SocketAttributes where
  Positions : List ℚ
  bHasRotation : Bool
  Rotations : List ℚ
  bHasScale : Bool
  Scales : List ℚ
  bHasNormals : Bool
  Normals : List ℚ
  bHasNames : Bool
  Names : List String
  bHasActors : Bool
  Actors : List String
  bHasTags : Bool
  Tags : List String

/-- The socket array and the counter the lambda `AddSocketToArray` writes, and (kept for
the statement of the result) the point indices it was called with, in order of the
calls. -/
structure SocketLoop where
  AllSockets : List FHoudiniMeshSocket
  FoundSocketCount : Nat
  Processed : List Nat
  deriving DecidableEq, Repr

/-- `TArray::AddUnique` under the comparison `SocketEquals`. -/
def AddUnique (SocketEquals : FHoudiniMeshSocket → FHoudiniMeshSocket → Bool)
    (AllSockets : List FHoudiniMeshSocket) (CurrentSocket : FHoudiniMeshSocket) :
    List FHoudiniMeshSocket :=
  if AllSockets.any (fun Socket => SocketEquals Socket CurrentSocket) then AllSockets
  else AllSockets ++ [CurrentSocket]

/-- The socket the lambda `AddSocketToArray` builds for a point. -/
def socketOfPoint (lib : FSocketLibrary) (K : FHoudiniSocketConstants) (A : SocketAttributes)
    (PointIdx : Nat) : FHoudiniMeshSocket :=
  let currentPosition : FVector :=
    if PointIdx * 3 + 2 < A.Positions.length then
      { X := A.Positions.getD (PointIdx * 3) 0 * K.HAPI_UNREAL_SCALE_FACTOR_POSITION
        Y := A.Positions.getD (PointIdx * 3 + 2) 0 * K.HAPI_UNREAL_SCALE_FACTOR_POSITION
        Z := A.Positions.getD (PointIdx * 3 + 1) 0 * K.HAPI_UNREAL_SCALE_FACTOR_POSITION }
    else { X := 0, Y := 0, Z := 0 }
  let currentScale : FVector :=
    if A.bHasScale ∧ PointIdx * 3 + 2 < A.Scales.length then
      { X := A.Scales.getD (PointIdx * 3) 0
        Y := A.Scales.getD (PointIdx * 3 + 2) 0
        Z := A.Scales.getD (PointIdx * 3 + 1) 0 }
    else { X := 1, Y := 1, Z := 1 }
  let currentRotation : FQuat :=
    if A.bHasRotation ∧ PointIdx * 4 + 3 < A.Rotations.length then
      { X := A.Rotations.getD (PointIdx * 4) 0
        Y := A.Rotations.getD (PointIdx * 4 + 2) 0
        Z := A.Rotations.getD (PointIdx * 4 + 1) 0
        W := -A.Rotations.getD (PointIdx * 4 + 3) 0 }
    else if A.bHasNormals ∧ PointIdx * 3 + 2 < A.Normals.length then
      let vNormal : FVector :=
        { X := A.Normals.getD (PointIdx * 3) 0
          Y := A.Normals.getD (PointIdx * 3 + 2) 0
          Z := A.Normals.getD (PointIdx * 3 + 1) 0 }
      if vNormal ≠ { X := 0, Y := 0, Z := 0 } then
        lib.FindBetween { X := 0, Y := 0, Z := 1 } vNormal
      else { X := 0, Y := 0, Z := 0, W := 1 }
    else { X := 0, Y := 0, Z := 0, W := 1 }
  -- If the scale attribute wasn't set on all socket, we might end up
  -- with a zero scale socket, avoid that.
  let currentScale : FVector :=
    if currentScale = { X := 0, Y := 0, Z := 0 } then { X := 1, Y := 1, Z := 1 }
    else currentScale
  { Name := if A.bHasNames ∧ PointIdx < A.Names.length then A.Names.getD PointIdx "" else ""
    Actor := if A.bHasActors ∧ PointIdx < A.Actors.length then A.Actors.getD PointIdx "" else ""
    Tag := if A.bHasTags ∧ PointIdx < A.Tags.length then A.Tags.getD PointIdx "" else ""
    Transform :=
      { Translation := currentPosition, Rotation := currentRotation, Scale3D := currentScale } }

/-- The lambda `AddSocketToArray`: the socket of the point is added unless the array holds
it already, and the counter goes up by one. -/
def AddSocketToArray (lib : FSocketLibrary) (K : FHoudiniSocketConstants)
    (A : SocketAttributes) (PointIdx : Nat) (st : SocketLoop) : SocketLoop :=
  { AllSockets := AddUnique lib.SocketEquals st.AllSockets (socketOfPoint lib K A PointIdx)
    FoundSocketCount := st.FoundSocketCount + 1
    Processed := st.Processed ++ [PointIdx] }

/-- The loop over the points of one socket group, from point `PointIdx` on, over the
membership entries still to visit. -/
def socketPointLoop (lib : FSocketLibrary) (K : FHoudiniSocketConstants)
    (A : SocketAttributes) (AllEquals : Bool) : Nat → List Int → SocketLoop → SocketLoop
  | _, [], st => st
  | PointIdx, Membership :: rest, st =>
    if Membership = 0 then
      if AllEquals then st
      else socketPointLoop lib K A AllEquals (PointIdx + 1) rest st
    else
      -- Add the corresponding socket to the array
      socketPointLoop lib K A AllEquals (PointIdx + 1) rest (AddSocketToArray lib K A PointIdx st)

/-- Whether a group name starts with one of the two socket prefixes. -/
def isSocketGroup (lib : FSocketLibrary) (K : FHoudiniSocketConstants) (GroupName : String) :
    Bool :=
  lib.StartsWith GroupName K.HAPI_UNREAL_GROUP_SOCKET_PREFIX
    || lib.StartsWith GroupName K.HAPI_UNREAL_GROUP_SOCKET_PREFIX_OLD

/-- The loop "extracting sockets vertices" over the group names still to visit. -/
def socketGroupLoop (api : FHoudiniSocketApi) (lib : FSocketLibrary)
    (K : FHoudiniSocketConstants) (A : SocketAttributes) (GeoId : Int)
    (PartInfo : HAPI_PartInfo) : List String → SocketLoop → SocketLoop
  | [], st => st
  | GroupName :: rest, st =>
    if !lib.StartsWith GroupName K.HAPI_UNREAL_GROUP_SOCKET_PREFIX
        && !lib.StartsWith GroupName K.HAPI_UNREAL_GROUP_SOCKET_PREFIX_OLD then
      socketGroupLoop api lib K A GeoId PartInfo rest st
    else
      let m := HapiGetGroupMembership api.toFHoudiniGroupApi GeoId PartInfo
        HAPI_GroupType.HAPI_GROUPTYPE_POINT GroupName [] false
      socketGroupLoop api lib K A GeoId PartInfo rest
        (socketPointLoop lib K A m.OutAllEquals 0 m.OutGroupMembership st)

/-- The attribute block of `AddMeshSocketsToArray_Group` after the position fetch: the
rotation, normal, scale, name, actor and tag fetches, given the positions. -/
def fetchSocketAttributes (api : FHoudiniSocketApi) (strings : FStringLibrary)
    (K : FHoudiniSocketConstants) (GeoId PartId : Int) (Positions : List ℚ) :
    SocketAttributes :=
  let rot := HapiGetAttributeDataAsFloat api.toFHoudiniApi strings GeoId PartId
    K.HAPI_UNREAL_ATTRIB_ROTATION AttributeInfo_Init K.DefaultTupleSize K.DefaultOwner
  let nrm := HapiGetAttributeDataAsFloat api.toFHoudiniApi strings GeoId PartId
    K.HAPI_UNREAL_ATTRIB_NORMAL AttributeInfo_Init K.DefaultTupleSize K.DefaultOwner
  let scl := HapiGetAttributeDataAsFloat api.toFHoudiniApi strings GeoId PartId
    K.HAPI_UNREAL_ATTRIB_SCALE AttributeInfo_Init K.DefaultTupleSize K.DefaultOwner
  let name := HapiGetAttributeDataAsString api.toFHoudiniApi strings GeoId PartId
    K.HAPI_UNREAL_ATTRIB_MESH_SOCKET_NAME AttributeInfo_Init K.DefaultTupleSize K.DefaultOwner
  let nameOld := HapiGetAttributeDataAsString api.toFHoudiniApi strings GeoId PartId
    K.HAPI_UNREAL_ATTRIB_MESH_SOCKET_NAME_OLD name.OutAttributeInfo K.DefaultTupleSize
    K.DefaultOwner
  let actor := HapiGetAttributeDataAsString api.toFHoudiniApi strings GeoId PartId
    K.HAPI_UNREAL_ATTRIB_MESH_SOCKET_ACTOR AttributeInfo_Init K.DefaultTupleSize K.DefaultOwner
  let actorOld := HapiGetAttributeDataAsString api.toFHoudiniApi strings GeoId PartId
    K.HAPI_UNREAL_ATTRIB_MESH_SOCKET_ACTOR_OLD actor.OutAttributeInfo K.DefaultTupleSize
    K.DefaultOwner
  let tag := HapiGetAttributeDataAsString api.toFHoudiniApi strings GeoId PartId
    K.HAPI_UNREAL_ATTRIB_MESH_SOCKET_TAG AttributeInfo_Init K.DefaultTupleSize K.DefaultOwner
  let tagOld := HapiGetAttributeDataAsString api.toFHoudiniApi strings GeoId PartId
    K.HAPI_UNREAL_ATTRIB_MESH_SOCKET_TAG_OLD tag.OutAttributeInfo K.DefaultTupleSize
    K.DefaultOwner
  { Positions := Positions
    bHasRotation := rot.ok
    Rotations := rot.OutData
    bHasNormals := nrm.ok
    Normals := nrm.OutData
    bHasScale := scl.ok
    Scales := scl.OutData
    bHasNames := name.ok || nameOld.ok
    Names := if name.ok then name.OutData else nameOld.OutData
    bHasActors := actor.ok || actorOld.ok
    Actors := if actor.ok then actor.OutData else actorOld.OutData
    bHasTags := tag.ok || tagOld.ok
    Tags := if tag.ok then tag.OutData else tagOld.OutData }

/-- What `AddMeshSocketsToArray_Group` hands back: the returned count, the in-out array
`AllSockets`, and the point indices `AddSocketToArray` was called with. -/
structure SocketGroupOutcome where
  result : Nat
  AllSockets : List FHoudiniMeshSocket
  Processed : List Nat
  deriving DecidableEq, Repr

/-- `FHoudiniEngineUtils::AddMeshSocketsToArray_Group`. The result of `HapiGetGroupNames`
is only logged. `return false` is the count `0`. -/
def AddMeshSocketsToArray_Group (api : FHoudiniSocketApi) (strings : FStringLibrary)
    (lib : FSocketLibrary) (K : FHoudiniSocketConstants) (GeoId PartId : Int)
    (AllSockets : List FHoudiniMeshSocket) (isPackedPrim : Bool) : SocketGroupOutcome :=
  -- Get object / geo group memberships for primitives.
  let GroupNames := (HapiGetGroupNames api GeoId PartId HAPI_GroupType.HAPI_GROUPTYPE_POINT
    isPackedPrim []).2
  -- First, we want to make sure we have at least one socket group before continuing
  let bHasSocketGroup := GroupNames.any (fun GroupName =>
    lib.StartsWith GroupName K.HAPI_UNREAL_GROUP_SOCKET_PREFIX
      || lib.StartsWith GroupName K.HAPI_UNREAL_GROUP_SOCKET_PREFIX_OLD)
  if !bHasSocketGroup then { result := 0, AllSockets := AllSockets, Processed := [] }
  else
    -- Get the part info
    let part := api.GetPartInfo GeoId PartId
    if part.1 ≠ HAPI_Result.HAPI_RESULT_SUCCESS then
      { result := 0, AllSockets := AllSockets, Processed := [] }
    else
      let PartInfo := part.2
      -- Retrieve position data.
      let pos := HapiGetAttributeDataAsFloat api.toFHoudiniApi strings GeoId PartId
        K.HAPI_UNREAL_ATTRIB_POSITION AttributeInfo_Init K.DefaultTupleSize K.DefaultOwner
      if !pos.ok then { result := 0, AllSockets := AllSockets, Processed := [] }
      else
        let A := fetchSocketAttributes api strings K GeoId PartId pos.OutData
        -- Extracting Sockets vertices
        let st := socketGroupLoop api lib K A GeoId PartInfo GroupNames
          { AllSockets := AllSockets, FoundSocketCount := 0, Processed := [] }
        { result := st.FoundSocketCount, AllSockets := st.AllSockets, Processed := st.Processed }

/-- The point loop of a socket group without its early `break`: every entry is visited. -/
def socketPointLoopNoBreak (lib : FSocketLibrary) (K : FHoudiniSocketConstants)
    (A : SocketAttributes) : Nat → List Int → SocketLoop → SocketLoop
  | _, [], st => st
  | PointIdx, Membership :: rest, st =>
    if Membership = 0 then socketPointLoopNoBreak lib K A (PointIdx + 1) rest st
    else socketPointLoopNoBreak lib K A (PointIdx + 1) rest (AddSocketToArray lib K A PointIdx st)

/-- The indices, from `PointIdx` on, of the entries of a membership array that are not
zero, in ascending order. -/
def nonZeroPointsFrom : Nat → List Int → List Nat
  | _, [] => []
  | PointIdx, Membership :: rest =>
    if Membership = 0 then nonZeroPointsFrom (PointIdx + 1) rest
    else PointIdx :: nonZeroPointsFrom (PointIdx + 1) rest

/-- The all-equal flag is set only when all membership entries are equal. -/
def AllEqualFlagSound (AllEquals : Bool) (Membership : List Int) : Prop :=
  AllEquals = true → ∀ x ∈ Membership, ∀ y ∈ Membership, x = y

/-- The membership `AddMeshSocketsToArray_Group` obtains for a point group of a part. -/
def socketGroupMembership (api : FHoudiniSocketApi) (GeoId : Int) (PartInfo : HAPI_PartInfo)
    (GroupName : String) : GroupMembershipOutcome :=
  HapiGetGroupMembership api.toFHoudiniGroupApi GeoId PartInfo
    HAPI_GroupType.HAPI_GROUPTYPE_POINT GroupName [] false

/-- The total number of points with non-zero membership over the groups, among the names
given, that start with a socket prefix. -/
def socketGroupPointTotal (api : FHoudiniSocketApi) (lib : FSocketLibrary)
    (K : FHoudiniSocketConstants) (GeoId : Int) (PartInfo : HAPI_PartInfo)
    (GroupNames : List String) : Nat :=
  ((GroupNames.filter (isSocketGroup lib K)).map (fun GroupName =>
    (nonZeroPointsFrom 0
      (socketGroupMembership api GeoId PartInfo GroupName).OutGroupMembership).length)).sum

/-- A host library for the concrete sessions: the case-insensitive prefix test,
`FindBetween` answering the identity rotation, sockets compared field by field. -/
def sampleSocketLibrary : FSocketLibrary :=
  { StartsWith := FString_StartsWith_IgnoreCase
    FindBetween := fun _ _ => { X := 0, Y := 0, Z := 0, W := 1 }
    SocketEquals := fun a b => decide (a = b) }

/-- Constants for the concrete sessions: position attribute `P`, socket prefixes `socket`
and `mesh_socket`, position factor 100, no tuple size override, any owner. -/
def sampleSocketConstants : FHoudiniSocketConstants :=
  { HAPI_UNREAL_SCALE_FACTOR_POSITION := 100
    HAPI_UNREAL_ATTRIB_POSITION := "P"
    HAPI_UNREAL_ATTRIB_ROTATION := "rot"
    HAPI_UNREAL_ATTRIB_NORMAL := "N"
    HAPI_UNREAL_ATTRIB_SCALE := "scale"
    HAPI_UNREAL_ATTRIB_MESH_SOCKET_NAME := "mesh_socket_name"
    HAPI_UNREAL_ATTRIB_MESH_SOCKET_NAME_OLD := "mesh_socket_name_old"
    HAPI_UNREAL_ATTRIB_MESH_SOCKET_ACTOR := "mesh_socket_actor"
    HAPI_UNREAL_ATTRIB_MESH_SOCKET_ACTOR_OLD := "mesh_socket_actor_old"
    HAPI_UNREAL_ATTRIB_MESH_SOCKET_TAG := "mesh_socket_tag"
    HAPI_UNREAL_ATTRIB_MESH_SOCKET_TAG_OLD := "mesh_socket_tag_old"
    HAPI_UNREAL_GROUP_SOCKET_PREFIX := "socket"
    HAPI_UNREAL_GROUP_SOCKET_PREFIX_OLD := "mesh_socket"
    DefaultTupleSize := 0
    DefaultOwner := HAPI_AttributeOwner.HAPI_ATTROWNER_INVALID }

/-- A session with a part of three points and the point groups `socket_a` (the first two
points are members), `collision` and `Socket_empty` (no member, flagged all-equal). The
point attribute `P`, three floats per point, exists when `hasPosition` is set; there is
no other attribute. -/
def socketGroupApi (hasPosition : Bool) : FHoudiniSocketApi :=
  { GetAttributeInfo := fun _ _ name owner =>
      if hasPosition = true ∧ name = "P" ∧ owner = HAPI_AttributeOwner.HAPI_ATTROWNER_POINT then
        (HAPI_Result.HAPI_RESULT_SUCCESS,
          attributeOn HAPI_AttributeOwner.HAPI_ATTROWNER_POINT
            HAPI_StorageType.HAPI_STORAGETYPE_FLOAT 3 3)
      else (HAPI_Result.HAPI_RESULT_SUCCESS, AttributeInfo_Init)
    GetAttributeFloatData := fun _ _ _ _ _ _ _ =>
      (HAPI_Result.HAPI_RESULT_SUCCESS, fun i => (i : ℚ))
    GetAttributeIntData := fun _ _ _ _ _ _ _ => (HAPI_Result.HAPI_RESULT_FAILURE, fun _ => 0)
    GetAttributeStringData := fun _ _ _ _ _ _ => (HAPI_Result.HAPI_RESULT_FAILURE, fun _ => 0)
    ToFString := fun h =>
      if h = 0 then "socket_a" else if h = 1 then "collision" else "Socket_empty"
    GetGroupMembership := fun _ _ _ GroupName _ _ =>
      if GroupName = "socket_a" then
        { result := HAPI_Result.HAPI_RESULT_SUCCESS, membership_array_all_equal := false
          membership := fun i => if i < 2 then 1 else 0 }
      else
        { result := HAPI_Result.HAPI_RESULT_SUCCESS, membership_array_all_equal := true
          membership := fun _ => 0 }
    GetGroupMembershipOnPackedInstancePart := fun _ _ _ _ _ _ =>
      { result := HAPI_Result.HAPI_RESULT_FAILURE, membership_array_all_equal := false
        membership := fun _ => 0 }
    GetGeoInfo := fun _ =>
      (HAPI_Result.HAPI_RESULT_SUCCESS, { pointGroupCount := 3, primitiveGroupCount := 0 })
    GetGroupCountOnPackedInstancePart := fun _ _ => (HAPI_Result.HAPI_RESULT_FAILURE, (0, 0))
    GetGroupNames := fun _ _ _ => (HAPI_Result.HAPI_RESULT_SUCCESS, fun i => (i : Int))
    GetGroupNamesOnPackedInstancePart := fun _ _ _ _ =>
      (HAPI_Result.HAPI_RESULT_FAILURE, fun _ => 0)
    GetPartInfo := fun _ _ =>
      (HAPI_Result.HAPI_RESULT_SUCCESS,
        { id := 0, faceCount := 0, vertexCount := 0, pointCount := 3, isInstanced := false }) }

/-! ## Transform codec: theorems -/

/-- C1 (as stated, refuted): with scale factor 100 and the engine transform of rotation
`(0,0,0,1)`, position `(1,2,3)`, unit scale, tag `HAPI_SRT`, the round trip
`TranslateUnrealTransform (TranslateHapiTransform E)` differs from `E` under the converting
policy (the rotation comes back as `(0,0,0,-1)`) and under the non-converting policy (the
position comes back as `(100,200,300)`). -/
theorem C1_roundtrip_counterexample :
    (TranslateUnrealTransform true 100
        (TranslateHapiTransform true 100 sampleHapiTransform)).rotationQuaternion
      = { c0 := 0, c1 := 0, c2 := 0, c3 := -1 }
    ∧ TranslateUnrealTransform true 100 (TranslateHapiTransform true 100 sampleHapiTransform)
      ≠ sampleHapiTransform
    ∧ (TranslateUnrealTransform false 100
        (TranslateHapiTransform false 100 sampleHapiTransform)).position
      = { c0 := 100, c1 := 200, c2 := 300 }
    ∧ TranslateUnrealTransform false 100 (TranslateHapiTransform false 100 sampleHapiTransform)
      ≠ sampleHapiTransform := by
  refine ⟨?_, ?_, ?_, ?_⟩
  · simp [TranslateUnrealTransform, TranslateHapiTransform, sampleHapiTransform,
      FVector.mulScalar]
  · intro h
    have h3 := congrArg (fun t => t.rotationQuaternion.c3) h
    simp [TranslateUnrealTransform, TranslateHapiTransform, sampleHapiTransform,
      FVector.mulScalar] at h3
    norm_num at h3
  · simp [TranslateUnrealTransform, TranslateHapiTransform, sampleHapiTransform,
      FVector.mulScalar]
    norm_num
  · intro h
    have h0 := congrArg (fun t => t.position.c0) h
    simp [TranslateUnrealTransform, TranslateHapiTransform, sampleHapiTransform,
      FVector.mulScalar] at h0

/-- C1 (amended): with exact arithmetic and a non-zero translation scale factor, the round
trip `TranslateUnrealTransform (TranslateHapiTransform E)` under the converting policy has
exactly `E`'s position and scale and the componentwise negation of `E`'s rotation
quaternion; under the non-converting policy it has exactly `E`'s rotation quaternion and
scale. Consequently, for every host transform `T`, `ToEngine (ToHost (ToEngine T))` has the
scale of `ToEngine T` under both policies, its position and negated rotation quaternion
under the converting policy, and its rotation quaternion under the non-converting policy. -/
theorem C1_roundtrip_amended (factor : ℚ) (hf : factor ≠ 0) (E : HAPI_Transform)
    (T : FTransform) :
    ((TranslateUnrealTransform true factor (TranslateHapiTransform true factor E)).position
        = E.position
      ∧ (TranslateUnrealTransform true factor (TranslateHapiTransform true factor E)).scale
        = E.scale
      ∧ (TranslateUnrealTransform true factor
          (TranslateHapiTransform true factor E)).rotationQuaternion
        = E.rotationQuaternion.neg)
    ∧ ((TranslateUnrealTransform false factor
          (TranslateHapiTransform false factor E)).rotationQuaternion
        = E.rotationQuaternion
      ∧ (TranslateUnrealTransform false factor (TranslateHapiTransform false factor E)).scale
        = E.scale)
    ∧ ((TranslateUnrealTransform true factor (TranslateHapiTransform true factor
          (TranslateUnrealTransform true factor T))).position
        = (TranslateUnrealTransform true factor T).position
      ∧ (TranslateUnrealTransform true factor (TranslateHapiTransform true factor
          (TranslateUnrealTransform true factor T))).scale
        = (TranslateUnrealTransform true factor T).scale
      ∧ (TranslateUnrealTransform true factor (TranslateHapiTransform true factor
          (TranslateUnrealTransform true factor T))).rotationQuaternion
        = (TranslateUnrealTransform true factor T).rotationQuaternion.neg)
    ∧ ((TranslateUnrealTransform false factor (TranslateHapiTransform false factor
          (TranslateUnrealTransform false factor T))).rotationQuaternion
        = (TranslateUnrealTransform false factor T).rotationQuaternion
      ∧ (TranslateUnrealTransform false factor (TranslateHapiTransform false factor
          (TranslateUnrealTransform false factor T))).scale
        = (TranslateUnrealTransform false factor T).scale) := by
  refine ⟨⟨?_, ?_, ?_⟩, ⟨?_, ?_⟩, ⟨?_, ?_, ?_⟩, ⟨?_, ?_⟩⟩ <;>
    simp [TranslateUnrealTransform, TranslateHapiTransform, FVector.mulScalar, Float4.neg, hf]

/-- Witness for `C1_roundtrip_amended` at scale factor 100 and the sample transforms. -/
theorem C1_roundtrip_amended_witness :
    (100 : ℚ) ≠ 0
    ∧ (TranslateUnrealTransform true 100
        (TranslateHapiTransform true 100 sampleHapiTransform)).position
      = sampleHapiTransform.position :=
  ⟨by norm_num,
    (C1_roundtrip_amended 100 (by norm_num) sampleHapiTransform sampleUnrealTransform).1.1⟩

/-- C2: under the converting policy `TranslateHapiTransform` yields rotation
`(q0,q2,q1,-q3)`, translation `(p0,p2,p1)` each multiplied by the translation scale factor,
and scale `(s0,s2,s1)` with no factor; `TranslateUnrealTransform` divides only the position
by the factor (Y/Z swapped) and copies the scale Y/Z swapped without any factor. -/
theorem C2_converting_policy_components (factor : ℚ) (E : HAPI_Transform) (T : FTransform) :
    TranslateHapiTransform true factor E
      = { Rotation :=
            { X := E.rotationQuaternion.c0, Y := E.rotationQuaternion.c2,
              Z := E.rotationQuaternion.c1, W := -E.rotationQuaternion.c3 }
          Translation :=
            { X := E.position.c0 * factor, Y := E.position.c2 * factor,
              Z := E.position.c1 * factor }
          Scale3D := { X := E.scale.c0, Y := E.scale.c2, Z := E.scale.c1 } }
    ∧ (TranslateUnrealTransform true factor T).position
      = { c0 := T.Translation.X / factor, c1 := T.Translation.Z / factor,
          c2 := T.Translation.Y / factor }
    ∧ (TranslateUnrealTransform true factor T).scale
      = { c0 := T.Scale3D.X, c1 := T.Scale3D.Z, c2 := T.Scale3D.Y } := by
  refine ⟨?_, ?_, ?_⟩ <;>
    simp [TranslateHapiTransform, TranslateUnrealTransform, FVector.mulScalar]


/-- C3 (evaluation at the failing input): under the non-converting policy with scale
factor 100, `TranslateHapiTransform` maps the engine position `(1,2,3)` to the translation
`(100,200,300)`, not to `(1,2,3)`, while rotation and scale are copied index by index. -/
theorem C3_nonconverting_translation_is_scaled :
    sampleHapiTransform.position = { c0 := 1, c1 := 2, c2 := 3 }
    ∧ (TranslateHapiTransform false 100 sampleHapiTransform).Translation
      = { X := 100, Y := 200, Z := 300 }
    ∧ (TranslateHapiTransform false 100 sampleHapiTransform).Rotation
      = { X := 0, Y := 0, Z := 0, W := 1 }
    ∧ (TranslateHapiTransform false 100 sampleHapiTransform).Scale3D
      = { X := 1, Y := 1, Z := 1 } := by
  refine ⟨rfl, ?_, ?_, ?_⟩ <;>
    norm_num [TranslateHapiTransform, sampleHapiTransform, FVector.mulScalar]

/-! ## Attribute marshalling: theorems -/

/-- The handle loop appends the unmemoised resolution of every handle, keeps the memo
invariant, and calls the resolver for exactly the non-negative handles not yet in the
map. -/
theorem convertStringHandles_spec (ToFString : Int → String) (handles : List Int)
    (st : StringHandleLoop) (hinv : MemoInvariant ToFString st) :
    (convertStringHandles ToFString handles st).OutData
        = st.OutData ++ handles.map (resolveHandleDirect ToFString)
    ∧ MemoInvariant ToFString (convertStringHandles ToFString handles st)
    ∧ (∀ h, h ∈ (convertStringHandles ToFString handles st).Calls
        ↔ h ∈ st.Calls ∨ (h ∈ handles ∧ 0 ≤ h)) := by
  induction handles generalizing st with
  | nil => exact ⟨by simp [convertStringHandles], hinv, by simp [convertStringHandles]⟩
  | cons sh rest ih =>
    obtain ⟨hmap, hcalls, hnodup, hnonneg⟩ := hinv
    by_cases hneg : sh < 0
    · have hstep : convertStringHandles ToFString (sh :: rest) st
          = convertStringHandles ToFString rest { st with OutData := st.OutData ++ [""] } := by
        simp [convertStringHandles, hneg]
      obtain ⟨h1, h2, h3⟩ := ih { st with OutData := st.OutData ++ [""] }
        ⟨hmap, hcalls, hnodup, hnonneg⟩
      rw [hstep]
      refine ⟨?_, h2, ?_⟩
      · rw [h1]; simp [resolveHandleDirect, hneg]
      · intro h
        rw [h3]
        constructor
        · rintro (hc | ⟨hm, hp⟩)
          · exact Or.inl hc
          · exact Or.inr ⟨List.mem_cons_of_mem _ hm, hp⟩
        · rintro (hc | ⟨hm, hp⟩)
          · exact Or.inl hc
          · rcases List.mem_cons.mp hm with heq | hm'
            · subst heq; omega
            · exact Or.inr ⟨hm', hp⟩
    · cases hl : st.StringHandleToStringMap.lookup sh with
      | some FoundString =>
        have hstep : convertStringHandles ToFString (sh :: rest) st
            = convertStringHandles ToFString rest
                { st with OutData := st.OutData ++ [FoundString] } := by
          simp [convertStringHandles, hneg, hl]
        obtain ⟨h1, h2, h3⟩ := ih { st with OutData := st.OutData ++ [FoundString] }
          ⟨hmap, hcalls, hnodup, hnonneg⟩
        have hfound : FoundString = ToFString sh := hmap sh FoundString hl
        have hin : sh ∈ st.Calls := (hcalls sh).mpr (by simp [hl])
        rw [hstep]
        refine ⟨?_, h2, ?_⟩
        · rw [h1]; simp [resolveHandleDirect, hneg, hfound]
        · intro h
          rw [h3]
          constructor
          · rintro (hc | ⟨hm, hp⟩)
            · exact Or.inl hc
            · exact Or.inr ⟨List.mem_cons_of_mem _ hm, hp⟩
          · rintro (hc | ⟨hm, hp⟩)
            · exact Or.inl hc
            · rcases List.mem_cons.mp hm with heq | hm'
              · subst heq; exact Or.inl hin
              · exact Or.inr ⟨hm', hp⟩
      | none =>
        have hstep : convertStringHandles ToFString (sh :: rest) st
            = convertStringHandles ToFString rest
                { StringHandleToStringMap := (sh, ToFString sh) :: st.StringHandleToStringMap
                  OutData := st.OutData ++ [ToFString sh]
                  Calls := st.Calls ++ [sh] } := by
          simp [convertStringHandles, hneg, hl]
        have hnotin : sh ∉ st.Calls := by
          intro hc
          have := (hcalls sh).mp hc
          simp [hl] at this
        have hinv' : MemoInvariant ToFString
            { StringHandleToStringMap := (sh, ToFString sh) :: st.StringHandleToStringMap
              OutData := st.OutData ++ [ToFString sh]
              Calls := st.Calls ++ [sh] } := by
          refine ⟨?_, ?_, ?_, ?_⟩
          · intro h str hlook
            by_cases hh : h = sh
            · subst hh
              simp [List.lookup_cons] at hlook
              exact hlook.symm
            · have hb : (h == sh) = false := by simpa using hh
              simp only [List.lookup_cons, hb] at hlook
              exact hmap h str hlook
          · intro h
            by_cases hh : h = sh
            · subst hh
              simp [List.lookup_cons]
            · have hb : (h == sh) = false := by simpa using hh
              simp only [List.lookup_cons, hb, List.mem_append, List.mem_singleton, hh,
                or_false]
              exact hcalls h
          · simp only
            rw [List.nodup_append]
            refine ⟨hnodup, List.nodup_singleton sh, ?_⟩
            intro a ha hb
            rw [List.mem_singleton] at hb
            subst hb
            exact hnotin ha
          · intro h hm
            simp only [List.mem_append, List.mem_singleton] at hm
            rcases hm with hm | hm
            · exact hnonneg h hm
            · subst hm; omega
        obtain ⟨h1, h2, h3⟩ := ih _ hinv'
        rw [hstep]
        refine ⟨?_, h2, ?_⟩
        · rw [h1]; simp [resolveHandleDirect, hneg]
        · intro h
          rw [h3]
          simp only [List.mem_append, List.mem_cons, List.not_mem_nil, or_false]
          constructor
          · rintro ((hc | hc) | ⟨hm, hp⟩)
            · exact Or.inl hc
            · subst hc; exact Or.inr ⟨Or.inl rfl, by omega⟩
            · exact Or.inr ⟨Or.inr hm, hp⟩
          · rintro (hc | ⟨hm | hm, hp⟩)
            · exact Or.inl (Or.inl hc)
            · exact Or.inl (Or.inr hm)
            · exact Or.inr ⟨hm, hp⟩

/-- The empty loop state satisfies the memo invariant. -/
theorem memoInvariant_initial (ToFString : Int → String) :
    MemoInvariant ToFString { StringHandleToStringMap := [], OutData := [], Calls := [] } := by
  refine ⟨?_, ?_, ?_, ?_⟩ <;> simp

/-- The output of the handle loop started empty is the unmemoised resolution. -/
theorem convertAllStringHandles_OutData (ToFString : Int → String) (handles : List Int) :
    (convertAllStringHandles ToFString handles).OutData
      = handles.map (resolveHandleDirect ToFString) := by
  have h := (convertStringHandles_spec ToFString handles _ (memoInvariant_initial ToFString)).1
  simpa [convertAllStringHandles] using h

/-- On an existing attribute whose handle fetch succeeds,
`HapiGetAttributeDataAsStringFromInfo` returns `true` with the output of its handle loop
over the fetched handles, which is their unmemoised resolution. -/
theorem HapiGetAttributeDataAsStringFromInfo_success (api : FHoudiniApi) (geo part : Int)
    (name : String) (info : HAPI_AttributeInfo) (out0 : List String)
    (hex : info.exists_ = true)
    (hfetch : (api.GetAttributeStringData geo part name info 0 info.count).1
      = HAPI_Result.HAPI_RESULT_SUCCESS) :
    HapiGetAttributeDataAsStringFromInfo api geo part name info out0
      = (true, (convertAllStringHandles api.ToFString
          (fillBuffer (info.count * info.tupleSize)
            (api.GetAttributeStringData geo part name info 0 info.count).2)).OutData)
    ∧ (convertAllStringHandles api.ToFString
          (fillBuffer (info.count * info.tupleSize)
            (api.GetAttributeStringData geo part name info 0 info.count).2)).OutData
      = (fillBuffer (info.count * info.tupleSize)
          (api.GetAttributeStringData geo part name info 0 info.count).2).map
            (fun sh => if sh < 0 then "" else api.ToFString sh) := by
  constructor
  · unfold HapiGetAttributeDataAsStringFromInfo
    simp [hex, hfetch]
  · rw [convertAllStringHandles_OutData]
    rfl

/-- C9: on an existing attribute whose handle fetch succeeds, for every list of fetched
string handles and every resolver, `HapiGetAttributeDataAsStringFromInfo` returns `true`
and outputs, position by position, the empty string for a negative handle and the
resolver's text for a non-negative one, exactly as the unmemoised resolution of each
element does; the output is that of its handle loop, and the handles the loop passes to
the resolver are pairwise distinct (at most one call per distinct handle within the
fetch) and are exactly the non-negative handles fetched. -/
theorem C9_string_handle_memo (api : FHoudiniApi) (geo part : Int) (name : String)
    (info : HAPI_AttributeInfo) (out0 : List String)
    (hex : info.exists_ = true)
    (hfetch : (api.GetAttributeStringData geo part name info 0 info.count).1
      = HAPI_Result.HAPI_RESULT_SUCCESS) :
    HapiGetAttributeDataAsStringFromInfo api geo part name info out0
      = (true, (fillBuffer (info.count * info.tupleSize)
          (api.GetAttributeStringData geo part name info 0 info.count).2).map
            (fun sh => if sh < 0 then "" else api.ToFString sh))
    ∧ HapiGetAttributeDataAsStringFromInfo api geo part name info out0
      = (true, (convertAllStringHandles api.ToFString
          (fillBuffer (info.count * info.tupleSize)
            (api.GetAttributeStringData geo part name info 0 info.count).2)).OutData)
    ∧ (convertAllStringHandles api.ToFString
          (fillBuffer (info.count * info.tupleSize)
            (api.GetAttributeStringData geo part name info 0 info.count).2)).Calls.Nodup
    ∧ (∀ h, h ∈ (convertAllStringHandles api.ToFString
          (fillBuffer (info.count * info.tupleSize)
            (api.GetAttributeStringData geo part name info 0 info.count).2)).Calls
        ↔ (h ∈ fillBuffer (info.count * info.tupleSize)
            (api.GetAttributeStringData geo part name info 0 info.count).2 ∧ 0 ≤ h))
    ∧ (∀ (ToFString : Int → String) (StringHandles : List Int),
        (convertAllStringHandles ToFString StringHandles).OutData
          = StringHandles.map (fun sh => if sh < 0 then "" else ToFString sh)
        ∧ (convertAllStringHandles ToFString StringHandles).Calls.Nodup
        ∧ (∀ h, h ∈ (convertAllStringHandles ToFString StringHandles).Calls
            ↔ (h ∈ StringHandles ∧ 0 ≤ h))) := by
  have hloop : ∀ (ToFString : Int → String) (StringHandles : List Int),
      (convertAllStringHandles ToFString StringHandles).OutData
        = StringHandles.map (fun sh => if sh < 0 then "" else ToFString sh)
      ∧ (convertAllStringHandles ToFString StringHandles).Calls.Nodup
      ∧ (∀ h, h ∈ (convertAllStringHandles ToFString StringHandles).Calls
          ↔ (h ∈ StringHandles ∧ 0 ≤ h)) := by
    intro ToFString StringHandles
    obtain ⟨h1, h2, h3⟩ :=
      convertStringHandles_spec ToFString StringHandles _ (memoInvariant_initial ToFString)
    refine ⟨?_, h2.2.2.1, ?_⟩
    · simpa [convertAllStringHandles, resolveHandleDirect] using h1
    · intro h
      have := h3 h
      simpa [convertAllStringHandles] using this
  obtain ⟨hfun, hout⟩ := HapiGetAttributeDataAsStringFromInfo_success api geo part name info
    out0 hex hfetch
  refine ⟨?_, hfun, (hloop _ _).2.1, (hloop _ _).2.2, hloop⟩
  rw [hfun, hout]

/-- Witness for `C9_string_handle_memo`: the handles `7, 7, -1, 8` give the texts
`"12", "12", "", "345"`, and the resolver is called for `7` and for `8`, once each. -/
theorem C9_string_handle_memo_witness :
    (attributeOn HAPI_AttributeOwner.HAPI_ATTROWNER_DETAIL
      HAPI_StorageType.HAPI_STORAGETYPE_STRING 4 1).exists_ = true
    ∧ (repeatedHandlesApi.GetAttributeStringData 0 0 "Cd"
        (attributeOn HAPI_AttributeOwner.HAPI_ATTROWNER_DETAIL
          HAPI_StorageType.HAPI_STORAGETYPE_STRING 4 1) 0 4).1
      = HAPI_Result.HAPI_RESULT_SUCCESS
    ∧ HapiGetAttributeDataAsStringFromInfo repeatedHandlesApi 0 0 "Cd"
        (attributeOn HAPI_AttributeOwner.HAPI_ATTROWNER_DETAIL
          HAPI_StorageType.HAPI_STORAGETYPE_STRING 4 1) ["stale"]
      = (true, (fillBuffer 4 (repeatedHandlesApi.GetAttributeStringData 0 0 "Cd"
          (attributeOn HAPI_AttributeOwner.HAPI_ATTROWNER_DETAIL
            HAPI_StorageType.HAPI_STORAGETYPE_STRING 4 1) 0 4).2).map
            (fun sh => if sh < 0 then "" else repeatedHandlesApi.ToFString sh))
    ∧ HapiGetAttributeDataAsStringFromInfo repeatedHandlesApi 0 0 "Cd"
        (attributeOn HAPI_AttributeOwner.HAPI_ATTROWNER_DETAIL
          HAPI_StorageType.HAPI_STORAGETYPE_STRING 4 1) ["stale"]
      = (true, ["12", "12", "", "345"])
    ∧ (convertAllStringHandles repeatedHandlesApi.ToFString [7, 7, -1, 8]).Calls = [7, 8] :=
  ⟨by decide, by decide,
    (C9_string_handle_memo repeatedHandlesApi 0 0 "Cd"
      (attributeOn HAPI_AttributeOwner.HAPI_ATTROWNER_DETAIL
        HAPI_StorageType.HAPI_STORAGETYPE_STRING 4 1) ["stale"] (by decide) (by decide)).1,
    by decide, by decide⟩

/-- Truncation toward zero is the floor of a non-negative value and the ceiling of a
negative one. -/
theorem truncateTowardZero_eq_floor_or_ceil (x : ℚ) :
    truncateTowardZero x = if 0 ≤ x then ⌊x⌋ else ⌈x⌉ := by
  unfold truncateTowardZero
  split_ifs with h
  · rw [Rat.floor_def]
    exact Int.tdiv_eq_ediv (Rat.num_nonneg.mpr h) (Int.ofNat_nonneg _)
  · have hx : 0 ≤ -x := by linarith [not_le.mp h]
    have hc : ⌈x⌉ = -⌊-x⌋ := by rw [Int.floor_neg, neg_neg]
    rw [hc, Rat.floor_def, Rat.neg_num, Rat.neg_den,
      ← Int.tdiv_eq_ediv (by simpa using Rat.num_nonneg.mpr hx) (Int.ofNat_nonneg _),
      Int.neg_tdiv, neg_neg]

/-- The cast `(int32)x` of a value whose truncation is an `int32` is that truncation. -/
theorem castFloatToInt32_in_range (x : ℚ) (h1 : INT32_MIN ≤ truncateTowardZero x)
    (h2 : truncateTowardZero x ≤ INT32_MAX) : castFloatToInt32 x = truncateTowardZero x := by
  unfold castFloatToInt32
  rw [if_pos ⟨h1, h2⟩]

/-- The cast `(int32)x` yields an `int32`, whatever the value. -/
theorem castFloatToInt32_range (x : ℚ) :
    INT32_MIN ≤ castFloatToInt32 x ∧ castFloatToInt32 x ≤ INT32_MAX := by
  unfold castFloatToInt32
  split_ifs with h
  · exact h
  · exact ⟨le_refl _, by decide⟩

/-- A number below `2 ^ 24` loses no bit. -/
theorem excessBits_small (fuel n : Nat) (h : n < 2 ^ 24) : excessBits fuel n = 0 := by
  cases fuel with
  | zero => rfl
  | succ fuel =>
    unfold excessBits
    rw [if_pos h]

/-- With enough halvings allowed, what is left after dropping the excess bits fits in 24
bits. -/
theorem excessBits_fits (fuel : Nat) : ∀ n, n ≤ fuel → n / 2 ^ excessBits fuel n < 2 ^ 24 := by
  induction fuel with
  | zero =>
    intro n hn
    have : n = 0 := by omega
    subst this
    simp [excessBits]
  | succ fuel ih =>
    intro n hn
    unfold excessBits
    by_cases hlt : n < 2 ^ 24
    · rw [if_pos hlt]
      simpa using hlt
    · rw [if_neg hlt]
      have hhalf : n / 2 ≤ fuel := by omega
      have := ih (n / 2) hhalf
      rw [Nat.div_div_eq_div_mul] at this
      rw [pow_succ, Nat.mul_comm]
      exact this

/-- A natural number up to `2 ^ 24` is a single-precision value. -/
theorem roundToFloat_exact (n : Nat) (h : n ≤ 2 ^ 24) : roundToFloat n = n := by
  by_cases hlt : n < 2 ^ 24
  · unfold roundToFloat
    simp [excessBits_small n n hlt, Nat.mod_one]
  · have : n = 2 ^ 24 := by omega
    subst this
    decide

/-- The rounded value is a multiple of the unit of the last kept bit, with a multiplier of
at most `2 ^ 24`, and lies within half that unit of the number. -/
theorem roundToFloat_near (n : Nat) :
    (∃ m, m ≤ 2 ^ 24 ∧ roundToFloat n = m * 2 ^ excessBits n n)
    ∧ 2 * roundToFloat n ≤ 2 * n + 2 ^ excessBits n n
    ∧ 2 * n ≤ 2 * roundToFloat n + 2 ^ excessBits n n := by
  have hfit := excessBits_fits n n (le_refl n)
  have hdm := Nat.div_add_mod n (2 ^ excessBits n n)
  have hr := Nat.mod_lt n (Nat.pos_pow_of_pos (excessBits n n) (by decide : 0 < 2))
  unfold roundToFloat
  simp only
  generalize excessBits n n = e at *
  generalize hq : n / 2 ^ e = q at *
  generalize hrr : n % 2 ^ e = r at *
  generalize hP : 2 ^ e = P at *
  have hqP : q * P = P * q := Nat.mul_comm _ _
  have hq1 : (q + 1) * P = P * q + P := by ring
  split_ifs with hc
  · refine ⟨⟨q, by omega, rfl⟩, ?_, ?_⟩
    · rw [hqP]; omega
    · rw [hqP]
      rcases hc with hc | hc <;> omega
  · refine ⟨⟨q + 1, by omega, rfl⟩, ?_, ?_⟩
    · rw [hq1]
      have : ¬ 2 * r < P := fun h => hc (Or.inl h)
      omega
    · rw [hq1]; omega

/-- The cast `(float)n` is exact on the integers of magnitude up to `2 ^ 24`. -/
theorem castInt32ToFloat_exact (n : Int) (h : n.natAbs ≤ 2 ^ 24) :
    castInt32ToFloat n = (n : ℚ) := by
  unfold castInt32ToFloat
  rw [roundToFloat_exact n.natAbs h]
  split_ifs with hn
  · rw [Nat.cast_natAbs, abs_of_nonneg hn]
  · rw [Nat.cast_natAbs, abs_of_neg (not_le.mp hn)]
    push_cast
    ring

/-- The cast `(float)n` lies within half a unit of the last kept bit of `n`. -/
theorem castInt32ToFloat_near (n : Int) :
    2 * |castInt32ToFloat n - (n : ℚ)| ≤ 2 ^ excessBits n.natAbs n.natAbs := by
  obtain ⟨_, h1, h2⟩ := roundToFloat_near n.natAbs
  have h1q : (2 : ℚ) * (roundToFloat n.natAbs : ℚ)
      ≤ 2 * (n.natAbs : ℚ) + 2 ^ excessBits n.natAbs n.natAbs := by exact_mod_cast h1
  have h2q : (2 : ℚ) * (n.natAbs : ℚ)
      ≤ 2 * (roundToFloat n.natAbs : ℚ) + 2 ^ excessBits n.natAbs n.natAbs := by
    exact_mod_cast h2
  unfold castInt32ToFloat
  split_ifs with hn
  · have habs : ((n.natAbs : Nat) : ℚ) = (n : ℚ) := by
      rw [Nat.cast_natAbs, abs_of_nonneg hn]
    rw [habs] at h1q h2q
    have key : |((roundToFloat n.natAbs : Nat) : ℚ) - (n : ℚ)|
        ≤ 2 ^ excessBits n.natAbs n.natAbs / 2 := by
      rw [abs_le]
      constructor <;> linarith
    linarith
  · have habs : ((n.natAbs : Nat) : ℚ) = -(n : ℚ) := by
      rw [Nat.cast_natAbs, abs_of_neg (not_le.mp hn)]
      push_cast
      ring
    rw [habs] at h1q h2q
    have key : |-((roundToFloat n.natAbs : Nat) : ℚ) - (n : ℚ)|
        ≤ 2 ^ excessBits n.natAbs n.natAbs / 2 := by
      rw [abs_le]
      constructor <;> linarith
    linarith

/-- A selected attribute is the info the probing ended with, and it exists. -/
theorem selected_eq_some (p : OwnerProbe) (info : HAPI_AttributeInfo)
    (h : p.selected = some info) : p.info = some info ∧ info.exists_ = true := by
  unfold OwnerProbe.selected at h
  cases hp : p.info with
  | none => simp [hp] at h
  | some i =>
    simp only [hp] at h
    by_cases he : i.exists_ = true
    · simp only [he, if_true, Option.some.injEq] at h
      subst h
      exact ⟨rfl, he⟩
    · simp [he] at h

/-- The override leaves the element count untouched. -/
theorem overrideTupleSize_count (info : HAPI_AttributeInfo) (s : Int) :
    (overrideTupleSize info s).count = info.count := by
  unfold overrideTupleSize; split_ifs <;> rfl

/-- The override leaves the storage type untouched. -/
theorem overrideTupleSize_storage (info : HAPI_AttributeInfo) (s : Int) :
    (overrideTupleSize info s).storage = info.storage := by
  unfold overrideTupleSize; split_ifs <;> rfl

/-- The override leaves the existence flag untouched. -/
theorem overrideTupleSize_exists (info : HAPI_AttributeInfo) (s : Int) :
    (overrideTupleSize info s).exists_ = info.exists_ := by
  unfold overrideTupleSize; split_ifs <;> rfl

/-- The tuple size after the override. -/
theorem overrideTupleSize_tupleSize (info : HAPI_AttributeInfo) (s : Int) :
    (overrideTupleSize info s).tupleSize = if 0 < s then s.toNat else info.tupleSize := by
  unfold overrideTupleSize; split_ifs <;> rfl

/-- A buffer of `n` slots has `n` entries. -/
theorem fillBuffer_length {α : Type} (n : Nat) (written : Nat → α) :
    (fillBuffer n written).length = n := by
  simp [fillBuffer]

/-- The product `c * t` with the tuple size `t` in effect is sized by the override. -/
theorem sizedByOverride_of_override (info : HAPI_AttributeInfo) (s : Int) (len : Nat)
    (h : len = info.count * (overrideTupleSize info s).tupleSize) :
    SizedByOverride len info.count info.tupleSize s := by
  rw [overrideTupleSize_tupleSize] at h
  constructor
  · intro hs
    rw [h, if_pos hs]
    push_cast
    rw [Int.toNat_of_nonneg hs.le]
  · intro hs
    rw [h, if_neg (by omega)]

/-- C5 (as stated, refuted): an existing float attribute whose float fetch succeeds holds
the values `2147483648` and `3.7`. `HapiGetAttributeDataAsInteger` returns success with
two values, but the first is `-2147483648`, not the source value truncated toward zero,
`2147483648`, which is no `int32`; the second is `3`. -/
theorem C5_out_of_range_counterexample :
    (probeOwners (wideValueApi HAPI_StorageType.HAPI_STORAGETYPE_FLOAT) 0 0 "Cd"
        HAPI_AttributeOwner.HAPI_ATTROWNER_DETAIL).selected
      = some (attributeOn HAPI_AttributeOwner.HAPI_ATTROWNER_DETAIL
          HAPI_StorageType.HAPI_STORAGETYPE_FLOAT 2 1)
    ∧ ((wideValueApi HAPI_StorageType.HAPI_STORAGETYPE_FLOAT).GetAttributeFloatData 0 0 "Cd"
        (attributeOn HAPI_AttributeOwner.HAPI_ATTROWNER_DETAIL
          HAPI_StorageType.HAPI_STORAGETYPE_FLOAT 2 1) (-1) 0 2).1
      = HAPI_Result.HAPI_RESULT_SUCCESS
    ∧ (HapiGetAttributeDataAsInteger (wideValueApi HAPI_StorageType.HAPI_STORAGETYPE_FLOAT)
        digitStringLibrary 0 0 "Cd" AttributeInfo_Init 0
        HAPI_AttributeOwner.HAPI_ATTROWNER_DETAIL).ok = true
    ∧ (HapiGetAttributeDataAsInteger (wideValueApi HAPI_StorageType.HAPI_STORAGETYPE_FLOAT)
        digitStringLibrary 0 0 "Cd" AttributeInfo_Init 0
        HAPI_AttributeOwner.HAPI_ATTROWNER_DETAIL).OutData = [-2147483648, 3]
    ∧ (fillBuffer 2
        ((wideValueApi HAPI_StorageType.HAPI_STORAGETYPE_FLOAT).GetAttributeFloatData 0 0 "Cd"
          (attributeOn HAPI_AttributeOwner.HAPI_ATTROWNER_DETAIL
            HAPI_StorageType.HAPI_STORAGETYPE_FLOAT 2 1) (-1) 0 2).2).map truncateTowardZero
      = [2147483648, 3] := by
  refine ⟨by decide, by decide, by decide, by decide, by decide⟩

/-- C5 (amended): for an existing float attribute whose float fetch succeeds,
`HapiGetAttributeDataAsInteger` returns success with exactly `count * tupleSize` values
(count and tuple size as in the info it hands back, which is the attribute's own info when
no override is given), each an `int32`, the i-th being the cast `(int32)` of the i-th
fetched value: that value truncated toward zero whenever the truncation is within the
`int32` range (floor of a non-negative value, ceiling of a negative one; `3.7` gives `3`).
Symmetrically, for an existing int attribute whose int fetch succeeds
`HapiGetAttributeDataAsFloat` returns success with exactly `count * tupleSize` values,
each the cast `(float)` of the fetched integer: the integer itself when its magnitude is
at most `2 ^ 24`, and in every case within half a unit of the last kept bit of it
(`16777217` gives `16777216`). -/
theorem C5_int_float_coercion_amended (api : FHoudiniApi) (lib : FStringLibrary)
    (geo part : Int) (name : String) (out0 : HAPI_AttributeInfo) (s : Int)
    (owner : HAPI_AttributeOwner) (info : HAPI_AttributeInfo)
    (hsel : (probeOwners api geo part name owner).selected = some info) :
    (info.storage = HAPI_StorageType.HAPI_STORAGETYPE_FLOAT →
      (api.GetAttributeFloatData geo part name (overrideTupleSize info s) (-1) 0
        info.count).1 = HAPI_Result.HAPI_RESULT_SUCCESS →
      (HapiGetAttributeDataAsInteger api lib geo part name out0 s owner).ok = true
      ∧ (HapiGetAttributeDataAsInteger api lib geo part name out0 s owner).OutData
        = (List.range (info.count * (overrideTupleSize info s).tupleSize)).map
            (fun i => castFloatToInt32
              ((api.GetAttributeFloatData geo part name (overrideTupleSize info s) (-1) 0
                info.count).2 i))
      ∧ (∀ i, i < info.count * (overrideTupleSize info s).tupleSize →
          INT32_MIN ≤ truncateTowardZero
            ((api.GetAttributeFloatData geo part name (overrideTupleSize info s) (-1) 0
              info.count).2 i) →
          truncateTowardZero
            ((api.GetAttributeFloatData geo part name (overrideTupleSize info s) (-1) 0
              info.count).2 i) ≤ INT32_MAX →
          (HapiGetAttributeDataAsInteger api lib geo part name out0 s owner).OutData[i]?
            = some (truncateTowardZero
                ((api.GetAttributeFloatData geo part name (overrideTupleSize info s) (-1) 0
                  info.count).2 i)))
      ∧ (∀ v ∈ (HapiGetAttributeDataAsInteger api lib geo part name out0 s owner).OutData,
          INT32_MIN ≤ v ∧ v ≤ INT32_MAX)
      ∧ (HapiGetAttributeDataAsInteger api lib geo part name out0 s owner).OutData.length
        = (HapiGetAttributeDataAsInteger api lib geo part name out0 s owner).OutAttributeInfo.count
          * (HapiGetAttributeDataAsInteger api lib geo part name out0 s
              owner).OutAttributeInfo.tupleSize
      ∧ (s ≤ 0 →
        (HapiGetAttributeDataAsInteger api lib geo part name out0 s owner).OutAttributeInfo
          = info))
    ∧ (info.storage = HAPI_StorageType.HAPI_STORAGETYPE_INT →
      (api.GetAttributeIntData geo part name (overrideTupleSize info s) (-1) 0
        info.count).1 = HAPI_Result.HAPI_RESULT_SUCCESS →
      (HapiGetAttributeDataAsFloat api lib geo part name out0 s owner).ok = true
      ∧ (HapiGetAttributeDataAsFloat api lib geo part name out0 s owner).OutData
        = (List.range (info.count * (overrideTupleSize info s).tupleSize)).map
            (fun i => castInt32ToFloat
              ((api.GetAttributeIntData geo part name (overrideTupleSize info s) (-1) 0
                info.count).2 i))
      ∧ (∀ i, i < info.count * (overrideTupleSize info s).tupleSize →
          ((api.GetAttributeIntData geo part name (overrideTupleSize info s) (-1) 0
            info.count).2 i).natAbs ≤ 2 ^ 24 →
          (HapiGetAttributeDataAsFloat api lib geo part name out0 s owner).OutData[i]?
            = some (((api.GetAttributeIntData geo part name (overrideTupleSize info s) (-1) 0
                info.count).2 i : Int) : ℚ))
      ∧ (HapiGetAttributeDataAsFloat api lib geo part name out0 s owner).OutData.length
        = (HapiGetAttributeDataAsFloat api lib geo part name out0 s owner).OutAttributeInfo.count
          * (HapiGetAttributeDataAsFloat api lib geo part name out0 s
              owner).OutAttributeInfo.tupleSize
      ∧ (s ≤ 0 →
        (HapiGetAttributeDataAsFloat api lib geo part name out0 s owner).OutAttributeInfo
          = info))
    ∧ (∀ x : ℚ, truncateTowardZero x = if 0 ≤ x then ⌊x⌋ else ⌈x⌉)
    ∧ castFloatToInt32 (37 / 10) = 3
    ∧ (∀ n : Int, 2 * |castInt32ToFloat n - (n : ℚ)| ≤ 2 ^ excessBits n.natAbs n.natAbs)
    ∧ castInt32ToFloat 16777217 = 16777216 := by
  obtain ⟨hinfo, hex⟩ := selected_eq_some _ _ hsel
  have hnative : s ≤ 0 → overrideTupleSize info s = info := by
    intro hs
    unfold overrideTupleSize
    rw [if_neg (by omega)]
  refine ⟨?_, ?_, truncateTowardZero_eq_floor_or_ceil, ?_, castInt32ToFloat_near, ?_⟩
  · intro hst hfetch
    have hdata : (HapiGetAttributeDataAsInteger api lib geo part name out0 s owner).OutData
        = (List.range (info.count * (overrideTupleSize info s).tupleSize)).map
            (fun i => castFloatToInt32
              ((api.GetAttributeFloatData geo part name (overrideTupleSize info s) (-1) 0
                info.count).2 i)) := by
      simp [HapiGetAttributeDataAsInteger, hinfo, hex, overrideTupleSize_storage,
        overrideTupleSize_count, hst, hfetch, fillBuffer]
    refine ⟨?_, hdata, ?_, ?_, ?_, ?_⟩
    · simp [HapiGetAttributeDataAsInteger, hinfo, hex, overrideTupleSize_storage,
        overrideTupleSize_count, hst, hfetch]
    · intro i hi h1 h2
      rw [hdata, List.getElem?_map, List.getElem?_range hi]
      simp only [Option.map_some']
      rw [castFloatToInt32_in_range _ h1 h2]
    · intro v hv
      rw [hdata] at hv
      obtain ⟨i, _, rfl⟩ := List.mem_map.mp hv
      exact castFloatToInt32_range _
    · simp [HapiGetAttributeDataAsInteger, hinfo, hex, overrideTupleSize_storage,
        overrideTupleSize_count, hst, hfetch, fillBuffer]
    · intro hs
      rw [hnative hs] at hfetch
      simp [HapiGetAttributeDataAsInteger, hinfo, hex, hst, hfetch, hnative hs]
  · intro hst hfetch
    have hdata : (HapiGetAttributeDataAsFloat api lib geo part name out0 s owner).OutData
        = (List.range (info.count * (overrideTupleSize info s).tupleSize)).map
            (fun i => castInt32ToFloat
              ((api.GetAttributeIntData geo part name (overrideTupleSize info s) (-1) 0
                info.count).2 i)) := by
      simp [HapiGetAttributeDataAsFloat, hinfo, hex, overrideTupleSize_storage,
        overrideTupleSize_count, hst, hfetch, fillBuffer]
    refine ⟨?_, hdata, ?_, ?_, ?_⟩
    · simp [HapiGetAttributeDataAsFloat, hinfo, hex, overrideTupleSize_storage,
        overrideTupleSize_count, hst, hfetch]
    · intro i hi hsmall
      rw [hdata, List.getElem?_map, List.getElem?_range hi]
      simp only [Option.map_some']
      rw [castInt32ToFloat_exact _ hsmall]
    · simp [HapiGetAttributeDataAsFloat, hinfo, hex, overrideTupleSize_storage,
        overrideTupleSize_count, hst, hfetch, fillBuffer]
    · intro hs
      rw [hnative hs] at hfetch
      simp [HapiGetAttributeDataAsFloat, hinfo, hex, hst, hfetch, hnative hs]
  · have ht : truncateTowardZero (37 / 10) = 3 := by
      unfold truncateTowardZero
      norm_num
      rfl
    rw [castFloatToInt32_in_range _ (by rw [ht]; decide) (by rw [ht]; decide), ht]
  · unfold castInt32ToFloat
    rw [if_pos (by decide)]
    have hr : roundToFloat (16777217 : Int).natAbs = 16777216 := by decide
    rw [hr]
    norm_num

/-- Witness for `C5_int_float_coercion_amended`: a detail float attribute holding `37/10`
and `-37/10` read as the integers `3` and `-3`, and a detail int attribute holding `5` and
`-2` read as floats; the int attribute holding `16777217` and `-3` is read as `16777216`
and `-3`. -/
theorem C5_int_float_coercion_amended_witness :
    (probeOwners (detailAttributeApi HAPI_StorageType.HAPI_STORAGETYPE_FLOAT HAPI_Result.HAPI_RESULT_SUCCESS) 0 0 "Cd"
        HAPI_AttributeOwner.HAPI_ATTROWNER_DETAIL).selected
      = some (attributeOn HAPI_AttributeOwner.HAPI_ATTROWNER_DETAIL HAPI_StorageType.HAPI_STORAGETYPE_FLOAT 2 1)
    ∧ (HapiGetAttributeDataAsInteger (detailAttributeApi HAPI_StorageType.HAPI_STORAGETYPE_FLOAT HAPI_Result.HAPI_RESULT_SUCCESS) digitStringLibrary 0 0 "Cd"
        AttributeInfo_Init 0 HAPI_AttributeOwner.HAPI_ATTROWNER_DETAIL).ok = true
    ∧ (HapiGetAttributeDataAsInteger (detailAttributeApi HAPI_StorageType.HAPI_STORAGETYPE_FLOAT HAPI_Result.HAPI_RESULT_SUCCESS) digitStringLibrary 0 0 "Cd"
        AttributeInfo_Init 0 HAPI_AttributeOwner.HAPI_ATTROWNER_DETAIL).OutData = [3, -3]
    ∧ (probeOwners (detailAttributeApi HAPI_StorageType.HAPI_STORAGETYPE_INT HAPI_Result.HAPI_RESULT_SUCCESS) 0 0 "Cd"
        HAPI_AttributeOwner.HAPI_ATTROWNER_DETAIL).selected
      = some (attributeOn HAPI_AttributeOwner.HAPI_ATTROWNER_DETAIL HAPI_StorageType.HAPI_STORAGETYPE_INT 2 1)
    ∧ (HapiGetAttributeDataAsFloat (detailAttributeApi HAPI_StorageType.HAPI_STORAGETYPE_INT HAPI_Result.HAPI_RESULT_SUCCESS) digitStringLibrary 0 0 "Cd"
        AttributeInfo_Init 0 HAPI_AttributeOwner.HAPI_ATTROWNER_DETAIL).ok = true
    ∧ (HapiGetAttributeDataAsFloat (detailAttributeApi HAPI_StorageType.HAPI_STORAGETYPE_INT HAPI_Result.HAPI_RESULT_SUCCESS) digitStringLibrary 0 0 "Cd"
        AttributeInfo_Init 0 HAPI_AttributeOwner.HAPI_ATTROWNER_DETAIL).OutData
      = [mkRat 5 1, mkRat (-2) 1]
    ∧ (HapiGetAttributeDataAsFloat (wideValueApi HAPI_StorageType.HAPI_STORAGETYPE_INT)
        digitStringLibrary 0 0 "Cd" AttributeInfo_Init 0
        HAPI_AttributeOwner.HAPI_ATTROWNER_DETAIL).OutData
      = [mkRat 16777216 1, mkRat (-3) 1] :=
  ⟨by decide,
    ((C5_int_float_coercion_amended (detailAttributeApi HAPI_StorageType.HAPI_STORAGETYPE_FLOAT HAPI_Result.HAPI_RESULT_SUCCESS) digitStringLibrary 0 0 "Cd"
      AttributeInfo_Init 0 HAPI_AttributeOwner.HAPI_ATTROWNER_DETAIL
      (attributeOn HAPI_AttributeOwner.HAPI_ATTROWNER_DETAIL HAPI_StorageType.HAPI_STORAGETYPE_FLOAT 2 1) (by decide)).1 (by decide) (by decide)).1,
    by decide,
    by decide,
    ((C5_int_float_coercion_amended (detailAttributeApi HAPI_StorageType.HAPI_STORAGETYPE_INT HAPI_Result.HAPI_RESULT_SUCCESS) digitStringLibrary 0 0 "Cd"
      AttributeInfo_Init 0 HAPI_AttributeOwner.HAPI_ATTROWNER_DETAIL
      (attributeOn HAPI_AttributeOwner.HAPI_ATTROWNER_DETAIL HAPI_StorageType.HAPI_STORAGETYPE_INT 2 1) (by decide)).2.1 (by decide) (by decide)).1,
    by decide, by decide⟩

/-- When the handle fetch succeeds on an existing attribute, the string fetch succeeds. -/
theorem stringFromInfo_ok (api : FHoudiniApi) (geo part : Int) (name : String)
    (A : HAPI_AttributeInfo) (out0 : List String) (hex : A.exists_ = true)
    (hr : (api.GetAttributeStringData geo part name A 0 A.count).1
      = HAPI_Result.HAPI_RESULT_SUCCESS) :
    (HapiGetAttributeDataAsStringFromInfo api geo part name A out0).1 = true
    ∧ (HapiGetAttributeDataAsStringFromInfo api geo part name A out0).2.length
      = A.count * A.tupleSize := by
  unfold HapiGetAttributeDataAsStringFromInfo
  simp [hex, hr, convertAllStringHandles_OutData, fillBuffer]

/-- C7: for an existing string attribute whose string handles are fetched successfully,
`HapiGetAttributeDataAsInteger` and `HapiGetAttributeDataAsFloat` return success if and
only if every fetched string value (the text of each fetched handle, the empty text for a
negative handle) is numeric; a single non-numeric value makes both calls return
failure. -/
theorem C7_string_to_number_iff_all_numeric (api : FHoudiniApi) (lib : FStringLibrary)
    (geo part : Int) (name : String) (out0 : HAPI_AttributeInfo) (s : Int)
    (owner : HAPI_AttributeOwner) (info : HAPI_AttributeInfo)
    (hsel : (probeOwners api geo part name owner).selected = some info)
    (hst : info.storage = HAPI_StorageType.HAPI_STORAGETYPE_STRING)
    (hfetch : (api.GetAttributeStringData geo part name (overrideTupleSize info s) 0
      info.count).1 = HAPI_Result.HAPI_RESULT_SUCCESS) :
    ((HapiGetAttributeDataAsInteger api lib geo part name out0 s owner).ok = true
      ↔ ∀ i, i < info.count * (overrideTupleSize info s).tupleSize →
          lib.IsNumeric
            (if (api.GetAttributeStringData geo part name (overrideTupleSize info s) 0
                info.count).2 i < 0 then ""
              else api.ToFString
                ((api.GetAttributeStringData geo part name (overrideTupleSize info s) 0
                  info.count).2 i)) = true)
    ∧ ((HapiGetAttributeDataAsFloat api lib geo part name out0 s owner).ok = true
      ↔ ∀ i, i < info.count * (overrideTupleSize info s).tupleSize →
          lib.IsNumeric
            (if (api.GetAttributeStringData geo part name (overrideTupleSize info s) 0
                info.count).2 i < 0 then ""
              else api.ToFString
                ((api.GetAttributeStringData geo part name (overrideTupleSize info s) 0
                  info.count).2 i)) = true)
    ∧ ((∃ i, i < info.count * (overrideTupleSize info s).tupleSize
          ∧ lib.IsNumeric
            (if (api.GetAttributeStringData geo part name (overrideTupleSize info s) 0
                info.count).2 i < 0 then ""
              else api.ToFString
                ((api.GetAttributeStringData geo part name (overrideTupleSize info s) 0
                  info.count).2 i)) = false) →
        (HapiGetAttributeDataAsInteger api lib geo part name out0 s owner).ok = false
        ∧ (HapiGetAttributeDataAsFloat api lib geo part name out0 s owner).ok = false) := by
  obtain ⟨hinfo, hex⟩ := selected_eq_some _ _ hsel
  have hfetch' : (api.GetAttributeStringData geo part name (overrideTupleSize info s) 0
      (overrideTupleSize info s).count).1 = HAPI_Result.HAPI_RESULT_SUCCESS := by
    rw [overrideTupleSize_count]; exact hfetch
  have hexA : (overrideTupleSize info s).exists_ = true := by
    rw [overrideTupleSize_exists]; exact hex
  obtain ⟨hfun, hout⟩ := HapiGetAttributeDataAsStringFromInfo_success api geo part name
    (overrideTupleSize info s) [] hexA hfetch'
  rw [hout, overrideTupleSize_count] at hfun
  have hmem : (∀ str ∈ (fillBuffer (info.count * (overrideTupleSize info s).tupleSize)
        (api.GetAttributeStringData geo part name (overrideTupleSize info s) 0
          info.count).2).map (fun sh => if sh < 0 then "" else api.ToFString sh),
        lib.IsNumeric str = true)
      ↔ ∀ i, i < info.count * (overrideTupleSize info s).tupleSize →
          lib.IsNumeric
            (if (api.GetAttributeStringData geo part name (overrideTupleSize info s) 0
                info.count).2 i < 0 then ""
              else api.ToFString
                ((api.GetAttributeStringData geo part name (overrideTupleSize info s) 0
                  info.count).2 i)) = true := by
    simp [fillBuffer]
  have hint : (HapiGetAttributeDataAsInteger api lib geo part name out0 s owner).ok = true
      ↔ ∀ str ∈ (fillBuffer (info.count * (overrideTupleSize info s).tupleSize)
        (api.GetAttributeStringData geo part name (overrideTupleSize info s) 0
          info.count).2).map (fun sh => if sh < 0 then "" else api.ToFString sh),
        lib.IsNumeric str = true := by
    simp [HapiGetAttributeDataAsInteger, hinfo, hex, overrideTupleSize_storage, hst, hfun]
  have hflt : (HapiGetAttributeDataAsFloat api lib geo part name out0 s owner).ok = true
      ↔ ∀ str ∈ (fillBuffer (info.count * (overrideTupleSize info s).tupleSize)
        (api.GetAttributeStringData geo part name (overrideTupleSize info s) 0
          info.count).2).map (fun sh => if sh < 0 then "" else api.ToFString sh),
        lib.IsNumeric str = true := by
    simp [HapiGetAttributeDataAsFloat, hinfo, hex, overrideTupleSize_storage, hst, hfun]
  refine ⟨hint.trans hmem, hflt.trans hmem, ?_⟩
  rintro ⟨i, hi, hnot⟩
  have hno : ¬ ∀ i, i < info.count * (overrideTupleSize info s).tupleSize →
      lib.IsNumeric
        (if (api.GetAttributeStringData geo part name (overrideTupleSize info s) 0
            info.count).2 i < 0 then ""
          else api.ToFString
            ((api.GetAttributeStringData geo part name (overrideTupleSize info s) 0
              info.count).2 i)) = true := by
    intro hall
    rw [hall i hi] at hnot
    exact Bool.noConfusion hnot
  constructor
  · cases hok : (HapiGetAttributeDataAsInteger api lib geo part name out0 s owner).ok with
    | false => rfl
    | true => exact absurd ((hint.trans hmem).mp hok) hno
  · cases hok : (HapiGetAttributeDataAsFloat api lib geo part name out0 s owner).ok with
    | false => rfl
    | true => exact absurd ((hflt.trans hmem).mp hok) hno

/-- Witness for `C7_string_to_number_iff_all_numeric`: the detail string attribute with
the values `"12"` and `"abc"` makes both numeric reads fail, because the second value is
not numeric; the attribute with the values `"12"` and `"345"` makes both succeed. -/
theorem C7_string_to_number_iff_all_numeric_witness :
    (probeOwners (detailAttributeApi HAPI_StorageType.HAPI_STORAGETYPE_STRING HAPI_Result.HAPI_RESULT_SUCCESS) 0 0 "Cd"
        HAPI_AttributeOwner.HAPI_ATTROWNER_DETAIL).selected
      = some (attributeOn HAPI_AttributeOwner.HAPI_ATTROWNER_DETAIL HAPI_StorageType.HAPI_STORAGETYPE_STRING 2 1)
    ∧ ((HapiGetAttributeDataAsInteger (detailAttributeApi HAPI_StorageType.HAPI_STORAGETYPE_STRING HAPI_Result.HAPI_RESULT_SUCCESS) digitStringLibrary 0 0 "Cd"
        AttributeInfo_Init 0 HAPI_AttributeOwner.HAPI_ATTROWNER_DETAIL).ok = false
      ∧ (HapiGetAttributeDataAsFloat (detailAttributeApi HAPI_StorageType.HAPI_STORAGETYPE_STRING HAPI_Result.HAPI_RESULT_SUCCESS) digitStringLibrary 0 0 "Cd"
        AttributeInfo_Init 0 HAPI_AttributeOwner.HAPI_ATTROWNER_DETAIL).ok = false)
    ∧ (HapiGetAttributeDataAsInteger numericStringsApi digitStringLibrary 0 0 "Cd"
        AttributeInfo_Init 0 HAPI_AttributeOwner.HAPI_ATTROWNER_DETAIL).ok = true
    ∧ (HapiGetAttributeDataAsInteger numericStringsApi digitStringLibrary 0 0 "Cd"
        AttributeInfo_Init 0 HAPI_AttributeOwner.HAPI_ATTROWNER_DETAIL).OutData = [12, 345]
    ∧ (HapiGetAttributeDataAsFloat numericStringsApi digitStringLibrary 0 0 "Cd"
        AttributeInfo_Init 0 HAPI_AttributeOwner.HAPI_ATTROWNER_DETAIL).ok = true :=
  ⟨by decide,
    (C7_string_to_number_iff_all_numeric (detailAttributeApi HAPI_StorageType.HAPI_STORAGETYPE_STRING HAPI_Result.HAPI_RESULT_SUCCESS) digitStringLibrary
      0 0 "Cd" AttributeInfo_Init 0 HAPI_AttributeOwner.HAPI_ATTROWNER_DETAIL
      (attributeOn HAPI_AttributeOwner.HAPI_ATTROWNER_DETAIL HAPI_StorageType.HAPI_STORAGETYPE_STRING 2 1) (by decide) (by decide) (by decide)).2.2
      ⟨1, by decide, by decide⟩,
    by decide, by decide, by decide⟩

/-- C8: for each of `HapiGetAttributeDataAsFloat`, `AsInteger` and `AsString`, on an
existing attribute with element count `c` and native tuple size `n` whose data fetch
succeeds, the output array has exactly `c * s` entries when the tuple size override `s` is
positive and exactly `c * n` entries when it is zero or negative. -/
theorem C8_tuple_size_override (api : FHoudiniApi) (lib : FStringLibrary)
    (geo part : Int) (name : String) (out0 : HAPI_AttributeInfo) (s : Int)
    (owner : HAPI_AttributeOwner) (info : HAPI_AttributeInfo)
    (hsel : (probeOwners api geo part name owner).selected = some info)
    (hfetch : attributeFetchSucceeds api geo part name (overrideTupleSize info s) = true) :
    SizedByOverride
        (HapiGetAttributeDataAsFloat api lib geo part name out0 s owner).OutData.length
        info.count info.tupleSize s
    ∧ SizedByOverride
        (HapiGetAttributeDataAsInteger api lib geo part name out0 s owner).OutData.length
        info.count info.tupleSize s
    ∧ SizedByOverride
        (HapiGetAttributeDataAsString api lib geo part name out0 s owner).OutData.length
        info.count info.tupleSize s := by
  obtain ⟨hinfo, hex⟩ := selected_eq_some _ _ hsel
  have hex' : (overrideTupleSize info s).exists_ = true := by
    rw [overrideTupleSize_exists]; exact hex
  unfold attributeFetchSucceeds at hfetch
  rw [overrideTupleSize_storage, overrideTupleSize_count] at hfetch
  refine ⟨?_, ?_, ?_⟩ <;> apply sizedByOverride_of_override
  all_goals
    cases hst : info.storage <;> simp only [hst] at hfetch
    all_goals first
      | exact absurd hfetch (by decide)
      | skip
  · simp [HapiGetAttributeDataAsFloat, hinfo, hex, overrideTupleSize_storage,
      overrideTupleSize_count, hst, fillBuffer] at hfetch ⊢
    simp [hfetch]
  · simp [HapiGetAttributeDataAsFloat, hinfo, hex, overrideTupleSize_storage,
      overrideTupleSize_count, hst, fillBuffer] at hfetch ⊢
  · have hok := stringFromInfo_ok api geo part name (overrideTupleSize info s) [] hex'
      (by rw [overrideTupleSize_count]; simpa using hfetch)
    simp [HapiGetAttributeDataAsFloat, hinfo, hex, overrideTupleSize_storage, hst, hok.1,
      hok.2, overrideTupleSize_count]
  · simp [HapiGetAttributeDataAsInteger, hinfo, hex, overrideTupleSize_storage,
      overrideTupleSize_count, hst, fillBuffer] at hfetch ⊢
  · simp [HapiGetAttributeDataAsInteger, hinfo, hex, overrideTupleSize_storage,
      overrideTupleSize_count, hst, fillBuffer] at hfetch ⊢
    simp [hfetch]
  · have hok := stringFromInfo_ok api geo part name (overrideTupleSize info s) [] hex'
      (by rw [overrideTupleSize_count]; simpa using hfetch)
    simp [HapiGetAttributeDataAsInteger, hinfo, hex, overrideTupleSize_storage, hst, hok.1,
      hok.2, overrideTupleSize_count]
  · simp [HapiGetAttributeDataAsString, hinfo, hex, overrideTupleSize_storage,
      overrideTupleSize_count, hst, fillBuffer] at hfetch ⊢
    simp [hfetch]
  · simp [HapiGetAttributeDataAsString, hinfo, hex, overrideTupleSize_storage,
      overrideTupleSize_count, hst, fillBuffer] at hfetch ⊢
    simp [hfetch]
  · have hok := stringFromInfo_ok api geo part name (overrideTupleSize info s) [] hex'
      (by rw [overrideTupleSize_count]; simpa using hfetch)
    simp [HapiGetAttributeDataAsString, hinfo, hex, overrideTupleSize_storage, hst,
      hok.2, overrideTupleSize_count]


/-- Witness for `C8_tuple_size_override`: the detail float attribute with two elements of
native tuple size one, read with the override `3`, gives `2 * 3` entries. -/
theorem C8_tuple_size_override_witness :
    (probeOwners (detailAttributeApi HAPI_StorageType.HAPI_STORAGETYPE_FLOAT HAPI_Result.HAPI_RESULT_SUCCESS) 0 0 "Cd"
        HAPI_AttributeOwner.HAPI_ATTROWNER_DETAIL).selected
      = some (attributeOn HAPI_AttributeOwner.HAPI_ATTROWNER_DETAIL HAPI_StorageType.HAPI_STORAGETYPE_FLOAT 2 1)
    ∧ attributeFetchSucceeds (detailAttributeApi HAPI_StorageType.HAPI_STORAGETYPE_FLOAT HAPI_Result.HAPI_RESULT_SUCCESS) 0 0 "Cd"
        (overrideTupleSize (attributeOn HAPI_AttributeOwner.HAPI_ATTROWNER_DETAIL HAPI_StorageType.HAPI_STORAGETYPE_FLOAT 2 1) 3) = true
    ∧ SizedByOverride
        (HapiGetAttributeDataAsFloat (detailAttributeApi HAPI_StorageType.HAPI_STORAGETYPE_FLOAT HAPI_Result.HAPI_RESULT_SUCCESS) digitStringLibrary 0 0 "Cd"
          AttributeInfo_Init 3 HAPI_AttributeOwner.HAPI_ATTROWNER_DETAIL).OutData.length
        2 1 3 :=
  ⟨by decide, by decide,
    (C8_tuple_size_override (detailAttributeApi HAPI_StorageType.HAPI_STORAGETYPE_FLOAT HAPI_Result.HAPI_RESULT_SUCCESS) digitStringLibrary 0 0 "Cd"
      AttributeInfo_Init 3 HAPI_AttributeOwner.HAPI_ATTROWNER_DETAIL
      (attributeOn HAPI_AttributeOwner.HAPI_ATTROWNER_DETAIL HAPI_StorageType.HAPI_STORAGETYPE_FLOAT 2 1) (by decide) (by decide)).1⟩

/-! ## Mesh sockets: theorems -/

/-- C10 (evaluation at the failing input): for the three sockets named `a_1`, `a`, `a` and
a live mesh, `AddMeshSocketsToStaticMesh` returns `true` and leaves the names `a_1`, `a`,
`a_1`: the third socket is renamed to the name the first one already carries, so the
resulting names are not pairwise distinct (in `AllSockets` and on the mesh alike). -/
theorem C10_socket_names_collide :
    (AddMeshSocketsToStaticMesh (some emptyStaticMesh)
        [socketNamed "a_1", socketNamed "a", socketNamed "a"] true).result = true
    ∧ (AddMeshSocketsToStaticMesh (some emptyStaticMesh)
        [socketNamed "a_1", socketNamed "a", socketNamed "a"] true).AllSockets.map
          (fun Socket => Socket.Name) = ["a_1", "a", "a_1"]
    ∧ ¬ ((AddMeshSocketsToStaticMesh (some emptyStaticMesh)
        [socketNamed "a_1", socketNamed "a", socketNamed "a"] true).AllSockets.map
          (fun Socket => Socket.Name)).Nodup
    ∧ ((AddMeshSocketsToStaticMesh (some emptyStaticMesh)
        [socketNamed "a_1", socketNamed "a", socketNamed "a"] true).StaticMesh.map
          (fun Mesh => Mesh.Sockets.map (fun Socket => Socket.map (fun o => o.SocketName))))
      = some [some "a_1", some "a", some "a_1"] := by
  refine ⟨by decide, by decide, by decide, by decide⟩


/-! ## Sanitisation, tags, asset state: theorems -/

/-- A character the validity test rejects is not a digit. -/
theorem isDigitChar_of_not_bIsValid (c : Char) (h : bIsValid c = false) :
    isDigitChar c = false := by
  unfold bIsValid at h
  unfold isDigitChar
  cases h1 : decide ('0' ≤ c) <;> cases h2 : decide (c ≤ '9') <;> simp_all

/-- Away from the terminator the validity test is membership in `[A-Za-z0-9_]`. -/
theorem bIsValid_eq_isIdentifierChar (c : Char) (h : c ≠ NulChar) :
    bIsValid c = isIdentifierChar c := by
  unfold bIsValid isIdentifierChar
  have : (c == NulChar) = false := by simpa using h
  rw [this, Bool.or_false]

/-- The replacement of one character leaves its being a digit unchanged. -/
theorem isDigitChar_replace (c : Char) :
    isDigitChar (if bIsValid c then c else '_') = isDigitChar c := by
  by_cases h : bIsValid c = true
  · simp [h]
  · have h' : bIsValid c = false := by simpa using h
    rw [isDigitChar_of_not_bIsValid c h']
    simp [h']
    decide

/-- The string written by `SanitizeHAPIVariableName` for a non-empty string without an
embedded terminator is the one the spec describes. -/
theorem sanitize_eq_spec (Str : String) (hne : Str ≠ "")
    (hnul : NulChar ∉ Str.data) :
    SanitizeHAPIVariableName Str = (true, sanitizedBySpec Str) := by
  obtain ⟨data⟩ := Str
  cases data with
  | nil => exact absurd rfl hne
  | cons c cs =>
    have hmap : ∀ l : List Char, NulChar ∉ l →
        l.map (fun CurChar => if bIsValid CurChar then CurChar else '_')
          = l.map (fun c => if isIdentifierChar c then c else '_') := by
      intro l hl
      apply List.map_congr_left
      intro x hx
      have hx' : x ≠ NulChar := fun e => hl (e ▸ hx)
      rw [bIsValid_eq_isIdentifierChar x hx']
    have hc : c ≠ NulChar := fun e => hnul (by simp [e])
    have hcs : NulChar ∉ cs := fun e => hnul (by simp [e])
    have hnulvalid : bIsValid NulChar = true := by decide
    simp only [SanitizeHAPIVariableName, GetCharArray, sanitizedBySpec]
    simp only [List.cons_append, List.map_cons, List.map_append, List.length_cons,
      isDigitChar_replace, reduceCtorEq, if_false, hnulvalid, if_true, List.map_nil]
    rw [hmap cs hcs, bIsValid_eq_isIdentifierChar c hc]
    by_cases hd : isDigitChar c = true
    · simp [hd, stringOfCharArray, List.dropLast]
    · simp [hd, stringOfCharArray, List.dropLast]


/-- C12: for every non-empty string (without an embedded terminator character)
`SanitizeHAPIVariableName` returns `true` and rewrites the string to the one obtained by
replacing each character outside `[A-Za-z0-9_]` one-for-one with `'_'` and then inserting a
single `'_'` at the front if and only if the first character is a digit; every character
of the result is in `[A-Za-z0-9_]` and the result does not start with a digit;
`"2 cool-name!"` becomes `"_2_cool_name_"`; for the empty string it returns `false` and
changes nothing. -/
theorem C12_sanitize_variable_name (Str : String) (hne : Str ≠ "")
    (hnul : NulChar ∉ Str.data) :
    SanitizeHAPIVariableName Str = (true, sanitizedBySpec Str)
    ∧ (SanitizeHAPIVariableName Str).2.data.all isIdentifierChar = true
    ∧ ((SanitizeHAPIVariableName Str).2.data.head?.map isDigitChar ≠ some true)
    ∧ SanitizeHAPIVariableName "2 cool-name!" = (true, "_2_cool_name_")
    ∧ SanitizeHAPIVariableName "" = (false, "") := by
  have hspec := sanitize_eq_spec Str hne hnul
  have hid : ∀ c : Char, isIdentifierChar (if isIdentifierChar c then c else '_') = true := by
    intro c
    by_cases h : isIdentifierChar c = true
    · simp [h]
    · simp [h]; decide
  have hdig : ∀ c : Char, isDigitChar c = false →
      isDigitChar (if isIdentifierChar c then c else '_') = false := by
    intro c hc
    by_cases h : isIdentifierChar c = true
    · simp [h, hc]
    · simp [h]; decide
  refine ⟨hspec, ?_, ?_, by decide, by decide⟩
  · rw [hspec]
    obtain ⟨data⟩ := Str
    cases data with
    | nil => exact absurd rfl hne
    | cons c cs =>
      simp only [sanitizedBySpec]
      have hall : (List.map (fun c => if isIdentifierChar c then c else '_') (c :: cs)).all
          isIdentifierChar = true := by
        rw [List.all_eq_true]
        intro x hx
        obtain ⟨y, _, rfl⟩ := List.mem_map.mp hx
        exact hid y
      by_cases hd : isDigitChar c = true
      · simp only [hd, if_true]
        rw [List.all_cons, hall]
        decide
      · simp only [hd]
        exact hall
  · rw [hspec]
    obtain ⟨data⟩ := Str
    cases data with
    | nil => exact absurd rfl hne
    | cons c cs =>
      simp only [sanitizedBySpec]
      by_cases hd : isDigitChar c = true
      · simp only [hd, if_true, List.head?_cons, Option.map_some']
        decide
      · have hd' : isDigitChar c = false := by simpa using hd
        simp [hd', hdig c hd']

/-- Witness for `C12_sanitize_variable_name` at the spec's example string. -/
theorem C12_sanitize_variable_name_witness :
    ("2 cool-name!" : String) ≠ "" ∧ NulChar ∉ ("2 cool-name!" : String).data
    ∧ SanitizeHAPIVariableName "2 cool-name!" = (true, sanitizedBySpec "2 cool-name!") :=
  ⟨by decide, by decide,
    (C12_sanitize_variable_name "2 cool-name!" (by decide) (by decide)).1⟩

/-- C13 (as stated, refuted): on a part whose only attribute is the detail-owner string
attribute `unreal_tag_0` with value `"Foo"`, `HapiGetAttributeDataAsString` reads `"Foo"`
from the detail owner, yet `GetUnrealTagAttributes` appends no tag. -/
theorem C13_detail_tag_counterexample :
    (HapiGetAttributeDataAsString (tagOnOwnerApi HAPI_AttributeOwner.HAPI_ATTROWNER_DETAIL)
        digitStringLibrary 0 0 "unreal_tag_0" AttributeInfo_Init 1
        HAPI_AttributeOwner.HAPI_ATTROWNER_DETAIL).OutData = ["Foo"]
    ∧ HapiCheckAttributeExists (tagOnOwnerApi HAPI_AttributeOwner.HAPI_ATTROWNER_DETAIL)
        0 0 "unreal_tag_1" HAPI_AttributeOwner.HAPI_ATTROWNER_INVALID = false
    ∧ GetUnrealTagAttributes (tagOnOwnerApi HAPI_AttributeOwner.HAPI_ATTROWNER_DETAIL)
        digitStringLibrary 0 0 [] 5 = some (true, []) := by
  refine ⟨by decide, by decide, by decide⟩

/-- C13 (amended): for every part that carries a primitive-owner attribute `unreal_tag_0`
whose first string value is `"Foo"` and no primitive-owner attribute `unreal_tag_1`,
`GetUnrealTagAttributes` (given at least two loop iterations) returns `true` having
appended exactly one tag, `"Foo"`; for every part on which the primitive-owner attribute
`unreal_tag_0` is absent it returns `true` having appended no tag. -/
theorem C13_prim_tag_amended (api : FHoudiniApi) (lib : FStringLibrary) (GeoId PartId : Int)
    (OutTags : List String) (fuel : Nat) :
    (HapiCheckAttributeExists api GeoId PartId "unreal_tag_0"
        HAPI_AttributeOwner.HAPI_ATTROWNER_PRIM = true →
      (HapiGetAttributeDataAsString api lib GeoId PartId "unreal_tag_0" AttributeInfo_Init 1
        HAPI_AttributeOwner.HAPI_ATTROWNER_PRIM).ok = true →
      (HapiGetAttributeDataAsString api lib GeoId PartId "unreal_tag_0" AttributeInfo_Init 1
        HAPI_AttributeOwner.HAPI_ATTROWNER_PRIM).OutData[0]? = some "Foo" →
      HapiCheckAttributeExists api GeoId PartId "unreal_tag_1"
        HAPI_AttributeOwner.HAPI_ATTROWNER_PRIM = false →
      GetUnrealTagAttributes api lib GeoId PartId OutTags (fuel + 2)
        = some (true, OutTags ++ ["Foo"]))
    ∧ (HapiCheckAttributeExists api GeoId PartId "unreal_tag_0"
        HAPI_AttributeOwner.HAPI_ATTROWNER_PRIM = false →
      GetUnrealTagAttributes api lib GeoId PartId OutTags (fuel + 1) = some (true, OutTags)) := by
  have h0 : "unreal_tag_" ++ FString_FromInt 0 = "unreal_tag_0" := by decide
  have h1 : "unreal_tag_" ++ FString_FromInt 1 = "unreal_tag_1" := by decide
  constructor
  · intro hex hok hval hno
    simp [GetUnrealTagAttributes, GetUnrealTagAttributesLoop, h0, h1, hex, hok, hval, hno]
  · intro hno
    simp [GetUnrealTagAttributes, GetUnrealTagAttributesLoop, h0, hno]

/-- Witness for `C13_prim_tag_amended`: the part whose only attribute is the
primitive-owner string attribute `unreal_tag_0` with value `"Foo"`. -/
theorem C13_prim_tag_amended_witness :
    HapiCheckAttributeExists (tagOnOwnerApi HAPI_AttributeOwner.HAPI_ATTROWNER_PRIM) 0 0
        "unreal_tag_0" HAPI_AttributeOwner.HAPI_ATTROWNER_PRIM = true
    ∧ GetUnrealTagAttributes (tagOnOwnerApi HAPI_AttributeOwner.HAPI_ATTROWNER_PRIM)
        digitStringLibrary 0 0 [] (0 + 2) = some (true, [] ++ ["Foo"])
    ∧ HapiCheckAttributeExists (tagOnOwnerApi HAPI_AttributeOwner.HAPI_ATTROWNER_DETAIL) 0 0
        "unreal_tag_0" HAPI_AttributeOwner.HAPI_ATTROWNER_PRIM = false
    ∧ GetUnrealTagAttributes (tagOnOwnerApi HAPI_AttributeOwner.HAPI_ATTROWNER_DETAIL)
        digitStringLibrary 0 0 [] (0 + 1) = some (true, []) :=
  ⟨by decide,
    (C13_prim_tag_amended (tagOnOwnerApi HAPI_AttributeOwner.HAPI_ATTROWNER_PRIM)
      digitStringLibrary 0 0 [] 0).1 (by decide) (by decide) (by decide) (by decide),
    by decide,
    (C13_prim_tag_amended (tagOnOwnerApi HAPI_AttributeOwner.HAPI_ATTROWNER_DETAIL)
      digitStringLibrary 0 0 [] 0).2 (by decide)⟩

/-- C14: for every asset component `IsHoudiniAssetComponentCooking` returns `true` if and
only if its `AssetState` is `PreCook`, `Cooking` or `PostCook`; for each of the other ten
states, and for a null object, it returns `false`. -/
theorem C14_is_cooking_iff_cook_states (Component : UHoudiniAssetComponent) :
    (IsHoudiniAssetComponentCooking (some (UObject.HoudiniAssetComponent Component)) = true
      ↔ (Component.AssetState = EHoudiniAssetState.PreCook
        ∨ Component.AssetState = EHoudiniAssetState.Cooking
        ∨ Component.AssetState = EHoudiniAssetState.PostCook))
    ∧ [EHoudiniAssetState.NeedInstantiation, EHoudiniAssetState.PreInstantiation,
        EHoudiniAssetState.Instantiating, EHoudiniAssetState.PreProcess,
        EHoudiniAssetState.Processing, EHoudiniAssetState.None,
        EHoudiniAssetState.NeedRebuild, EHoudiniAssetState.NeedDelete,
        EHoudiniAssetState.Deleting, EHoudiniAssetState.ProcessTemplate].map
          (fun st => IsHoudiniAssetComponentCooking
            (some (UObject.HoudiniAssetComponent { AssetState := st })))
      = List.replicate 10 false
    ∧ IsHoudiniAssetComponentCooking none = false := by
  refine ⟨?_, by decide, rfl⟩
  obtain ⟨st, AssetId, bPendingKill⟩ := Component
  cases st <;> simp [IsHoudiniAssetComponentCooking, EHoudiniAssetState.toUInt8]


/-! ## Cook state polling: theorems -/

/-- The poll loop of `HapiCookNode` returns an outcome exactly when a ready status shows
up within the rounds allowed: it returns at the first such query, with `true` for `Ready`
and `false` otherwise. -/
theorem HapiCookNodePoll_eq_some_iff (api : FHoudiniCookApi) (fuel k0 : Nat)
    (out : CookNodeOutcome) :
    HapiCookNodePoll api fuel k0 = some out
      ↔ ∃ k, k0 ≤ k ∧ k < k0 + fuel ∧ out.queries = k + 1
          ∧ isReadyStatus (cookStatusAt api k) = true
          ∧ (∀ j, k0 ≤ j → j < k → isReadyStatus (cookStatusAt api j) = false)
          ∧ out.result = decide (cookStatusAt api k = HAPI_STATE_READY) := by
  induction fuel generalizing k0 with
  | zero =>
    simp only [HapiCookNodePoll, Nat.add_zero]
    constructor
    · intro h; cases h
    · rintro ⟨k, h1, h2, _⟩; omega
  | succ fuel ih =>
    unfold HapiCookNodePoll
    simp only
    by_cases hr : cookStatusAt api k0 = HAPI_STATE_READY
    · rw [if_pos hr]
      constructor
      · intro h
        cases h
        refine ⟨k0, le_refl _, by omega, rfl, by simp [isReadyStatus, hr], ?_, by simp [hr]⟩
        intro j h1 h2; omega
      · rintro ⟨k, h1, h2, h3, h4, h5, h6⟩
        have hk : k = k0 := by
          by_contra hne
          have := h5 k0 (le_refl _) (by omega)
          simp [isReadyStatus, hr] at this
        subst hk
        obtain ⟨r, q⟩ := out
        simp only at h3 h6
        simp [h3, h6, hr]
    · rw [if_neg hr]
      by_cases he : cookStatusAt api k0 = HAPI_STATE_READY_WITH_FATAL_ERRORS
          ∨ cookStatusAt api k0 = HAPI_STATE_READY_WITH_COOK_ERRORS
      · rw [if_pos he]
        have hready : isReadyStatus (cookStatusAt api k0) = true := by
          rcases he with he | he <;> simp [isReadyStatus, he]
        constructor
        · intro h
          cases h
          refine ⟨k0, le_refl _, by omega, rfl, hready, ?_, by simp [hr]⟩
          intro j h1 h2; omega
        · rintro ⟨k, h1, h2, h3, h4, h5, h6⟩
          have hk : k = k0 := by
            by_contra hne
            have := h5 k0 (le_refl _) (by omega)
            rw [hready] at this
            exact absurd this (by decide)
          subst hk
          obtain ⟨r, q⟩ := out
          simp only at h3 h6
          simp [h3, h6, hr]
      · rw [if_neg he]
        have hbusy : isReadyStatus (cookStatusAt api k0) = false := by
          simp only [not_or] at he
          simp [isReadyStatus, hr, he.1, he.2]
        rw [ih (k0 + 1)]
        constructor
        · rintro ⟨k, h1, h2, h3, h4, h5, h6⟩
          refine ⟨k, by omega, by omega, h3, h4, ?_, h6⟩
          intro j hj1 hj2
          by_cases hj : j = k0
          · subst hj; exact hbusy
          · exact h5 j (by omega) hj2
        · rintro ⟨k, h1, h2, h3, h4, h5, h6⟩
          have hk : k ≠ k0 := by
            intro e; subst e; rw [hbusy] at h4; exact absurd h4 (by decide)
          exact ⟨k, by omega, by omega, h3, h4, fun j hj1 hj2 => h5 j (by omega) hj2, h6⟩


/-- C15: after a successful cook request, `HapiCookNode` waiting for completion leaves its
poll loop only on a status that is `Ready`, `ReadyWithFatalErrors` or
`ReadyWithCookErrors`, and it does so exactly at the first query answering one of those
three (given enough rounds it returns there; with no such answer within the rounds allowed
it is still polling); a status query that stores no status (a failed query) keeps the loop
polling. -/
theorem C15_cook_poll_terminality (api : FHoudiniCookApi) (InNodeId : Int)
    (hnode : 0 ≤ InNodeId) (hcook : api.CookNode InNodeId = HAPI_Result.HAPI_RESULT_SUCCESS) :
    (∀ fuel out, HapiCookNode api InNodeId true fuel = some out →
      ∃ k, out.queries = k + 1 ∧ isReadyStatus (cookStatusAt api k) = true
        ∧ ∀ j, j < k → isReadyStatus (cookStatusAt api j) = false)
    ∧ (∀ k, isReadyStatus (cookStatusAt api k) = true →
        (∀ j, j < k → isReadyStatus (cookStatusAt api j) = false) →
        ∀ fuel, k < fuel →
          HapiCookNode api InNodeId true fuel
            = some { result := decide (cookStatusAt api k = HAPI_STATE_READY)
                     queries := k + 1 })
    ∧ (∀ fuel, (∀ j, j < fuel → isReadyStatus (cookStatusAt api j) = false) →
        HapiCookNode api InNodeId true fuel = none)
    ∧ (∀ k, (api.GetStatus k).written = none → isReadyStatus (cookStatusAt api k) = false) := by
  have hdef : ∀ fuel, HapiCookNode api InNodeId true fuel = HapiCookNodePoll api fuel 0 := by
    intro fuel
    simp [HapiCookNode, hcook, not_lt.mpr hnode]
  refine ⟨?_, ?_, ?_, ?_⟩
  · intro fuel out h
    rw [hdef] at h
    obtain ⟨k, _, _, h3, h4, h5, _⟩ := (HapiCookNodePoll_eq_some_iff api fuel 0 out).mp h
    exact ⟨k, h3, h4, fun j hj => h5 j (Nat.zero_le _) hj⟩
  · intro k hk hfirst fuel hfuel
    rw [hdef]
    exact (HapiCookNodePoll_eq_some_iff api fuel 0 _).mpr
      ⟨k, Nat.zero_le _, by omega, rfl, hk, fun j _ hj => hfirst j hj, rfl⟩
  · intro fuel hnone
    rw [hdef]
    cases h : HapiCookNodePoll api fuel 0 with
    | none => rfl
    | some out =>
      obtain ⟨k, _, h2, _, h4, _, _⟩ := (HapiCookNodePoll_eq_some_iff api fuel 0 out).mp h
      rw [hnone k (by omega)] at h4
      exact absurd h4 (by decide)
  · intro k hk
    simp only [cookStatusAt, hk, Option.getD_none]
    decide

/-- Witness for `C15_cook_poll_terminality`: a session answering "cooking" twice and then
`Ready`; the call returns `true` at the third query. -/
theorem C15_cook_poll_terminality_witness :
    (0 : Int) ≤ 1
    ∧ (cookingThenApi HAPI_STATE_READY).CookNode 1 = HAPI_Result.HAPI_RESULT_SUCCESS
    ∧ HapiCookNode (cookingThenApi HAPI_STATE_READY) 1 true 10
      = some { result := decide (cookStatusAt (cookingThenApi HAPI_STATE_READY) 2
                  = HAPI_STATE_READY)
               queries := 2 + 1 } :=
  ⟨by decide, by decide,
    (C15_cook_poll_terminality (cookingThenApi HAPI_STATE_READY) 1 (by decide)
      (by decide)).2.1 2 (by decide) (by decide) 10 (by decide)⟩

/-- With a ready status in `CurrentStatus` the loop of `CreateNode` is left at once. -/
theorem CreateNodePoll_ready (api : FHoudiniCookApi) (fuel k : Nat) (cs : Int)
    (h : cs ≤ HAPI_STATE_MAX_READY_STATE) : CreateNodePoll api fuel k cs = some cs := by
  cases fuel <;> simp [CreateNodePoll, not_lt.mpr h]

/-- When the queries before the n-th one (counted from `k0`) succeed with a busy status
and that one stores the ready status `T`, the loop of `CreateNode` ends with `T`. -/
theorem CreateNodePoll_terminal (api : FHoudiniCookApi) (T : Int)
    (hT : T ≤ HAPI_STATE_MAX_READY_STATE) (n : Nat) :
    ∀ (k0 fuel : Nat) (cs : Int), cs > HAPI_STATE_MAX_READY_STATE →
      (∀ j, k0 ≤ j → j < k0 + n → (api.GetStatus j).result = HAPI_Result.HAPI_RESULT_SUCCESS
        ∧ ∃ v, (api.GetStatus j).written = some v ∧ v > HAPI_STATE_MAX_READY_STATE) →
      (api.GetStatus (k0 + n)).written = some T → n < fuel →
      CreateNodePoll api fuel k0 cs = some T := by
  induction n with
  | zero =>
    intro k0 fuel cs hcs _ hterm hfuel
    obtain ⟨f, rfl⟩ : ∃ f, fuel = f + 1 := ⟨fuel - 1, by omega⟩
    simp only [Nat.add_zero] at hterm
    unfold CreateNodePoll
    simp only [hcs, if_true, hterm, Option.getD_some]
    split_ifs
    · rfl
    · exact CreateNodePoll_ready api f (k0 + 1) T hT
  | succ n ih =>
    intro k0 fuel cs hcs hbusy hterm hfuel
    obtain ⟨f, rfl⟩ : ∃ f, fuel = f + 1 := ⟨fuel - 1, by omega⟩
    obtain ⟨hres, v, hv, hvbusy⟩ := hbusy k0 (le_refl _) (by omega)
    unfold CreateNodePoll
    simp only [hcs, if_true, hv, Option.getD_some, hres, ne_eq, not_true_eq_false, if_false]
    apply ih (k0 + 1) f v hvbusy
    · intro j hj1 hj2
      exact hbusy j (by omega) (by omega)
    · rw [show k0 + 1 + n = k0 + (n + 1) by omega]; exact hterm
    · omega

/-- A status above `HAPI_STATE_MAX_READY_STATE` is none of the three ready statuses. -/
theorem isReadyStatus_of_busy (v : Int) (h : v > HAPI_STATE_MAX_READY_STATE) :
    isReadyStatus v = false := by
  simp only [HAPI_STATE_MAX_READY_STATE, HAPI_STATE_READY_WITH_COOK_ERRORS] at h
  simp only [isReadyStatus, HAPI_STATE_READY, HAPI_STATE_READY_WITH_FATAL_ERRORS,
    HAPI_STATE_READY_WITH_COOK_ERRORS, Bool.or_eq_false_iff, decide_eq_false_iff_not]
  omega

/-- When the first ready status the polls see is `T`, stored by the k-th query after
successful busy answers, `CreateNode` (its creation call having succeeded) returns failure
exactly for `ReadyWithFatalErrors`, and `HapiCookNode` waiting for completion returns
`true` exactly for `Ready`. -/
theorem poll_outcome_of_terminal (api : FHoudiniCookApi) (InParentNodeId InNodeId : Int)
    (InOperatorName InNodeLabel : String) (bInCookOnCreation : Bool) (k fuel : Nat) (T : Int)
    (hT : isReadyStatus T = true)
    (hcreate : (api.CreateNode InParentNodeId InOperatorName InNodeLabel bInCookOnCreation).1
      = HAPI_Result.HAPI_RESULT_SUCCESS)
    (hnode : 0 ≤ InNodeId) (hcook : api.CookNode InNodeId = HAPI_Result.HAPI_RESULT_SUCCESS)
    (hbusy : ∀ j, j < k → (api.GetStatus j).result = HAPI_Result.HAPI_RESULT_SUCCESS
      ∧ ∃ v, (api.GetStatus j).written = some v ∧ v > HAPI_STATE_MAX_READY_STATE)
    (hterm : (api.GetStatus k).written = some T)
    (hfuel : k < fuel) :
    CreateNode api InParentNodeId InOperatorName InNodeLabel bInCookOnCreation fuel
      = some (if T = HAPI_STATE_READY_WITH_FATAL_ERRORS then HAPI_Result.HAPI_RESULT_FAILURE
          else HAPI_Result.HAPI_RESULT_SUCCESS,
          (api.CreateNode InParentNodeId InOperatorName InNodeLabel bInCookOnCreation).2)
    ∧ HapiCookNode api InNodeId true fuel
      = some { result := decide (T = HAPI_STATE_READY), queries := k + 1 } := by
  have hTle : T ≤ HAPI_STATE_MAX_READY_STATE := by
    simp only [isReadyStatus, HAPI_STATE_READY, HAPI_STATE_READY_WITH_FATAL_ERRORS,
      HAPI_STATE_READY_WITH_COOK_ERRORS, Bool.or_eq_true, decide_eq_true_eq] at hT
    simp only [HAPI_STATE_MAX_READY_STATE, HAPI_STATE_READY_WITH_COOK_ERRORS]
    omega
  constructor
  · have hpoll := CreateNodePoll_terminal api T hTle k 0 fuel HAPI_STATE_STARTING_LOAD
      (by decide) (fun j _ hj => hbusy j (by omega)) (by simpa using hterm) hfuel
    unfold CreateNode
    simp only [hcreate, ne_eq, not_true_eq_false, if_false, hpoll]
    split_ifs <;> rfl
  · have hk : cookStatusAt api k = T := by simp [cookStatusAt, hterm]
    have hdef : HapiCookNode api InNodeId true fuel = HapiCookNodePoll api fuel 0 := by
      simp [HapiCookNode, hcook, not_lt.mpr hnode]
    rw [hdef]
    refine (HapiCookNodePoll_eq_some_iff api fuel 0 _).mpr
      ⟨k, Nat.zero_le _, by omega, rfl, by rw [hk]; exact hT, ?_, by simp [hk]⟩
    intro j _ hj
    obtain ⟨_, v, hv, hvbusy⟩ := hbusy j hj
    have : cookStatusAt api j = v := by simp [cookStatusAt, hv]
    rw [this]
    exact isReadyStatus_of_busy v hvbusy

/-- C16 (as stated, refuted): in a session answering "cooking" twice and then
`ReadyWithCookErrors`, `CreateNode` returns `HAPI_RESULT_SUCCESS`, but `HapiCookNode`
waiting for completion returns `false`. -/
theorem C16_cook_errors_counterexample :
    CreateNode (cookingThenApi HAPI_STATE_READY_WITH_COOK_ERRORS) 0 "geo" "node" true 10
      = some (HAPI_Result.HAPI_RESULT_SUCCESS, 42)
    ∧ HapiCookNode (cookingThenApi HAPI_STATE_READY_WITH_COOK_ERRORS) 1 true 10
      = some { result := false, queries := 3 } := by
  refine ⟨by decide, by decide⟩

/-- C16 (amended): when the first ready status the polls see is `ReadyWithCookErrors`
(stored by the k-th status query, after successful busy answers), `CreateNode`, its
creation call having succeeded, returns `HAPI_RESULT_SUCCESS`, whereas `HapiCookNode`
waiting for completion (valid node id, successful cook request) returns `false`. -/
theorem C16_cook_errors_amended (api : FHoudiniCookApi) (InParentNodeId InNodeId : Int)
    (InOperatorName InNodeLabel : String) (bInCookOnCreation : Bool) (k fuel : Nat)
    (hcreate : (api.CreateNode InParentNodeId InOperatorName InNodeLabel bInCookOnCreation).1
      = HAPI_Result.HAPI_RESULT_SUCCESS)
    (hnode : 0 ≤ InNodeId) (hcook : api.CookNode InNodeId = HAPI_Result.HAPI_RESULT_SUCCESS)
    (hbusy : ∀ j, j < k → (api.GetStatus j).result = HAPI_Result.HAPI_RESULT_SUCCESS
      ∧ ∃ v, (api.GetStatus j).written = some v ∧ v > HAPI_STATE_MAX_READY_STATE)
    (hterm : (api.GetStatus k).written = some HAPI_STATE_READY_WITH_COOK_ERRORS)
    (hfuel : k < fuel) :
    CreateNode api InParentNodeId InOperatorName InNodeLabel bInCookOnCreation fuel
      = some (HAPI_Result.HAPI_RESULT_SUCCESS,
          (api.CreateNode InParentNodeId InOperatorName InNodeLabel bInCookOnCreation).2)
    ∧ HapiCookNode api InNodeId true fuel = some { result := false, queries := k + 1 } := by
  have h := poll_outcome_of_terminal api InParentNodeId InNodeId InOperatorName InNodeLabel
    bInCookOnCreation k fuel HAPI_STATE_READY_WITH_COOK_ERRORS (by decide) hcreate hnode hcook
    hbusy hterm hfuel
  simpa [HAPI_STATE_READY_WITH_COOK_ERRORS, HAPI_STATE_READY_WITH_FATAL_ERRORS,
    HAPI_STATE_READY] using h

/-- C17: when the first ready status the polls see is `ReadyWithFatalErrors` (stored by
the k-th status query, after successful busy answers), `CreateNode` returns
`HAPI_RESULT_FAILURE` although its creation call succeeded, and `HapiCookNode` waiting for
completion returns `false`. -/
theorem C17_fatal_errors_fail (api : FHoudiniCookApi) (InParentNodeId InNodeId : Int)
    (InOperatorName InNodeLabel : String) (bInCookOnCreation : Bool) (k fuel : Nat)
    (hcreate : (api.CreateNode InParentNodeId InOperatorName InNodeLabel bInCookOnCreation).1
      = HAPI_Result.HAPI_RESULT_SUCCESS)
    (hnode : 0 ≤ InNodeId) (hcook : api.CookNode InNodeId = HAPI_Result.HAPI_RESULT_SUCCESS)
    (hbusy : ∀ j, j < k → (api.GetStatus j).result = HAPI_Result.HAPI_RESULT_SUCCESS
      ∧ ∃ v, (api.GetStatus j).written = some v ∧ v > HAPI_STATE_MAX_READY_STATE)
    (hterm : (api.GetStatus k).written = some HAPI_STATE_READY_WITH_FATAL_ERRORS)
    (hfuel : k < fuel) :
    CreateNode api InParentNodeId InOperatorName InNodeLabel bInCookOnCreation fuel
      = some (HAPI_Result.HAPI_RESULT_FAILURE,
          (api.CreateNode InParentNodeId InOperatorName InNodeLabel bInCookOnCreation).2)
    ∧ HapiCookNode api InNodeId true fuel = some { result := false, queries := k + 1 } := by
  have h := poll_outcome_of_terminal api InParentNodeId InNodeId InOperatorName InNodeLabel
    bInCookOnCreation k fuel HAPI_STATE_READY_WITH_FATAL_ERRORS (by decide) hcreate hnode hcook
    hbusy hterm hfuel
  simpa [HAPI_STATE_READY_WITH_COOK_ERRORS, HAPI_STATE_READY_WITH_FATAL_ERRORS,
    HAPI_STATE_READY] using h


/-- Witness for `C16_cook_errors_amended`: the session answering "cooking" twice and then the ready status
in question. -/
theorem C16_cook_errors_amended_witness :
    (∀ j, j < 2 → ((cookingThenApi HAPI_STATE_READY_WITH_COOK_ERRORS).GetStatus j).result = HAPI_Result.HAPI_RESULT_SUCCESS
      ∧ ∃ v, ((cookingThenApi HAPI_STATE_READY_WITH_COOK_ERRORS).GetStatus j).written = some v
        ∧ v > HAPI_STATE_MAX_READY_STATE)
    ∧ ((cookingThenApi HAPI_STATE_READY_WITH_COOK_ERRORS).GetStatus 2).written = some HAPI_STATE_READY_WITH_COOK_ERRORS
    ∧ CreateNode (cookingThenApi HAPI_STATE_READY_WITH_COOK_ERRORS) 0 "geo" "node" true 10
      = some (HAPI_Result.HAPI_RESULT_SUCCESS,
          ((cookingThenApi HAPI_STATE_READY_WITH_COOK_ERRORS).CreateNode 0 "geo" "node" true).2)
    ∧ HapiCookNode (cookingThenApi HAPI_STATE_READY_WITH_COOK_ERRORS) 1 true 10 = some { result := false, queries := 2 + 1 } := by
  have hb : ∀ j, j < 2 → ((cookingThenApi HAPI_STATE_READY_WITH_COOK_ERRORS).GetStatus j).result = HAPI_Result.HAPI_RESULT_SUCCESS
      ∧ ∃ v, ((cookingThenApi HAPI_STATE_READY_WITH_COOK_ERRORS).GetStatus j).written = some v
        ∧ v > HAPI_STATE_MAX_READY_STATE := by
    intro j hj
    interval_cases j <;> exact ⟨by decide, HAPI_STATE_COOKING, by decide, by decide⟩
  have h := C16_cook_errors_amended (cookingThenApi HAPI_STATE_READY_WITH_COOK_ERRORS) 0 1 "geo" "node" true 2 10 (by decide) (by decide)
    (by decide) hb (by decide) (by decide)
  exact ⟨hb, by decide, h.1, h.2⟩

/-- Witness for `C17_fatal_errors_fail`: the session answering "cooking" twice and then the ready status
in question. -/
theorem C17_fatal_errors_fail_witness :
    (∀ j, j < 2 → ((cookingThenApi HAPI_STATE_READY_WITH_FATAL_ERRORS).GetStatus j).result = HAPI_Result.HAPI_RESULT_SUCCESS
      ∧ ∃ v, ((cookingThenApi HAPI_STATE_READY_WITH_FATAL_ERRORS).GetStatus j).written = some v
        ∧ v > HAPI_STATE_MAX_READY_STATE)
    ∧ ((cookingThenApi HAPI_STATE_READY_WITH_FATAL_ERRORS).GetStatus 2).written = some HAPI_STATE_READY_WITH_FATAL_ERRORS
    ∧ CreateNode (cookingThenApi HAPI_STATE_READY_WITH_FATAL_ERRORS) 0 "geo" "node" true 10
      = some (HAPI_Result.HAPI_RESULT_FAILURE,
          ((cookingThenApi HAPI_STATE_READY_WITH_FATAL_ERRORS).CreateNode 0 "geo" "node" true).2)
    ∧ HapiCookNode (cookingThenApi HAPI_STATE_READY_WITH_FATAL_ERRORS) 1 true 10 = some { result := false, queries := 2 + 1 } := by
  have hb : ∀ j, j < 2 → ((cookingThenApi HAPI_STATE_READY_WITH_FATAL_ERRORS).GetStatus j).result = HAPI_Result.HAPI_RESULT_SUCCESS
      ∧ ∃ v, ((cookingThenApi HAPI_STATE_READY_WITH_FATAL_ERRORS).GetStatus j).written = some v
        ∧ v > HAPI_STATE_MAX_READY_STATE := by
    intro j hj
    interval_cases j <;> exact ⟨by decide, HAPI_STATE_COOKING, by decide, by decide⟩
  have h := C17_fatal_errors_fail (cookingThenApi HAPI_STATE_READY_WITH_FATAL_ERRORS) 0 1 "geo" "node" true 2 10 (by decide) (by decide)
    (by decide) hb (by decide) (by decide)
  exact ⟨hb, by decide, h.1, h.2⟩

/-! ## Node, parameter and group queries: theorems -/

/-- C18: `HapiGetObjectInfos` returns `false` when the node info cannot be fetched or the
node is neither geometry-level nor object-level; for a geometry-level node it outputs
exactly one object info, the one the engine delivers for the node's parent; for an
object-level node whose composed object count `n` is positive it outputs exactly the `n`
composed infos, and when `n ≤ 0` exactly one info, the one delivered for the node itself.
In the three output cases the result is `true` exactly when the info call succeeded. -/
theorem C18_object_infos (api : FHoudiniNodeApi) (InNodeId : Int)
    (OutObjectInfos : List HAPI_ObjectInfo) :
    ((api.GetNodeInfo InNodeId).1 ≠ HAPI_Result.HAPI_RESULT_SUCCESS →
      (HapiGetObjectInfos api InNodeId OutObjectInfos).1 = false)
    ∧ ((api.GetNodeInfo InNodeId).2.type ≠ HAPI_NodeType.HAPI_NODETYPE_SOP →
      (api.GetNodeInfo InNodeId).2.type ≠ HAPI_NodeType.HAPI_NODETYPE_OBJ →
      (HapiGetObjectInfos api InNodeId OutObjectInfos).1 = false)
    ∧ ((api.GetNodeInfo InNodeId).1 = HAPI_Result.HAPI_RESULT_SUCCESS →
      (api.GetNodeInfo InNodeId).2.type = HAPI_NodeType.HAPI_NODETYPE_SOP →
      HapiGetObjectInfos api InNodeId OutObjectInfos
        = (decide ((api.GetObjectInfo (api.GetNodeInfo InNodeId).2.parentId).1
              = HAPI_Result.HAPI_RESULT_SUCCESS),
            [(api.GetObjectInfo (api.GetNodeInfo InNodeId).2.parentId).2]))
    ∧ ((api.GetNodeInfo InNodeId).1 = HAPI_Result.HAPI_RESULT_SUCCESS →
      (api.GetNodeInfo InNodeId).2.type = HAPI_NodeType.HAPI_NODETYPE_OBJ →
      (api.ComposeObjectList InNodeId).1 = HAPI_Result.HAPI_RESULT_SUCCESS →
      (0 < (api.ComposeObjectList InNodeId).2 →
        HapiGetObjectInfos api InNodeId OutObjectInfos
          = (decide ((api.GetComposedObjectList InNodeId 0
                (api.ComposeObjectList InNodeId).2).1 = HAPI_Result.HAPI_RESULT_SUCCESS),
              (List.range (api.ComposeObjectList InNodeId).2.toNat).map
                (api.GetComposedObjectList InNodeId 0 (api.ComposeObjectList InNodeId).2).2)
        ∧ (((HapiGetObjectInfos api InNodeId OutObjectInfos).2.length : Int)
          = (api.ComposeObjectList InNodeId).2))
      ∧ ((api.ComposeObjectList InNodeId).2 ≤ 0 →
        HapiGetObjectInfos api InNodeId OutObjectInfos
          = (decide ((api.GetObjectInfo InNodeId).1 = HAPI_Result.HAPI_RESULT_SUCCESS),
              [(api.GetObjectInfo InNodeId).2]))) := by
  refine ⟨?_, ?_, ?_, ?_⟩
  · intro h
    simp [HapiGetObjectInfos, h]
  · intro h1 h2
    unfold HapiGetObjectInfos
    simp only [h1, h2, if_false]
    split_ifs <;> rfl
  · intro h ht
    simp [HapiGetObjectInfos, h, ht]
  · intro h ht hc
    have hne : HAPI_NodeType.HAPI_NODETYPE_OBJ ≠ HAPI_NodeType.HAPI_NODETYPE_SOP := by decide
    constructor
    · intro hpos
      have hnot : ¬ (api.ComposeObjectList InNodeId).2 ≤ 0 := by omega
      have heq : HapiGetObjectInfos api InNodeId OutObjectInfos
          = (decide ((api.GetComposedObjectList InNodeId 0
                (api.ComposeObjectList InNodeId).2).1 = HAPI_Result.HAPI_RESULT_SUCCESS),
              (List.range (api.ComposeObjectList InNodeId).2.toNat).map
                (api.GetComposedObjectList InNodeId 0
                  (api.ComposeObjectList InNodeId).2).2) := by
        simp [HapiGetObjectInfos, h, ht, hc, hnot, fillBuffer]
      refine ⟨heq, ?_⟩
      rw [heq]
      simp only [List.length_map, List.length_range]
      exact Int.toNat_of_nonneg (by omega)
    · intro hle
      simp [HapiGetObjectInfos, h, ht, hc, hle]

/-- Witness for `C18_object_infos`: node `1` is a geometry node with parent `10`, node `2`
an object node composing three objects. -/
theorem C18_object_infos_witness :
    (sampleNodeApi.GetNodeInfo 1).1 = HAPI_Result.HAPI_RESULT_SUCCESS
    ∧ (sampleNodeApi.GetNodeInfo 1).2.type = HAPI_NodeType.HAPI_NODETYPE_SOP
    ∧ HapiGetObjectInfos sampleNodeApi 1 []
      = (decide ((sampleNodeApi.GetObjectInfo (sampleNodeApi.GetNodeInfo 1).2.parentId).1
            = HAPI_Result.HAPI_RESULT_SUCCESS),
          [(sampleNodeApi.GetObjectInfo (sampleNodeApi.GetNodeInfo 1).2.parentId).2])
    ∧ (0 : Int) < (sampleNodeApi.ComposeObjectList 2).2
    ∧ ((HapiGetObjectInfos sampleNodeApi 2 []).2.length : Int)
      = (sampleNodeApi.ComposeObjectList 2).2 :=
  ⟨by decide, by decide,
    (C18_object_infos sampleNodeApi 1 []).2.2.1 (by decide) (by decide),
    by decide,
    (((C18_object_infos sampleNodeApi 2 []).2.2.2 (by decide) (by decide) (by decide)).1
      (by decide)).2⟩

/-- C19: `HapiFindParameterByNameOrTag(node, name)` returns the id of the exact-name
lookup when that id is `≥ 0`, otherwise the id of the tag lookup when that id is `≥ 0`,
otherwise `-1`; it returns `-1` when the name lookup fails, and when the tag lookup, once
reached, fails. The overload that also returns the parameter info returns `-1` when the
node has no parameters or the found id is not below the node's parameter count. -/
theorem C19_find_parameter_by_name_or_tag (api : FHoudiniNodeApi) (NodeId : Int)
    (ParmName : String) :
    ((api.GetParmIdFromName NodeId ParmName).1 ≠ HAPI_Result.HAPI_RESULT_SUCCESS →
      HapiFindParameterByNameOrTag api NodeId ParmName = -1)
    ∧ ((api.GetParmIdFromName NodeId ParmName).1 = HAPI_Result.HAPI_RESULT_SUCCESS →
      ((api.GetParmIdFromName NodeId ParmName).2 ≥ 0 →
        HapiFindParameterByNameOrTag api NodeId ParmName
          = (api.GetParmIdFromName NodeId ParmName).2)
      ∧ ((api.GetParmIdFromName NodeId ParmName).2 < 0 →
        ((api.GetParmWithTag NodeId ParmName).1 ≠ HAPI_Result.HAPI_RESULT_SUCCESS →
          HapiFindParameterByNameOrTag api NodeId ParmName = -1)
        ∧ ((api.GetParmWithTag NodeId ParmName).1 = HAPI_Result.HAPI_RESULT_SUCCESS →
          ((api.GetParmWithTag NodeId ParmName).2 ≥ 0 →
            HapiFindParameterByNameOrTag api NodeId ParmName
              = (api.GetParmWithTag NodeId ParmName).2)
          ∧ ((api.GetParmWithTag NodeId ParmName).2 < 0 →
            HapiFindParameterByNameOrTag api NodeId ParmName = -1))))
    ∧ ((api.GetNodeInfo NodeId).2.parmCount ≤ 0 →
      (HapiFindParameterByNameOrTag_ParmInfo api NodeId ParmName).1 = -1)
    ∧ (HapiFindParameterByNameOrTag api (api.GetNodeInfo NodeId).2.id ParmName
          ≥ (api.GetNodeInfo NodeId).2.parmCount →
      (HapiFindParameterByNameOrTag_ParmInfo api NodeId ParmName).1 = -1)
    ∧ ((HapiFindParameterByNameOrTag_ParmInfo api NodeId ParmName).1 = -1
      ∨ (HapiFindParameterByNameOrTag_ParmInfo api NodeId ParmName).1
        = HapiFindParameterByNameOrTag api (api.GetNodeInfo NodeId).2.id ParmName) := by
  refine ⟨?_, ?_, ?_, ?_, ?_⟩
  · intro h
    simp [HapiFindParameterByNameOrTag, h]
  · intro h
    constructor
    · intro hge
      simp [HapiFindParameterByNameOrTag, h, hge]
    · intro hlt
      have hnot : ¬ (api.GetParmIdFromName NodeId ParmName).2 ≥ 0 := by omega
      constructor
      · intro ht
        simp [HapiFindParameterByNameOrTag, h, hnot, ht]
      · intro ht
        constructor
        · intro hge
          simp [HapiFindParameterByNameOrTag, h, hnot, ht, hge]
        · intro hlt2
          have hnot2 : ¬ (api.GetParmWithTag NodeId ParmName).2 ≥ 0 := by omega
          simp [HapiFindParameterByNameOrTag, h, hnot, ht, hnot2]
  · intro h
    simp [HapiFindParameterByNameOrTag_ParmInfo, h]
  · intro h
    unfold HapiFindParameterByNameOrTag_ParmInfo
    simp only
    split_ifs with h1 h2 h3
    · rfl
    · rfl
    · exact absurd (Or.inr h) h2
    · exact absurd (Or.inr h) h2
  · unfold HapiFindParameterByNameOrTag_ParmInfo
    simp only
    split_ifs with h1 h2 h3
    · left; rfl
    · left; rfl
    · left; rfl
    · right; rfl

/-- Witness for `C19_find_parameter_by_name_or_tag`: `"scale"` is found by name with id
`4`, `"tagged"` only by tag with id `6`. -/
theorem C19_find_parameter_by_name_or_tag_witness :
    (sampleNodeApi.GetParmIdFromName 1 "scale").1 = HAPI_Result.HAPI_RESULT_SUCCESS
    ∧ (sampleNodeApi.GetParmIdFromName 1 "scale").2 ≥ 0
    ∧ HapiFindParameterByNameOrTag sampleNodeApi 1 "scale"
      = (sampleNodeApi.GetParmIdFromName 1 "scale").2
    ∧ (sampleNodeApi.GetParmIdFromName 1 "tagged").2 < 0
    ∧ HapiFindParameterByNameOrTag sampleNodeApi 1 "tagged"
      = (sampleNodeApi.GetParmWithTag 1 "tagged").2 :=
  ⟨by decide, by decide,
    ((C19_find_parameter_by_name_or_tag sampleNodeApi 1 "scale").2.1 (by decide)).1
      (by decide),
    by decide,
    ((((C19_find_parameter_by_name_or_tag sampleNodeApi 1 "tagged").2.1 (by decide)).2
      (by decide)).2 (by decide)).1 (by decide)⟩

/-- C20: `HapiGetGroupMembership` returns `false` without any engine call, leaving its
out-parameters as they were, when the part's element count (`pointCount` for a point
group, `faceCount` for any other group type) is less than `1`; whenever it returns `true`
the membership array has exactly that element count of entries. -/
theorem C20_group_membership_size (api : FHoudiniGroupApi) (GeoId : Int)
    (PartInfo : HAPI_PartInfo) (GroupType : HAPI_GroupType) (GroupName : String)
    (OutGroupMembership : List Int) (OutAllEquals : Bool) :
    groupElementCount PartInfo HAPI_GroupType.HAPI_GROUPTYPE_POINT = PartInfo.pointCount
    ∧ (GroupType ≠ HAPI_GroupType.HAPI_GROUPTYPE_POINT →
      groupElementCount PartInfo GroupType = PartInfo.faceCount)
    ∧ (groupElementCount PartInfo GroupType < 1 →
      HapiGetGroupMembership api GeoId PartInfo GroupType GroupName OutGroupMembership
          OutAllEquals
        = { result := false, OutGroupMembership := OutGroupMembership
            OutAllEquals := OutAllEquals, engineCalls := 0 })
    ∧ ((HapiGetGroupMembership api GeoId PartInfo GroupType GroupName OutGroupMembership
          OutAllEquals).result = true →
      (((HapiGetGroupMembership api GeoId PartInfo GroupType GroupName OutGroupMembership
          OutAllEquals).OutGroupMembership.length : Int)
        = groupElementCount PartInfo GroupType)) := by
  refine ⟨by simp [groupElementCount], ?_, ?_, ?_⟩
  · intro h
    simp [groupElementCount, h]
  · intro h
    unfold groupElementCount at h
    unfold HapiGetGroupMembership
    simp only [h, if_true]
  · intro h
    by_cases hlt : groupElementCount PartInfo GroupType < 1
    · have hfalse : (HapiGetGroupMembership api GeoId PartInfo GroupType GroupName
          OutGroupMembership OutAllEquals).result = false := by
        unfold groupElementCount at hlt
        unfold HapiGetGroupMembership
        simp only [hlt, if_true]
      rw [hfalse] at h
      exact absurd h (by decide)
    · have hlen : (HapiGetGroupMembership api GeoId PartInfo GroupType GroupName
          OutGroupMembership OutAllEquals).OutGroupMembership.length
          = (groupElementCount PartInfo GroupType).toNat := by
        unfold groupElementCount at hlt ⊢
        unfold HapiGetGroupMembership
        simp only [hlt, if_false, fillBuffer_length]
      rw [hlen]
      exact Int.toNat_of_nonneg (by omega)

/-- Witness for `C20_group_membership_size`: a part with five points and no faces; the
point group query yields five entries, the primitive group query returns `false`. -/
theorem C20_group_membership_size_witness :
    groupElementCount fivePointPart HAPI_GroupType.HAPI_GROUPTYPE_PRIM < 1
    ∧ HapiGetGroupMembership evenMembersApi 0 fivePointPart
        HAPI_GroupType.HAPI_GROUPTYPE_PRIM "socket" [] true
      = { result := false, OutGroupMembership := [], OutAllEquals := true, engineCalls := 0 }
    ∧ (HapiGetGroupMembership evenMembersApi 0 fivePointPart
        HAPI_GroupType.HAPI_GROUPTYPE_POINT "socket" [] true).result = true
    ∧ (((HapiGetGroupMembership evenMembersApi 0 fivePointPart
        HAPI_GroupType.HAPI_GROUPTYPE_POINT "socket" [] true).OutGroupMembership.length : Int)
      = groupElementCount fivePointPart HAPI_GroupType.HAPI_GROUPTYPE_POINT) :=
  ⟨by decide,
    (C20_group_membership_size evenMembersApi 0 fivePointPart
      HAPI_GroupType.HAPI_GROUPTYPE_PRIM "socket" [] true).2.2.1 (by decide),
    by decide,
    (C20_group_membership_size evenMembersApi 0 fivePointPart
      HAPI_GroupType.HAPI_GROUPTYPE_POINT "socket" [] true).2.2.2 (by decide)⟩


/-! ## Mesh sockets: sockets sharing one name -/
/-- Reading digits with a start value shifts the start value by the number of digits. -/
theorem foldl_decimal (ds : List Char) (acc : Nat) :
    ds.foldl (fun a c => 10 * a + (c.toNat - 48)) acc
      = acc * 10 ^ ds.length + decimalValue ds := by
  induction ds generalizing acc with
  | nil => simp [decimalValue]
  | cons c cs ih =>
    simp only [List.foldl_cons, List.length_cons, decimalValue]
    rw [ih, ih (10 * 0 + (c.toNat - 48))]
    ring

/-- The character of a digit below ten stands for that digit. -/
theorem digitChar_value (k : Nat) (h : k < 10) : (Nat.digitChar k).toNat - 48 = k := by
  interval_cases k <;> decide

/-- The digits produced for `n` in front of `ds` stand for `n` shifted past `ds`. -/
theorem toDigitsCore_value (fuel : Nat) : ∀ (n : Nat) (ds : List Char), n < fuel →
    decimalValue (Nat.toDigitsCore 10 fuel n ds) = n * 10 ^ ds.length + decimalValue ds := by
  induction fuel with
  | zero => intro n ds h; omega
  | succ fuel ih =>
    intro n ds h
    have hd := digitChar_value (n % 10) (Nat.mod_lt _ (by norm_num))
    unfold Nat.toDigitsCore
    simp only
    by_cases h0 : n / 10 = 0
    · simp only [h0, if_true]
      have hn : n % 10 = n := by omega
      simp only [decimalValue, List.foldl_cons]
      rw [foldl_decimal, hd, hn]
      simp [decimalValue]
    · simp only [h0, if_false]
      rw [ih (n / 10) _ (by omega)]
      simp only [decimalValue, List.foldl_cons, List.length_cons]
      rw [foldl_decimal, hd]
      simp only [decimalValue]
      conv_rhs => rw [← Nat.div_add_mod n 10]
      ring

/-- The decimal text of a natural number reads back as that number. -/
theorem repr_value (n : Nat) : decimalValue (Nat.repr n).data = n := by
  have := toDigitsCore_value (n + 1) n [] (by omega)
  simpa [Nat.repr, Nat.toDigits, decimalValue] using this

/-- Distinct natural numbers have distinct decimal texts. -/
theorem repr_injective (a b : Nat) (h : Nat.repr a = Nat.repr b) : a = b := by
  rw [← repr_value a, ← repr_value b, h]


/-- `FString::FromInt` of a non-negative integer is the decimal text of its value. -/
theorem FString_FromInt_natCast (a : Nat) : FString_FromInt (a : Int) = Nat.repr a := rfl

/-- The suffixed names `s_a` and `s_b` differ for different numbers. -/
theorem suffixed_injective (s : String) (a b : Nat)
    (h : s ++ "_" ++ FString_FromInt (a : Int) = s ++ "_" ++ FString_FromInt (b : Int)) : a = b := by
  apply repr_injective
  rw [FString_FromInt_natCast, FString_FromInt_natCast] at h
  have h' := congrArg String.data h
  simp only [String.data_append, List.append_assoc] at h'
  have h2 := List.append_cancel_left (List.append_cancel_left h')
  exact String.ext h2

/-- A suffixed name differs from the name it extends. -/
theorem suffixed_ne_self (s t : String) : s ≠ s ++ "_" ++ t := by
  intro h
  have h' := congrArg String.length h
  simp [String.length_append] at h'
  have : "_".length = 1 := by decide
  omega

/-- The inner renaming loop changes nothing when no visited socket carries the name of
socket `Idx_i`. -/
theorem renameDuplicatesInner_noop (Idx_i : Nat) (js : List Nat) (Count : Int)
    (L : List FHoudiniMeshSocket)
    (h : ∀ j ∈ js, ∀ a b, L[Idx_i]? = some a → L[j]? = some b → a.Name ≠ b.Name) :
    renameDuplicatesInner Idx_i js Count L = L := by
  induction js generalizing Count with
  | nil => rfl
  | cons j rest ih =>
    have ih' := fun c => ih c (fun j' hj' => h j' (List.mem_cons_of_mem _ hj'))
    unfold renameDuplicatesInner
    split
    · next a b ha hb =>
      have hne := h j (List.mem_cons_self _ _) a b ha hb
      rw [if_neg hne]
      exact ih' Count
    · exact ih' Count

/-- The outer renaming loop changes nothing when every visited socket differs in name
from all sockets after it. -/
theorem renameDuplicatesOuter_noop (is : List Nat) (L : List FHoudiniMeshSocket)
    (h : ∀ i ∈ is, ∀ j, i < j → ∀ a b, L[i]? = some a → L[j]? = some b → a.Name ≠ b.Name) :
    renameDuplicatesOuter is L = L := by
  induction is with
  | nil => rfl
  | cons i rest ih =>
    unfold renameDuplicatesOuter
    rw [renameDuplicatesInner_noop]
    · exact ih (fun i' hi' => h i' (List.mem_cons_of_mem _ hi'))
    · intro j hj a b ha hb
      have hlt : i < j := by
        have := (List.mem_range'_1.mp hj).1
        omega
      exact h i (List.mem_cons_self _ _) j hlt a b ha hb

/-- The inner renaming loop for the first socket, run over the indices `m + 1 … m + k`
with `Count = m`, on a list whose sockets after index `m` all carry the first socket's
name `s`: socket `j` of that range is renamed to `s_j`, every other socket is kept. -/
theorem renameDuplicatesInner_first (s : String) (k : Nat) :
    ∀ (m : Nat) (L : List FHoudiniMeshSocket) (a : FHoudiniMeshSocket),
      L[0]? = some a → a.Name = s →
      (∀ j, m < j → ∀ b, L[j]? = some b → b.Name = s) →
      m + k < L.length →
      (renameDuplicatesInner 0 (List.range' (m + 1) k) (m : Int) L).length = L.length
      ∧ ∀ j, (renameDuplicatesInner 0 (List.range' (m + 1) k) (m : Int) L)[j]?
          = if m < j ∧ j ≤ m + k then
              (L[j]?).map (fun b => { b with Name := s ++ "_" ++ FString_FromInt (j : Int) })
            else L[j]? := by
  induction k with
  | zero =>
    intro m L a _ _ _ _
    refine ⟨rfl, fun j => ?_⟩
    have hno : ¬ (m < j ∧ j ≤ m + 0) := by omega
    rw [if_neg hno]
    rfl
  | succ k ih =>
    intro m L a h0 ha hall hlen
    have hm1 : m + 1 < L.length := by omega
    obtain ⟨b, hb⟩ : ∃ b, L[m + 1]? = some b := ⟨L[m + 1], by simp [hm1]⟩
    have hbs : b.Name = s := hall (m + 1) (by omega) b hb
    have hstep : renameDuplicatesInner 0 (List.range' (m + 1) (k + 1)) (m : Int) L
        = renameDuplicatesInner 0 (List.range' (m + 1 + 1) k) ((m + 1 : Nat) : Int)
            (L.set (m + 1)
              { b with Name := s ++ "_" ++ FString_FromInt ((m + 1 : Nat) : Int) }) := by
      rw [List.range'_succ]
      simp only [renameDuplicatesInner, h0, hb, ha, hbs, if_true]
      push_cast
      rfl
    rw [hstep]
    have hset0 : (L.set (m + 1)
        { b with Name := s ++ "_" ++ FString_FromInt ((m + 1 : Nat) : Int) })[0]? = some a := by
      rw [List.getElem?_set_ne (by omega)]; exact h0
    obtain ⟨hl, hget⟩ := ih (m + 1) _ a hset0 ha
      (by
        intro j hj b' hb'
        rw [List.getElem?_set_ne (by omega)] at hb'
        exact hall j (by omega) b' hb')
      (by simp only [List.length_set]; omega)
    refine ⟨by rw [hl, List.length_set], fun j => ?_⟩
    rw [hget j]
    by_cases hj : j = m + 1
    · subst hj
      have h1 : ¬ (m + 1 < m + 1 ∧ m + 1 ≤ m + 1 + k) := by omega
      have h2 : m < m + 1 ∧ m + 1 ≤ m + (k + 1) := by omega
      rw [if_neg h1, if_pos h2, List.getElem?_set_self hm1, hb]
      rfl
    · rw [List.getElem?_set_ne (by omega)]
      by_cases hc : m + 1 < j ∧ j ≤ m + 1 + k
      · rw [if_pos hc, if_pos (by omega)]
      · rw [if_neg hc, if_neg (by omega)]

/-- The first loop keeps every socket whose name is not empty. -/
theorem assignDefaultSocketNamesFrom_of_named (L : List FHoudiniMeshSocket)
    (h : ∀ x ∈ L, x.Name ≠ "") : ∀ Idx, assignDefaultSocketNamesFrom Idx L = L := by
  induction L with
  | nil => intro Idx; rfl
  | cons x rest ih =>
    intro Idx
    have hx : x.Name ≠ "" := h x (List.mem_cons_self _ _)
    simp only [assignDefaultSocketNamesFrom, hx, if_false]
    rw [ih (fun y hy => h y (List.mem_cons_of_mem _ hy))]

/-- The renaming pass on `N ≥ 1` sockets all named `s`: the first socket is kept and the
socket at index `j > 0` is renamed to `s_j`. -/
theorem renameDuplicateSockets_all_same (s : String) (L : List FHoudiniMeshSocket)
    (hN : 1 ≤ L.length) (hall : ∀ x ∈ L, x.Name = s) :
    (renameDuplicateSockets L).length = L.length
    ∧ ∀ j, (renameDuplicateSockets L)[j]?
        = if 0 < j then
            (L[j]?).map (fun b => { b with Name := s ++ "_" ++ FString_FromInt (j : Int) })
          else L[j]? := by
  obtain ⟨a, ha0⟩ : ∃ a, L[0]? = some a := ⟨L[0], by simp [hN]⟩
  have has : a.Name = s := hall a (List.getElem?_mem ha0)
  obtain ⟨hl, hget⟩ := renameDuplicatesInner_first s (L.length - 1) 0 L a ha0 has
    (fun j _ b hb => hall b (List.getElem?_mem hb)) (by omega)
  have hrange : List.range L.length = 0 :: List.range' 1 (L.length - 1) := by
    rw [List.range_eq_range']
    conv_lhs => rw [show L.length = (L.length - 1) + 1 by omega]
    rw [List.range'_succ]
  have houter : renameDuplicateSockets L
      = renameDuplicatesInner 0 (List.range' (0 + 1) (L.length - 1)) ((0 : Nat) : Int) L := by
    unfold renameDuplicateSockets
    rw [hrange]
    unfold renameDuplicatesOuter
    apply renameDuplicatesOuter_noop
    intro i hi j hij x y hx hy
    have hi1 : 1 ≤ i := (List.mem_range'_1.mp hi).1
    have hx' := hx
    have hy' := hy
    have hgi := hget i
    have hgj := hget j
    simp only [Nat.zero_add, Nat.cast_zero] at hgi hgj hx' hy'
    have hilt : i < L.length := by
      have := (List.getElem?_eq_some_iff.mp hx').1
      rw [← hl]; simpa using this
    have hjlt : j < L.length := by
      have := (List.getElem?_eq_some_iff.mp hy').1
      rw [← hl]; simpa using this
    rw [if_pos (by omega)] at hgi hgj
    rw [hgi] at hx'
    rw [hgj] at hy'
    obtain ⟨x0, _, rfl⟩ := Option.map_eq_some'.mp hx'
    obtain ⟨y0, _, rfl⟩ := Option.map_eq_some'.mp hy'
    simp only
    intro heq
    have := suffixed_injective s i j heq
    omega
  rw [houter]
  refine ⟨hl, fun j => ?_⟩
  rw [hget j]
  by_cases hj : 0 < j
  · by_cases hjl : j ≤ 0 + (L.length - 1)
    · rw [if_pos ⟨hj, hjl⟩, if_pos hj]
    · have hnone : L[j]? = none := List.getElem?_eq_none (by omega)
      rw [if_neg (fun h => hjl h.2), if_pos hj, hnone]
      rfl
  · rw [if_neg (fun h => hj h.1), if_neg hj]

/-- C11: for every non-empty name `s` and every `N ≥ 1`, when `AddMeshSocketsToStaticMesh`
receives a live mesh and `N` sockets all named `s`, it returns `true` and the resulting
names in order are `s, s_1, s_2, …, s_(N-1)`: the first socket keeps its name and the k-th
later duplicate gets the suffix `_k`; the number of sockets stays `N`, in `AllSockets` and
on the mesh. -/
theorem C11_same_name_suffixes (Mesh : UStaticMesh) (AllSockets : List FHoudiniMeshSocket)
    (CleanImportSockets : Bool) (s : String)
    (hlive : Mesh.IsPendingKill = false) (hs : s ≠ "") (hN : 1 ≤ AllSockets.length)
    (hall : ∀ x ∈ AllSockets, x.Name = s) :
    (AddMeshSocketsToStaticMesh (some Mesh) AllSockets CleanImportSockets).result = true
    ∧ (AddMeshSocketsToStaticMesh (some Mesh) AllSockets CleanImportSockets).AllSockets.map
          (fun Socket => Socket.Name)
        = s :: (List.range (AllSockets.length - 1)).map
            (fun k => s ++ "_" ++ FString_FromInt ((k + 1 : Nat) : Int))
    ∧ (AddMeshSocketsToStaticMesh (some Mesh) AllSockets CleanImportSockets).AllSockets.length
        = AllSockets.length
    ∧ (AddMeshSocketsToStaticMesh (some Mesh) AllSockets CleanImportSockets).StaticMesh.map
          (fun M => M.Sockets.length) = some AllSockets.length := by
  have hnamed : assignDefaultSocketNames AllSockets = AllSockets :=
    assignDefaultSocketNamesFrom_of_named AllSockets
      (fun x hx => by rw [hall x hx]; exact hs) 0
  obtain ⟨hl, hget⟩ := renameDuplicateSockets_all_same s AllSockets hN hall
  have hnot : ¬ AllSockets.length ≤ 0 := by omega
  have hres : AddMeshSocketsToStaticMesh (some Mesh) AllSockets CleanImportSockets
      = { result := true
          AllSockets := renameDuplicateSockets AllSockets
          StaticMesh :=
            some { (if CleanImportSockets then
                      { Mesh with
                        Sockets := Mesh.Sockets.filter (fun Socket =>
                          !(match Socket with
                            | some s => s.bSocketCreatedAtImport
                            | none => true)) }
                    else Mesh) with
                   Sockets := (renameDuplicateSockets AllSockets).map
                     (fun s => some (makeStaticMeshSocket s)) } } := by
    simp only [AddMeshSocketsToStaticMesh, hlive, hnot, hnamed, if_false, Bool.false_eq_true]
  rw [hres]
  refine ⟨rfl, ?_, hl, by simp [hl]⟩
  simp only
  apply List.ext_getElem?
  intro j
  rw [List.getElem?_map, hget j]
  cases j with
  | zero =>
    obtain ⟨a, ha0⟩ : ∃ a, AllSockets[0]? = some a := ⟨AllSockets[0], by simp [hN]⟩
    have has : a.Name = s := hall a (List.getElem?_mem ha0)
    simp [ha0, has]
  | succ i =>
    rw [if_pos (by omega), List.getElem?_cons_succ, List.getElem?_map]
    by_cases hi : i + 1 < AllSockets.length
    · obtain ⟨b, hb⟩ : ∃ b, AllSockets[i + 1]? = some b := ⟨AllSockets[i + 1], by simp [hi]⟩
      have hr : (List.range (AllSockets.length - 1))[i]? = some i := by
        rw [List.getElem?_range (by omega)]
      simp [hb, hr]
    · have hnone : AllSockets[i + 1]? = none := List.getElem?_eq_none (by omega)
      have hr : (List.range (AllSockets.length - 1))[i]? = none :=
        List.getElem?_eq_none (by simp; omega)
      simp [hnone, hr]

/-- Witness for `C11_same_name_suffixes`: three sockets named `a` become `a`, `a_1`,
`a_2`. -/
theorem C11_same_name_suffixes_witness :
    emptyStaticMesh.IsPendingKill = false ∧ ("a" : String) ≠ ""
    ∧ 1 ≤ [socketNamed "a", socketNamed "a", socketNamed "a"].length
    ∧ (∀ x ∈ [socketNamed "a", socketNamed "a", socketNamed "a"], x.Name = "a")
    ∧ (AddMeshSocketsToStaticMesh (some emptyStaticMesh)
        [socketNamed "a", socketNamed "a", socketNamed "a"] true).AllSockets.map
          (fun Socket => Socket.Name)
        = "a" :: (List.range ([socketNamed "a", socketNamed "a", socketNamed "a"].length - 1)).map
            (fun k => "a" ++ "_" ++ FString_FromInt ((k + 1 : Nat) : Int)) :=
  ⟨rfl, by decide, by decide, by simp [socketNamed],
    (C11_same_name_suffixes emptyStaticMesh
      [socketNamed "a", socketNamed "a", socketNamed "a"] true "a" rfl (by decide) (by decide)
      (by simp [socketNamed])).2.1⟩


/-! ## Round trip, returned info, idempotence -/

/-- C26: under the converting policy, with exact arithmetic and a non-zero translation
scale factor, for every engine transform `E` the round trip
`TranslateUnrealTransform (TranslateHapiTransform E)` has exactly `E`'s position and scale
and a rotation quaternion equal to the componentwise negation of `E`'s quaternion, which
differs from `E`'s quaternion as soon as one of its components is not zero. -/
theorem C26_converting_roundtrip_negates_quaternion (factor : ℚ) (hf : factor ≠ 0)
    (E : HAPI_Transform) :
    (TranslateUnrealTransform true factor (TranslateHapiTransform true factor E)).position
      = E.position
    ∧ (TranslateUnrealTransform true factor (TranslateHapiTransform true factor E)).scale
      = E.scale
    ∧ (TranslateUnrealTransform true factor
        (TranslateHapiTransform true factor E)).rotationQuaternion
      = { c0 := -E.rotationQuaternion.c0, c1 := -E.rotationQuaternion.c1,
          c2 := -E.rotationQuaternion.c2, c3 := -E.rotationQuaternion.c3 }
    ∧ (E.rotationQuaternion ≠ { c0 := 0, c1 := 0, c2 := 0, c3 := 0 } →
      (TranslateUnrealTransform true factor
        (TranslateHapiTransform true factor E)).rotationQuaternion ≠ E.rotationQuaternion) := by
  refine ⟨?_, ?_, ?_, ?_⟩
  · simp [TranslateUnrealTransform, TranslateHapiTransform, FVector.mulScalar, hf]
  · simp [TranslateUnrealTransform, TranslateHapiTransform, FVector.mulScalar]
  · simp [TranslateUnrealTransform, TranslateHapiTransform, FVector.mulScalar]
  · intro hne heq
    apply hne
    obtain ⟨pos, ⟨q0, q1, q2, q3⟩, sc, ord⟩ := E
    simp only [TranslateUnrealTransform, TranslateHapiTransform, FVector.mulScalar, if_true,
      neg_neg, Float4.mk.injEq] at heq
    obtain ⟨h0, h1, h2, h3⟩ := heq
    simp only [Float4.mk.injEq]
    refine ⟨?_, ?_, ?_, ?_⟩ <;> linarith

/-- Witness for `C26_converting_roundtrip_negates_quaternion` at scale factor 100 and the
sample engine transform. -/
theorem C26_converting_roundtrip_negates_quaternion_witness :
    (100 : ℚ) ≠ 0
    ∧ sampleHapiTransform.rotationQuaternion ≠ { c0 := 0, c1 := 0, c2 := 0, c3 := 0 }
    ∧ (TranslateUnrealTransform true 100
        (TranslateHapiTransform true 100 sampleHapiTransform)).rotationQuaternion
      ≠ sampleHapiTransform.rotationQuaternion :=
  ⟨by norm_num, by simp [sampleHapiTransform],
    (C26_converting_roundtrip_negates_quaternion 100 (by norm_num) sampleHapiTransform).2.2.2
      (by simp [sampleHapiTransform])⟩

/-- C27: with a positive tuple size override `s` on an existing attribute of native tuple
size `n`, `HapiGetAttributeDataAsFloat` and `HapiGetAttributeDataAsInteger` hand back an
info whose `tupleSize` is `s`, whereas `HapiGetAttributeDataAsString` hands back the
attribute's own info, with `tupleSize` still `n`, although (the data fetch succeeding) its
data array has `count * s` entries. -/
theorem C27_returned_info_differs_by_getter (api : FHoudiniApi) (lib : FStringLibrary)
    (geo part : Int) (name : String) (out0 : HAPI_AttributeInfo) (s : Int)
    (owner : HAPI_AttributeOwner) (info : HAPI_AttributeInfo)
    (hsel : (probeOwners api geo part name owner).selected = some info)
    (hs : 0 < s) :
    ((HapiGetAttributeDataAsFloat api lib geo part name out0 s owner).OutAttributeInfo.tupleSize
        : Int) = s
    ∧ ((HapiGetAttributeDataAsInteger api lib geo part name out0 s
        owner).OutAttributeInfo.tupleSize : Int) = s
    ∧ (HapiGetAttributeDataAsString api lib geo part name out0 s owner).OutAttributeInfo = info
    ∧ (HapiGetAttributeDataAsString api lib geo part name out0 s
        owner).OutAttributeInfo.tupleSize = info.tupleSize
    ∧ (attributeFetchSucceeds api geo part name (overrideTupleSize info s) = true →
      ((HapiGetAttributeDataAsString api lib geo part name out0 s owner).OutData.length : Int)
        = (info.count : Int) * s) := by
  obtain ⟨hinfo, hex⟩ := selected_eq_some _ _ hsel
  have hts : ((overrideTupleSize info s).tupleSize : Int) = s := by
    rw [overrideTupleSize_tupleSize, if_pos hs]
    exact Int.toNat_of_nonneg hs.le
  have hfl : (HapiGetAttributeDataAsFloat api lib geo part name out0 s owner).OutAttributeInfo
      = overrideTupleSize info s := by
    unfold HapiGetAttributeDataAsFloat
    simp only [hinfo, hex, Bool.not_true, Bool.false_eq_true, if_false]
    split_ifs <;> rfl
  have hin : (HapiGetAttributeDataAsInteger api lib geo part name out0 s owner).OutAttributeInfo
      = overrideTupleSize info s := by
    unfold HapiGetAttributeDataAsInteger
    simp only [hinfo, hex, Bool.not_true, Bool.false_eq_true, if_false]
    split_ifs <;> rfl
  have hstr : (HapiGetAttributeDataAsString api lib geo part name out0 s owner).OutAttributeInfo
      = info := by
    unfold HapiGetAttributeDataAsString
    simp only [hinfo, hex, Bool.not_true, Bool.false_eq_true, if_false]
    split_ifs <;> rfl
  refine ⟨by rw [hfl]; exact hts, by rw [hin]; exact hts, hstr, by rw [hstr], ?_⟩
  intro hfetch
  have hex' : (overrideTupleSize info s).exists_ = true := by
    rw [overrideTupleSize_exists]; exact hex
  have hlen : (HapiGetAttributeDataAsString api lib geo part name out0 s owner).OutData.length
      = info.count * (overrideTupleSize info s).tupleSize := by
    unfold attributeFetchSucceeds at hfetch
    rw [overrideTupleSize_storage, overrideTupleSize_count] at hfetch
    cases hst : info.storage <;> simp only [hst] at hfetch
    all_goals first
      | exact absurd hfetch (by decide)
      | skip
    · simp [HapiGetAttributeDataAsString, hinfo, hex, overrideTupleSize_storage,
        overrideTupleSize_count, hst, fillBuffer] at hfetch ⊢
      simp [hfetch]
    · simp [HapiGetAttributeDataAsString, hinfo, hex, overrideTupleSize_storage,
        overrideTupleSize_count, hst, fillBuffer] at hfetch ⊢
      simp [hfetch]
    · have hok := stringFromInfo_ok api geo part name (overrideTupleSize info s) [] hex'
        (by rw [overrideTupleSize_count]; simpa using hfetch)
      simp [HapiGetAttributeDataAsString, hinfo, hex, overrideTupleSize_storage, hst,
        hok.2, overrideTupleSize_count]
  rw [hlen]
  push_cast
  rw [hts]

/-- Witness for `C27_returned_info_differs_by_getter`: the detail float attribute with two
elements of native tuple size one, read with the override `3`. -/
theorem C27_returned_info_differs_by_getter_witness :
    (probeOwners (detailAttributeApi HAPI_StorageType.HAPI_STORAGETYPE_FLOAT HAPI_Result.HAPI_RESULT_SUCCESS) 0 0 "Cd"
        HAPI_AttributeOwner.HAPI_ATTROWNER_DETAIL).selected
      = some (attributeOn HAPI_AttributeOwner.HAPI_ATTROWNER_DETAIL HAPI_StorageType.HAPI_STORAGETYPE_FLOAT 2 1)
    ∧ (0 : Int) < 3
    ∧ ((HapiGetAttributeDataAsFloat (detailAttributeApi HAPI_StorageType.HAPI_STORAGETYPE_FLOAT HAPI_Result.HAPI_RESULT_SUCCESS) digitStringLibrary 0 0 "Cd"
        AttributeInfo_Init 3 HAPI_AttributeOwner.HAPI_ATTROWNER_DETAIL).OutAttributeInfo.tupleSize : Int) = 3
    ∧ (HapiGetAttributeDataAsString (detailAttributeApi HAPI_StorageType.HAPI_STORAGETYPE_FLOAT HAPI_Result.HAPI_RESULT_SUCCESS) digitStringLibrary 0 0 "Cd"
        AttributeInfo_Init 3 HAPI_AttributeOwner.HAPI_ATTROWNER_DETAIL).OutAttributeInfo.tupleSize
      = (attributeOn HAPI_AttributeOwner.HAPI_ATTROWNER_DETAIL HAPI_StorageType.HAPI_STORAGETYPE_FLOAT 2 1).tupleSize :=
  ⟨by decide, by decide,
    (C27_returned_info_differs_by_getter (detailAttributeApi HAPI_StorageType.HAPI_STORAGETYPE_FLOAT HAPI_Result.HAPI_RESULT_SUCCESS) digitStringLibrary
      0 0 "Cd" AttributeInfo_Init 3 HAPI_AttributeOwner.HAPI_ATTROWNER_DETAIL
      (attributeOn HAPI_AttributeOwner.HAPI_ATTROWNER_DETAIL HAPI_StorageType.HAPI_STORAGETYPE_FLOAT 2 1) (by decide) (by decide)).1,
    (C27_returned_info_differs_by_getter (detailAttributeApi HAPI_StorageType.HAPI_STORAGETYPE_FLOAT HAPI_Result.HAPI_RESULT_SUCCESS) digitStringLibrary
      0 0 "Cd" AttributeInfo_Init 3 HAPI_AttributeOwner.HAPI_ATTROWNER_DETAIL
      (attributeOn HAPI_AttributeOwner.HAPI_ATTROWNER_DETAIL HAPI_StorageType.HAPI_STORAGETYPE_FLOAT 2 1) (by decide) (by decide)).2.2.2.1⟩

/-- The string written for a non-empty input, without any assumption on its characters. -/
theorem sanitize_data_cons (c : Char) (cs : List Char) :
    (SanitizeHAPIVariableName ⟨c :: cs⟩).2.data
      = if isDigitChar c then
          '_' :: (c :: cs).map (fun CurChar => if bIsValid CurChar then CurChar else '_')
        else (c :: cs).map (fun CurChar => if bIsValid CurChar then CurChar else '_') := by
  have hnulvalid : bIsValid NulChar = true := by decide
  simp only [SanitizeHAPIVariableName, GetCharArray]
  simp only [List.cons_append, List.map_cons, List.map_append, List.length_cons,
    isDigitChar_replace, reduceCtorEq, if_false, hnulvalid, if_true, List.map_nil]
  by_cases hd : isDigitChar c = true
  · simp [hd, stringOfCharArray, List.dropLast]
  · simp [hd, stringOfCharArray, List.dropLast]

/-- A string whose characters all pass the validity test and which does not start with a
digit is left as it is. -/
theorem sanitize_fixed (r : String) (hall : ∀ c ∈ r.data, bIsValid c = true)
    (hhead : r.data.head?.map isDigitChar ≠ some true) :
    (SanitizeHAPIVariableName r).2 = r := by
  obtain ⟨data⟩ := r
  cases data with
  | nil => rfl
  | cons c cs =>
    apply String.ext
    rw [sanitize_data_cons]
    have hd : isDigitChar c = false := by
      simpa using hhead
    have hmap : (c :: cs).map (fun CurChar => if bIsValid CurChar then CurChar else '_')
        = c :: cs := by
      conv_rhs => rw [← List.map_id (c :: cs)]
      apply List.map_congr_left
      intro x hx
      simp [hall x hx]
    simp [hd, hmap]

/-- C29: `SanitizeHAPIVariableName` is idempotent: for every string, sanitising the
already sanitised string leaves it unchanged. -/
theorem C29_sanitize_idempotent (Str : String) :
    (SanitizeHAPIVariableName (SanitizeHAPIVariableName Str).2).2
      = (SanitizeHAPIVariableName Str).2 := by
  have hvalid : ∀ c : Char, bIsValid (if bIsValid c then c else '_') = true := by
    intro c
    by_cases h : bIsValid c = true
    · simp [h]
    · simp [h]; decide
  obtain ⟨data⟩ := Str
  cases data with
  | nil => rfl
  | cons c cs =>
    have hmapvalid : ∀ x ∈ (c :: cs).map (fun CurChar => if bIsValid CurChar then CurChar else '_'),
        bIsValid x = true := by
      intro x hx
      obtain ⟨y, _, rfl⟩ := List.mem_map.mp hx
      exact hvalid y
    apply sanitize_fixed
    · rw [sanitize_data_cons]
      by_cases hd : isDigitChar c = true
      · simp only [hd, if_true]
        intro x hx
        rcases List.mem_cons.mp hx with rfl | hx
        · decide
        · exact hmapvalid x hx
      · simp only [hd]
        exact hmapvalid
    · rw [sanitize_data_cons]
      by_cases hd : isDigitChar c = true
      · simp only [hd, if_true, List.head?_cons, Option.map_some']
        decide
      · have hd' : isDigitChar c = false := by simpa using hd
        simp [hd', isDigitChar_replace]


/-! ## Group membership flag: theorems -/

/-- With at least one element, `HapiGetGroupMembership` hands back the reply's flag and
the first `ElementCount` membership entries of the reply. -/
theorem HapiGetGroupMembership_forwards (api : FHoudiniGroupApi) (GeoId : Int)
    (PartInfo : HAPI_PartInfo) (GroupType : HAPI_GroupType) (GroupName : String)
    (OutGroupMembership : List Int) (OutAllEquals : Bool)
    (hn : 1 ≤ groupElementCount PartInfo GroupType) :
    (HapiGetGroupMembership api GeoId PartInfo GroupType GroupName OutGroupMembership
        OutAllEquals).OutAllEquals
      = (groupMembershipReply api GeoId PartInfo GroupType GroupName).membership_array_all_equal
    ∧ (HapiGetGroupMembership api GeoId PartInfo GroupType GroupName OutGroupMembership
        OutAllEquals).OutGroupMembership
      = (List.range (groupElementCount PartInfo GroupType).toNat).map
          (groupMembershipReply api GeoId PartInfo GroupType GroupName).membership
    ∧ (HapiGetGroupMembership api GeoId PartInfo GroupType GroupName OutGroupMembership
        OutAllEquals).result
      = decide ((groupMembershipReply api GeoId PartInfo GroupType GroupName).result
          = HAPI_Result.HAPI_RESULT_SUCCESS) := by
  have hnot : ¬ groupElementCount PartInfo GroupType < 1 := by omega
  unfold groupMembershipReply
  unfold groupElementCount at hnot ⊢
  unfold HapiGetGroupMembership
  simp only [hnot, if_false, fillBuffer]
  exact ⟨trivial, trivial, trivial⟩

/-- C21 (as stated, refuted): on a part with five points, for a group with zero members
whose reply flags the uniform membership (all five entries are equal),
`HapiGetGroupMembership` yields a membership array of all zeros and `OutAllEquals = true`,
not `false`. -/
theorem C21_zero_members_counterexample :
    FlagsUniformMembership
        (groupMembershipReply noMembersApi 0 fivePointPart HAPI_GroupType.HAPI_GROUPTYPE_POINT
          "socket") 5
    ∧ (HapiGetGroupMembership noMembersApi 0 fivePointPart HAPI_GroupType.HAPI_GROUPTYPE_POINT
        "socket" [] false).OutGroupMembership = [0, 0, 0, 0, 0]
    ∧ (HapiGetGroupMembership noMembersApi 0 fivePointPart HAPI_GroupType.HAPI_GROUPTYPE_POINT
        "socket" [] false).OutAllEquals = true := by
  refine ⟨?_, by decide, by decide⟩
  simp [FlagsUniformMembership, groupMembershipReply, noMembersApi, fivePointPart]

/-- C21 (amended): on a part with at least one element and with the engine flagging
uniform membership, for a group of which every element is a member
`HapiGetGroupMembership` yields `OutAllEquals = true` and a membership array of all ones;
for a group with zero members it yields a membership array of all zeros and, all entries
being equal, `OutAllEquals = true` as well. -/
theorem C21_all_equal_flag_amended (api : FHoudiniGroupApi) (GeoId : Int)
    (PartInfo : HAPI_PartInfo) (GroupType : HAPI_GroupType) (GroupName : String)
    (OutGroupMembership : List Int) (OutAllEquals : Bool)
    (hn : 1 ≤ groupElementCount PartInfo GroupType)
    (hflag : FlagsUniformMembership
      (groupMembershipReply api GeoId PartInfo GroupType GroupName)
      (groupElementCount PartInfo GroupType).toNat) :
    ((∀ i, i < (groupElementCount PartInfo GroupType).toNat →
        (groupMembershipReply api GeoId PartInfo GroupType GroupName).membership i = 1) →
      (HapiGetGroupMembership api GeoId PartInfo GroupType GroupName OutGroupMembership
          OutAllEquals).OutAllEquals = true
      ∧ (HapiGetGroupMembership api GeoId PartInfo GroupType GroupName OutGroupMembership
          OutAllEquals).OutGroupMembership
        = List.replicate (groupElementCount PartInfo GroupType).toNat 1)
    ∧ ((∀ i, i < (groupElementCount PartInfo GroupType).toNat →
        (groupMembershipReply api GeoId PartInfo GroupType GroupName).membership i = 0) →
      (HapiGetGroupMembership api GeoId PartInfo GroupType GroupName OutGroupMembership
          OutAllEquals).OutAllEquals = true
      ∧ (HapiGetGroupMembership api GeoId PartInfo GroupType GroupName OutGroupMembership
          OutAllEquals).OutGroupMembership
        = List.replicate (groupElementCount PartInfo GroupType).toNat 0) := by
  obtain ⟨hf, hm, _⟩ := HapiGetGroupMembership_forwards api GeoId PartInfo GroupType GroupName
    OutGroupMembership OutAllEquals hn
  have hconst : ∀ v : Int, (∀ i, i < (groupElementCount PartInfo GroupType).toNat →
      (groupMembershipReply api GeoId PartInfo GroupType GroupName).membership i = v) →
      (HapiGetGroupMembership api GeoId PartInfo GroupType GroupName OutGroupMembership
          OutAllEquals).OutAllEquals = true
      ∧ (HapiGetGroupMembership api GeoId PartInfo GroupType GroupName OutGroupMembership
          OutAllEquals).OutGroupMembership
        = List.replicate (groupElementCount PartInfo GroupType).toNat v := by
    intro v hv
    constructor
    · rw [hf]
      exact hflag.mpr (fun i j hi hj => by rw [hv i hi, hv j hj])
    · rw [hm]
      apply List.ext_getElem
      · simp
      · intro i h1 h2
        simp only [List.length_map, List.length_range] at h1
        simp [hv i h1]
  exact ⟨hconst 1, hconst 0⟩

/-- Witness for `C21_all_equal_flag_amended`: five points, all of them members. -/
theorem C21_all_equal_flag_amended_witness :
    1 ≤ groupElementCount fivePointPart HAPI_GroupType.HAPI_GROUPTYPE_POINT
    ∧ (HapiGetGroupMembership allMembersApi 0 fivePointPart
        HAPI_GroupType.HAPI_GROUPTYPE_POINT "socket" [] false).OutAllEquals = true
    ∧ (HapiGetGroupMembership allMembersApi 0 fivePointPart
        HAPI_GroupType.HAPI_GROUPTYPE_POINT "socket" [] false).OutGroupMembership
      = List.replicate
          (groupElementCount fivePointPart HAPI_GroupType.HAPI_GROUPTYPE_POINT).toNat 1 :=
  ⟨by decide,
    (C21_all_equal_flag_amended allMembersApi 0 fivePointPart
      HAPI_GroupType.HAPI_GROUPTYPE_POINT "socket" [] false (by decide)
      (by simp [FlagsUniformMembership, groupMembershipReply, allMembersApi, fivePointPart])).1
      (by simp [groupMembershipReply, allMembersApi, fivePointPart])⟩

/-! ## Vertex list of a group: theorems -/

/-- Every member face counted from `k` is at least `k`, lies within the entries visited,
and has a positive membership entry; and every such face is listed. -/
theorem mem_memberFacesFrom (rest : List Int) : ∀ (k f : Nat),
    f ∈ memberFacesFrom k rest ↔ k ≤ f ∧ f < k + rest.length ∧ 0 < rest.getD (f - k) 0 := by
  induction rest with
  | nil => intro k f; simp [memberFacesFrom]
  | cons m rest ih =>
    intro k f
    unfold memberFacesFrom
    by_cases hm : m ≤ 0
    · rw [if_pos hm, ih (k + 1) f]
      constructor
      · rintro ⟨h1, h2, h3⟩
        refine ⟨by omega, by simp only [List.length_cons]; omega, ?_⟩
        obtain ⟨d, hd⟩ : ∃ d, f - k = d + 1 := ⟨f - k - 1, by omega⟩
        rw [hd, List.getD_cons_succ]
        rw [show f - (k + 1) = d by omega] at h3
        exact h3
      · rintro ⟨h1, h2, h3⟩
        simp only [List.length_cons] at h2
        by_cases hfk : f = k
        · subst hfk
          simp only [Nat.sub_self, List.getD_cons_zero] at h3
          omega
        · obtain ⟨d, hd⟩ : ∃ d, f - k = d + 1 := ⟨f - k - 1, by omega⟩
          rw [hd, List.getD_cons_succ] at h3
          refine ⟨by omega, by omega, ?_⟩
          rw [show f - (k + 1) = d by omega]
          exact h3
    · rw [if_neg hm, List.mem_cons, ih (k + 1) f]
      constructor
      · rintro (h | ⟨h1, h2, h3⟩)
        · subst h
          refine ⟨le_refl _, by simp only [List.length_cons]; omega, ?_⟩
          simp only [Nat.sub_self, List.getD_cons_zero]
          omega
        · refine ⟨by omega, by simp only [List.length_cons]; omega, ?_⟩
          obtain ⟨d, hd⟩ : ∃ d, f - k = d + 1 := ⟨f - k - 1, by omega⟩
          rw [hd, List.getD_cons_succ]
          rw [show f - (k + 1) = d by omega] at h3
          exact h3
      · rintro ⟨h1, h2, h3⟩
        simp only [List.length_cons] at h2
        by_cases hfk : f = k
        · exact Or.inl hfk
        · right
          obtain ⟨d, hd⟩ : ∃ d, f - k = d + 1 := ⟨f - k - 1, by omega⟩
          rw [hd, List.getD_cons_succ] at h3
          refine ⟨by omega, by omega, ?_⟩
          rw [show f - (k + 1) = d by omega]
          exact h3

/-- The member faces are listed in strictly increasing order. -/
theorem pairwise_memberFacesFrom (rest : List Int) : ∀ k : Nat,
    (memberFacesFrom k rest).Pairwise (fun a b => a < b) := by
  induction rest with
  | nil => intro k; simp [memberFacesFrom]
  | cons m rest ih =>
    intro k
    unfold memberFacesFrom
    split_ifs
    · exact ih (k + 1)
    · rw [List.pairwise_cons]
      refine ⟨?_, ih (k + 1)⟩
      intro f hf
      have := ((mem_memberFacesFrom rest (k + 1) f).mp hf).1
      omega

/-- The face list after the loop: the faces listed before, then the member faces. -/
theorem vertexListForGroupLoop_AllFaceList (Full : List Int) (rest : List Int) :
    ∀ (k : Nat) (st : VertexListLoop),
      (vertexListForGroupLoop Full k rest st).AllFaceList
        = st.AllFaceList ++ memberFacesFrom k rest := by
  induction rest with
  | nil => intro k st; simp [vertexListForGroupLoop, memberFacesFrom]
  | cons m rest ih =>
    intro k st
    unfold vertexListForGroupLoop memberFacesFrom
    by_cases hm : m ≤ 0
    · rw [if_pos hm, if_pos hm]
      exact ih (k + 1) st
    · rw [if_neg hm, if_neg hm]
      simp only
      rw [ih]
      simp

/-- The loop keeps the counters in step with the face list: three wedges per listed
face, the first listed face as first valid primitive, three times it as first valid
vertex. -/
theorem vertexListForGroupLoop_counters (Full : List Int) (rest : List Int) :
    ∀ (k : Nat) (st : VertexListLoop),
      st.ProcessedWedges = 3 * st.AllFaceList.length →
      st.FirstValidPrim = st.AllFaceList.head?.getD 0 →
      st.FirstValidVertex = 3 * st.FirstValidPrim →
      (vertexListForGroupLoop Full k rest st).ProcessedWedges
          = 3 * (vertexListForGroupLoop Full k rest st).AllFaceList.length
      ∧ (vertexListForGroupLoop Full k rest st).FirstValidPrim
          = (vertexListForGroupLoop Full k rest st).AllFaceList.head?.getD 0
      ∧ (vertexListForGroupLoop Full k rest st).FirstValidVertex
          = 3 * (vertexListForGroupLoop Full k rest st).FirstValidPrim := by
  induction rest with
  | nil => intro k st h1 h2 h3; exact ⟨h1, h2, h3⟩
  | cons m rest ih =>
    intro k st h1 h2 h3
    unfold vertexListForGroupLoop
    by_cases hm : m ≤ 0
    · rw [if_pos hm]
      exact ih (k + 1) st h1 h2 h3
    · rw [if_neg hm]
      simp only
      apply ih
      · simp only [List.length_append, List.length_singleton]; omega
      · simp only
        by_cases hz : st.ProcessedWedges = 0
        · have hnil : st.AllFaceList = [] := by
            apply List.eq_nil_of_length_eq_zero; omega
          simp [hz, hnil]
        · have hne : st.AllFaceList ≠ [] := by
            intro e; rw [e] at h1; simp at h1; exact hz h1
          obtain ⟨a, l, hl⟩ := List.exists_cons_of_ne_nil hne
          rw [if_neg hz, h2, hl]
          simp
      · simp only
        by_cases hz : st.ProcessedWedges = 0
        · simp [hz]; omega
        · simp [hz, h3]

/-- The new vertex list after the loop, slot by slot: a slot of a member face whose last
vertex index is valid holds the full list's value, every other slot is as before. -/
theorem vertexListForGroupLoop_NewVertexList (Full : List Int) (rest : List Int) :
    ∀ (k : Nat) (st : VertexListLoop), st.NewVertexList.length = Full.length →
      (vertexListForGroupLoop Full k rest st).NewVertexList.length = Full.length
      ∧ ∀ p, (vertexListForGroupLoop Full k rest st).NewVertexList[p]?
          = if k ≤ p / 3 ∧ p / 3 < k + rest.length ∧ 0 < rest.getD (p / 3 - k) 0
                ∧ 3 * (p / 3) + 2 < Full.length then
              some (Full.getD p 0)
            else st.NewVertexList[p]? := by
  induction rest with
  | nil =>
    intro k st hl
    refine ⟨hl, fun p => ?_⟩
    rw [if_neg (by simp only [List.length_nil]; omega)]
    rfl
  | cons m rest ih =>
    intro k st hl
    have hshift : ∀ q : Nat, k < q →
        ((m :: rest).getD (q - k) 0 = rest.getD (q - (k + 1)) 0) := by
      intro q hq
      obtain ⟨d, hd⟩ : ∃ d, q - k = d + 1 := ⟨q - k - 1, by omega⟩
      rw [hd, List.getD_cons_succ, show q - (k + 1) = d by omega]
    unfold vertexListForGroupLoop
    by_cases hm : m ≤ 0
    · rw [if_pos hm]
      obtain ⟨h1, h2⟩ := ih (k + 1) st hl
      refine ⟨h1, fun p => ?_⟩
      rw [h2 p]
      by_cases hq : p / 3 = k
      · have hz : (m :: rest).getD (p / 3 - k) 0 = m := by simp [hq]
        rw [if_neg (by omega), if_neg (by rw [hz]; omega)]
      · by_cases hlt : k < p / 3
        · rw [hshift (p / 3) hlt]
          simp only [List.length_cons]
          by_cases hc : k + 1 ≤ p / 3 ∧ p / 3 < k + 1 + rest.length
              ∧ 0 < rest.getD (p / 3 - (k + 1)) 0 ∧ 3 * (p / 3) + 2 < Full.length
          · rw [if_pos hc, if_pos ⟨by omega, by omega, hc.2.2.1, hc.2.2.2⟩]
          · rw [if_neg hc, if_neg (fun h => hc ⟨by omega, by omega, h.2.2.1, h.2.2.2⟩)]
        · rw [if_neg (by omega), if_neg (by omega)]
    · rw [if_neg hm]
      simp only
      have hl' : (if k * 3 + 2 < Full.length then
            ((st.NewVertexList.set (k * 3) (Full.getD (k * 3) 0)).set (k * 3 + 1)
              (Full.getD (k * 3 + 1) 0)).set (k * 3 + 2) (Full.getD (k * 3 + 2) 0)
          else st.NewVertexList).length = Full.length := by
        split_ifs <;> simp [hl]
      obtain ⟨h1, h2⟩ := ih (k + 1)
        { AllFaceList := st.AllFaceList ++ [k]
          NewVertexList :=
            if k * 3 + 2 < Full.length then
              ((st.NewVertexList.set (k * 3) (Full.getD (k * 3) 0)).set (k * 3 + 1)
                (Full.getD (k * 3 + 1) 0)).set (k * 3 + 2) (Full.getD (k * 3 + 2) 0)
            else st.NewVertexList
          AllVertexList :=
            if k * 3 + 2 < st.AllVertexList.length then
              ((st.AllVertexList.set (k * 3) 1).set (k * 3 + 1) 1).set (k * 3 + 2) 1
            else st.AllVertexList
          AllGroupFaceIndices :=
            if k < st.AllGroupFaceIndices.length then st.AllGroupFaceIndices.set k 1
            else st.AllGroupFaceIndices
          FirstValidVertex := if st.ProcessedWedges = 0 then k * 3 else st.FirstValidVertex
          FirstValidPrim := if st.ProcessedWedges = 0 then k else st.FirstValidPrim
          ProcessedWedges := st.ProcessedWedges + 3 } hl'
      refine ⟨h1, fun p => ?_⟩
      rw [h2 p]
      simp only
      by_cases hq : p / 3 = k
      · have hz : (m :: rest).getD (p / 3 - k) 0 = m := by simp [hq]
        rw [if_neg (by omega), hz]
        by_cases hv : k * 3 + 2 < Full.length
        · rw [if_pos hv, if_pos ⟨by omega, by simp only [List.length_cons]; omega, by omega,
            by omega⟩]
          have hp : p = k * 3 ∨ p = k * 3 + 1 ∨ p = k * 3 + 2 := by omega
          rcases hp with hp | hp | hp
          · subst hp
            rw [List.getElem?_set_ne (by omega), List.getElem?_set_ne (by omega),
              List.getElem?_set_self (by omega)]
          · subst hp
            rw [List.getElem?_set_ne (by omega),
              List.getElem?_set_self (by simp only [List.length_set]; omega)]
          · subst hp
            rw [List.getElem?_set_self (by simp only [List.length_set]; omega)]
        · rw [if_neg hv, if_neg (by omega)]
      · have hsame : (if k * 3 + 2 < Full.length then
              ((st.NewVertexList.set (k * 3) (Full.getD (k * 3) 0)).set (k * 3 + 1)
                (Full.getD (k * 3 + 1) 0)).set (k * 3 + 2) (Full.getD (k * 3 + 2) 0)
            else st.NewVertexList)[p]? = st.NewVertexList[p]? := by
          split_ifs
          · rw [List.getElem?_set_ne (by omega), List.getElem?_set_ne (by omega),
              List.getElem?_set_ne (by omega)]
          · rfl
        rw [hsame]
        by_cases hlt : k < p / 3
        · rw [hshift (p / 3) hlt]
          simp only [List.length_cons]
          by_cases hc : k + 1 ≤ p / 3 ∧ p / 3 < k + 1 + rest.length
              ∧ 0 < rest.getD (p / 3 - (k + 1)) 0 ∧ 3 * (p / 3) + 2 < Full.length
          · rw [if_pos hc, if_pos ⟨by omega, by omega, hc.2.2.1, hc.2.2.2⟩]
          · rw [if_neg hc, if_neg (fun h => hc ⟨by omega, by omega, h.2.2.1, h.2.2.2⟩)]
        · rw [if_neg (by omega), if_neg (by omega)]

/-- C28: when `HapiGetVertexListForGroup` obtains a primitive membership array `M`,
`AllFaceList` is the strictly increasing list of the face indices `f` with `M[f] > 0`; the
value returned is three times its length; `NewVertexList` has the length of
`FullVertexList` and holds `FullVertexList`'s value at the slots `3f`, `3f+1`, `3f+2` of
each member face `f` with `3f+2` in range and `-1` in every other slot; `FirstValidPrim`
is the first (smallest) member face, `0` when there is none, and `FirstValidVertex` is
three times `FirstValidPrim`. -/
theorem C28_vertex_list_for_group (api : FHoudiniGroupApi) (GeoId : Int)
    (PartInfo : HAPI_PartInfo) (GroupName : String)
    (FullVertexList AllVertexList AllGroupFaceIndices : List Int)
    (hM : (HapiGetGroupMembership api GeoId PartInfo HAPI_GroupType.HAPI_GROUPTYPE_PRIM
      GroupName [] false).result = true) :
    (HapiGetVertexListForGroup api GeoId PartInfo GroupName FullVertexList AllVertexList
        AllGroupFaceIndices).lists.AllFaceList.Pairwise (fun a b => a < b)
    ∧ (∀ f, f ∈ (HapiGetVertexListForGroup api GeoId PartInfo GroupName FullVertexList AllVertexList
        AllGroupFaceIndices).lists.AllFaceList
        ↔ f < (HapiGetGroupMembership api GeoId PartInfo HAPI_GroupType.HAPI_GROUPTYPE_PRIM GroupName []
        false).OutGroupMembership.length
          ∧ 0 < (HapiGetGroupMembership api GeoId PartInfo HAPI_GroupType.HAPI_GROUPTYPE_PRIM GroupName []
        false).OutGroupMembership.getD f 0)
    ∧ (HapiGetVertexListForGroup api GeoId PartInfo GroupName FullVertexList AllVertexList
        AllGroupFaceIndices).result
      = 3 * (HapiGetVertexListForGroup api GeoId PartInfo GroupName FullVertexList AllVertexList
        AllGroupFaceIndices).lists.AllFaceList.length
    ∧ (HapiGetVertexListForGroup api GeoId PartInfo GroupName FullVertexList AllVertexList
        AllGroupFaceIndices).lists.NewVertexList.length = FullVertexList.length
    ∧ (∀ p, p < FullVertexList.length →
        (HapiGetVertexListForGroup api GeoId PartInfo GroupName FullVertexList AllVertexList
        AllGroupFaceIndices).lists.NewVertexList[p]?
          = some (if 0 < (HapiGetGroupMembership api GeoId PartInfo HAPI_GroupType.HAPI_GROUPTYPE_PRIM GroupName []
        false).OutGroupMembership.getD (p / 3) 0
                ∧ 3 * (p / 3) + 2 < FullVertexList.length then
              FullVertexList.getD p 0
            else -1))
    ∧ (HapiGetVertexListForGroup api GeoId PartInfo GroupName FullVertexList AllVertexList
        AllGroupFaceIndices).lists.FirstValidPrim
      = (HapiGetVertexListForGroup api GeoId PartInfo GroupName FullVertexList AllVertexList
        AllGroupFaceIndices).lists.AllFaceList.head?.getD 0
    ∧ (HapiGetVertexListForGroup api GeoId PartInfo GroupName FullVertexList AllVertexList
        AllGroupFaceIndices).lists.FirstValidVertex
      = 3 * (HapiGetVertexListForGroup api GeoId PartInfo GroupName FullVertexList AllVertexList
        AllGroupFaceIndices).lists.FirstValidPrim := by
  have hres : HapiGetVertexListForGroup api GeoId PartInfo GroupName FullVertexList
      AllVertexList AllGroupFaceIndices
      = { result := (vertexListForGroupLoop FullVertexList 0
            (HapiGetGroupMembership api GeoId PartInfo HAPI_GroupType.HAPI_GROUPTYPE_PRIM GroupName []
        false).OutGroupMembership
            { ProcessedWedges := 0, AllFaceList := [], FirstValidPrim := 0
              FirstValidVertex := 0
              NewVertexList := List.replicate FullVertexList.length (-1)
              AllVertexList := AllVertexList
              AllGroupFaceIndices := AllGroupFaceIndices }).ProcessedWedges
          lists := vertexListForGroupLoop FullVertexList 0
            (HapiGetGroupMembership api GeoId PartInfo HAPI_GroupType.HAPI_GROUPTYPE_PRIM GroupName []
        false).OutGroupMembership
            { ProcessedWedges := 0, AllFaceList := [], FirstValidPrim := 0
              FirstValidVertex := 0
              NewVertexList := List.replicate FullVertexList.length (-1)
              AllVertexList := AllVertexList
              AllGroupFaceIndices := AllGroupFaceIndices } } := by
    simp only [HapiGetVertexListForGroup, hM, Bool.not_true, Bool.false_eq_true, if_false]
  rw [hres]
  simp only
  generalize (HapiGetGroupMembership api GeoId PartInfo HAPI_GroupType.HAPI_GROUPTYPE_PRIM GroupName []
        false).OutGroupMembership = M
  have hfaces := vertexListForGroupLoop_AllFaceList FullVertexList M 0
    { ProcessedWedges := 0, AllFaceList := [], FirstValidPrim := 0, FirstValidVertex := 0
      NewVertexList := List.replicate FullVertexList.length (-1)
      AllVertexList := AllVertexList, AllGroupFaceIndices := AllGroupFaceIndices }
  obtain ⟨hc1, hc2, hc3⟩ := vertexListForGroupLoop_counters FullVertexList M 0
    { ProcessedWedges := 0, AllFaceList := [], FirstValidPrim := 0, FirstValidVertex := 0
      NewVertexList := List.replicate FullVertexList.length (-1)
      AllVertexList := AllVertexList, AllGroupFaceIndices := AllGroupFaceIndices }
    rfl rfl rfl
  obtain ⟨hn1, hn2⟩ := vertexListForGroupLoop_NewVertexList FullVertexList M 0
    { ProcessedWedges := 0, AllFaceList := [], FirstValidPrim := 0, FirstValidVertex := 0
      NewVertexList := List.replicate FullVertexList.length (-1)
      AllVertexList := AllVertexList, AllGroupFaceIndices := AllGroupFaceIndices }
    (by simp)
  simp only [List.nil_append] at hfaces
  refine ⟨?_, ?_, hc1, hn1, ?_, hc2, hc3⟩
  · rw [hfaces]
    exact pairwise_memberFacesFrom M 0
  · intro f
    rw [hfaces, mem_memberFacesFrom]
    simp only [Nat.zero_le, true_and, Nat.zero_add, Nat.sub_zero]
  · intro p hp
    rw [hn2 p]
    simp only [Nat.zero_le, true_and, Nat.zero_add, Nat.sub_zero]
    have hrep : (List.replicate FullVertexList.length (-1 : Int))[p]? = some (-1) := by
      rw [List.getElem?_replicate]
      simp [hp]
    by_cases hc : 0 < M.getD (p / 3) 0 ∧ 3 * (p / 3) + 2 < FullVertexList.length
    · have hin : p / 3 < M.length := by
        by_contra hge
        have : M.getD (p / 3) 0 = 0 := List.getD_eq_default _ _ (by omega)
        omega
      rw [if_pos ⟨hin, hc.1, hc.2⟩, if_pos hc]
    · rw [if_neg (fun h => hc ⟨h.2.1, h.2.2⟩), if_neg hc]
      exact hrep

/-- Witness for `C28_vertex_list_for_group`: three faces of which the first and the third
are members; the full vertex list has nine entries. -/
theorem C28_vertex_list_for_group_witness :
    (HapiGetGroupMembership evenMembersApi 0 threeFacePart HAPI_GroupType.HAPI_GROUPTYPE_PRIM
      "collision" [] false).result = true
    ∧ (HapiGetVertexListForGroup evenMembersApi 0 threeFacePart "collision"
        [10, 11, 12, 13, 14, 15, 16, 17, 18] [] []).result
      = 3 * (HapiGetVertexListForGroup evenMembersApi 0 threeFacePart "collision"
        [10, 11, 12, 13, 14, 15, 16, 17, 18] [] []).lists.AllFaceList.length
    ∧ (HapiGetVertexListForGroup evenMembersApi 0 threeFacePart "collision"
        [10, 11, 12, 13, 14, 15, 16, 17, 18] [] []).lists.AllFaceList = [0, 2]
    ∧ (HapiGetVertexListForGroup evenMembersApi 0 threeFacePart "collision"
        [10, 11, 12, 13, 14, 15, 16, 17, 18] [] []).lists.NewVertexList
      = [10, 11, 12, -1, -1, -1, 16, 17, 18] :=
  ⟨by decide,
    (C28_vertex_list_for_group evenMembersApi 0 threeFacePart "collision"
      [10, 11, 12, 13, 14, 15, 16, 17, 18] [] [] (by decide)).2.2.1,
    by decide, by decide⟩

/-! ## Generic attributes: theorems -/

/-- Taking the rightmost `length - p` characters removes the first `p` characters. -/
theorem FString_Right_drop (s : String) (p : Nat) :
    FString_Right s ((s.data.length : Int) - (p : Int)) = String.mk (s.data.drop p) := by
  unfold FString_Right
  congr 1
  by_cases hp : p ≤ s.data.length
  · have h : (max 0 (min ((s.data.length : Int) - (p : Int)) (s.data.length : Int))).toNat
        = s.data.length - p := by omega
    rw [h]
    congr 1
    omega
  · have h : (max 0 (min ((s.data.length : Int) - (p : Int)) (s.data.length : Int))).toNat
        = 0 := by omega
    rw [h, Nat.sub_zero, List.drop_length]
    exact (List.drop_eq_nil_of_le (by omega)).symm

/-- The range the code computes from `HandleSplit` and `AttribIndex` is the range of the
index mode. -/
theorem genericFetchRange_eq_indexModeRange (AttributeOwner : HAPI_AttributeOwner)
    (InAttribIndex : Int) (AttribInfo : HAPI_AttributeInfo) :
    genericFetchRange (genericHandleSplit AttributeOwner InAttribIndex)
      (genericAttribIndex AttributeOwner InAttribIndex) AttribInfo
      = indexModeRange AttributeOwner InAttribIndex AttribInfo := by
  unfold genericFetchRange genericAttribIndex indexModeRange
  by_cases hs : genericHandleSplit AttributeOwner InAttribIndex = true
  · have hs2 := hs
    simp only [genericHandleSplit, decide_eq_true_eq] at hs2
    rw [if_pos hs, if_pos hs]
    by_cases hr : 0 ≤ InAttribIndex ∧ InAttribIndex < (AttribInfo.count : Int)
    · rw [if_pos hr, if_pos ⟨hs2.1, hr.1, hr.2⟩]
    · rw [if_neg hr, if_neg (fun h => hr ⟨h.2.1, h.2.2⟩)]
  · have hs2 := hs
    simp only [genericHandleSplit, decide_eq_true_eq, not_and, not_not] at hs2
    rw [if_neg hs]
    rw [if_neg]
    rintro ⟨h1, h2, _⟩
    have := hs2 h1
    omega

/-- The name loop appends the records of its passes, in order, and counts them. -/
theorem GetGenericAttributeListLoop_eq (api : FHoudiniGenericApi)
    (StartsWith : String → String → Bool) (InGeoNodeId InPartId : Int)
    (InGenericAttributePrefix : String) (AttributeOwner : HAPI_AttributeOwner)
    (HandleSplit : Bool) (AttribIndex : Int) (handles : List Int) :
    ∀ acc : List FHoudiniGenericAttribute × Nat,
      GetGenericAttributeListLoop api StartsWith InGeoNodeId InPartId InGenericAttributePrefix
        AttributeOwner HandleSplit AttribIndex handles acc
      = (acc.1 ++ handles.filterMap (genericAttributeFor api StartsWith InGeoNodeId InPartId
            InGenericAttributePrefix AttributeOwner HandleSplit AttribIndex),
          acc.2 + (handles.filterMap (genericAttributeFor api StartsWith InGeoNodeId InPartId
            InGenericAttributePrefix AttributeOwner HandleSplit AttribIndex)).length) := by
  induction handles with
  | nil => intro acc; simp [GetGenericAttributeListLoop]
  | cons sh rest ih =>
    intro acc
    unfold GetGenericAttributeListLoop
    cases hstep : genericAttributeFor api StartsWith InGeoNodeId InPartId
        InGenericAttributePrefix AttributeOwner HandleSplit AttribIndex sh with
    | none =>
      simp only [List.filterMap_cons, hstep]
      exact ih acc
    | some rec =>
      simp only [List.filterMap_cons, hstep]
      rw [ih]
      simp only [List.append_assoc, List.singleton_append, List.length_cons]
      congr 1
      omega

/-- When its part-info and name calls succeed, `GetGenericAttributeList` appends the
records of the enumerated handles and returns their number. -/
theorem GetGenericAttributeList_eq (api : FHoudiniGenericApi)
    (StartsWith : String → String → Bool) (InGeoNodeId InPartId : Int)
    (InGenericAttributePrefix : String) (OutFoundAttributes : List FHoudiniGenericAttribute)
    (AttributeOwner : HAPI_AttributeOwner) (InAttribIndex : Int)
    (hpart : (api.GetPartInfo InGeoNodeId InPartId).1 = HAPI_Result.HAPI_RESULT_SUCCESS)
    (hnames : (api.GetAttributeNames InGeoNodeId InPartId AttributeOwner
      ((api.GetPartInfo InGeoNodeId InPartId).2 AttributeOwner)).1
        = HAPI_Result.HAPI_RESULT_SUCCESS) :
    GetGenericAttributeList api StartsWith InGeoNodeId InPartId InGenericAttributePrefix
      OutFoundAttributes AttributeOwner InAttribIndex
    = { result := ((fillBuffer ((api.GetPartInfo InGeoNodeId InPartId).2 AttributeOwner)
          (api.GetAttributeNames InGeoNodeId InPartId AttributeOwner
            ((api.GetPartInfo InGeoNodeId InPartId).2 AttributeOwner)).2).filterMap
          (genericAttributeFor api StartsWith InGeoNodeId InPartId InGenericAttributePrefix
            AttributeOwner (genericHandleSplit AttributeOwner InAttribIndex)
            (genericAttribIndex AttributeOwner InAttribIndex))).length
        OutFoundAttributes := OutFoundAttributes ++
          (fillBuffer ((api.GetPartInfo InGeoNodeId InPartId).2 AttributeOwner)
          (api.GetAttributeNames InGeoNodeId InPartId AttributeOwner
            ((api.GetPartInfo InGeoNodeId InPartId).2 AttributeOwner)).2).filterMap
          (genericAttributeFor api StartsWith InGeoNodeId InPartId InGenericAttributePrefix
            AttributeOwner (genericHandleSplit AttributeOwner InAttribIndex)
            (genericAttribIndex AttributeOwner InAttribIndex)) } := by
  unfold GetGenericAttributeList
  simp only [hpart, hnames, ne_eq, not_true_eq_false, if_false]
  rw [GetGenericAttributeListLoop_eq]
  simp only [Nat.zero_add]

/-- A data fetch keeps the name, type, owner, count and tuple size of the record, fills
the value array of the record's storage type with `AttribCount * tupleSize` entries and
leaves the other two value arrays as they were. -/
theorem fetchGenericValues_some (api : FHoudiniGenericApi) (InGeoNodeId InPartId : Int)
    (AttribName : String) (AttribInfo : HAPI_AttributeInfo) (AttribStart AttribCount : Nat)
    (Current rec : FHoudiniGenericAttribute)
    (hD : Current.DoubleValues = []) (hI : Current.IntValues = [])
    (hS : Current.StringValues = [])
    (h : fetchGenericValues api InGeoNodeId InPartId AttribName AttribInfo AttribStart
      AttribCount Current = some rec) :
    rec.AttributeName = Current.AttributeName
    ∧ rec.AttributeType = Current.AttributeType
    ∧ rec.AttributeOwner = Current.AttributeOwner
    ∧ rec.AttributeCount = Current.AttributeCount
    ∧ rec.AttributeTupleSize = Current.AttributeTupleSize
    ∧ rec.AttributeType ≠ HAPI_StorageType.HAPI_STORAGETYPE_INVALID
    ∧ rec.valueCount = AttribCount * AttribInfo.tupleSize
    ∧ ((rec.AttributeType = HAPI_StorageType.HAPI_STORAGETYPE_FLOAT
        ∨ rec.AttributeType = HAPI_StorageType.HAPI_STORAGETYPE_FLOAT64) →
          rec.IntValues = [] ∧ rec.StringValues = [])
    ∧ ((rec.AttributeType = HAPI_StorageType.HAPI_STORAGETYPE_INT
        ∨ rec.AttributeType = HAPI_StorageType.HAPI_STORAGETYPE_INT64) →
          rec.DoubleValues = [] ∧ rec.StringValues = [])
    ∧ (rec.AttributeType = HAPI_StorageType.HAPI_STORAGETYPE_STRING →
          rec.DoubleValues = [] ∧ rec.IntValues = []) := by
  unfold fetchGenericValues at h
  by_cases h1 : Current.AttributeType = HAPI_StorageType.HAPI_STORAGETYPE_FLOAT64
  · rw [if_pos h1] at h
    simp only at h
    split_ifs at h
    cases h
    simp [FHoudiniGenericAttribute.valueCount, h1, hI, hS, fillBuffer]
  · rw [if_neg h1] at h
    by_cases h2 : Current.AttributeType = HAPI_StorageType.HAPI_STORAGETYPE_FLOAT
    · rw [if_pos h2] at h
      simp only at h
      split_ifs at h
      cases h
      simp [FHoudiniGenericAttribute.valueCount, h2, hI, hS, fillBuffer]
    · rw [if_neg h2] at h
      by_cases h3 : Current.AttributeType = HAPI_StorageType.HAPI_STORAGETYPE_INT64
      · rw [if_pos h3] at h
        simp only at h
        split_ifs at h
        cases h
        simp [FHoudiniGenericAttribute.valueCount, h3, hD, hS, fillBuffer]
      · rw [if_neg h3] at h
        by_cases h4 : Current.AttributeType = HAPI_StorageType.HAPI_STORAGETYPE_INT
        · rw [if_pos h4] at h
          simp only at h
          split_ifs at h
          cases h
          simp [FHoudiniGenericAttribute.valueCount, h4, hD, hS, fillBuffer]
        · rw [if_neg h4] at h
          by_cases h5 : Current.AttributeType = HAPI_StorageType.HAPI_STORAGETYPE_STRING
          · rw [if_pos h5] at h
            simp only at h
            split_ifs at h
            cases h
            simp [FHoudiniGenericAttribute.valueCount, h5, hD, hI, fillBuffer]
          · rw [if_neg h5] at h
            cases h

/-- A data fetch yields a record exactly when the data call for the record's storage
type succeeds. -/
theorem fetchGenericValues_isSome (api : FHoudiniGenericApi) (InGeoNodeId InPartId : Int)
    (InGenericAttributePrefix AttribName : String) (AttributeOwner : HAPI_AttributeOwner)
    (InAttribIndex : Int) (AttribInfo : HAPI_AttributeInfo) :
    (fetchGenericValues api InGeoNodeId InPartId AttribName AttribInfo
      (indexModeRange AttributeOwner InAttribIndex AttribInfo).1
      (indexModeRange AttributeOwner InAttribIndex AttribInfo).2
      (newGenericAttribute InGenericAttributePrefix AttribName AttribInfo)).isSome
    = genericDataFetchSucceeds api InGeoNodeId InPartId AttribName AttributeOwner
        InAttribIndex AttribInfo := by
  unfold fetchGenericValues genericDataFetchSucceeds newGenericAttribute
  cases hst : AttribInfo.storage <;> simp <;> split_ifs <;> simp_all

/-- A pass of the name loop yields a record exactly for the names the claim accepts. -/
theorem genericAttributeFor_isSome (api : FHoudiniGenericApi)
    (StartsWith : String → String → Bool) (InGeoNodeId InPartId : Int)
    (InGenericAttributePrefix : String) (AttributeOwner : HAPI_AttributeOwner)
    (InAttribIndex : Int) (AttribNameSH : Int) :
    (genericAttributeFor api StartsWith InGeoNodeId InPartId InGenericAttributePrefix
      AttributeOwner (genericHandleSplit AttributeOwner InAttribIndex)
      (genericAttribIndex AttributeOwner InAttribIndex) AttribNameSH).isSome
    = genericAttributeAccepted api StartsWith InGeoNodeId InPartId InGenericAttributePrefix
        AttributeOwner InAttribIndex (api.ToFString AttribNameSH) := by
  unfold genericAttributeFor genericAttributeAccepted
  simp only [genericFetchRange_eq_indexModeRange]
  by_cases hsw : StartsWith (api.ToFString AttribNameSH) InGenericAttributePrefix = true
  · by_cases hinfo : (api.GetAttributeInfo InGeoNodeId InPartId (api.ToFString AttribNameSH)
        AttributeOwner).1 = HAPI_Result.HAPI_RESULT_SUCCESS
    · simp only [hsw, hinfo, Bool.not_true, Bool.false_eq_true, if_false, ne_eq,
        not_true_eq_false, decide_True, Bool.true_and]
      exact fetchGenericValues_isSome api InGeoNodeId InPartId InGenericAttributePrefix
        (api.ToFString AttribNameSH) AttributeOwner InAttribIndex _
    · simp [hsw, hinfo]
  · simp [hsw]

/-- The record of a pass is the record before the fetch, filled by the data call over the
range of the index mode. -/
theorem genericAttributeFor_some (api : FHoudiniGenericApi)
    (StartsWith : String → String → Bool) (InGeoNodeId InPartId : Int)
    (InGenericAttributePrefix : String) (AttributeOwner : HAPI_AttributeOwner)
    (InAttribIndex : Int) (AttribNameSH : Int) (rec : FHoudiniGenericAttribute)
    (h : genericAttributeFor api StartsWith InGeoNodeId InPartId InGenericAttributePrefix
      AttributeOwner (genericHandleSplit AttributeOwner InAttribIndex)
      (genericAttribIndex AttributeOwner InAttribIndex) AttribNameSH = some rec) :
    fetchGenericValues api InGeoNodeId InPartId (api.ToFString AttribNameSH)
      (api.GetAttributeInfo InGeoNodeId InPartId (api.ToFString AttribNameSH) AttributeOwner).2
      (indexModeRange AttributeOwner InAttribIndex
        (api.GetAttributeInfo InGeoNodeId InPartId (api.ToFString AttribNameSH)
          AttributeOwner).2).1
      (indexModeRange AttributeOwner InAttribIndex
        (api.GetAttributeInfo InGeoNodeId InPartId (api.ToFString AttribNameSH)
          AttributeOwner).2).2
      (newGenericAttribute InGenericAttributePrefix (api.ToFString AttribNameSH)
        (api.GetAttributeInfo InGeoNodeId InPartId (api.ToFString AttribNameSH)
          AttributeOwner).2) = some rec := by
  unfold genericAttributeFor at h
  simp only [genericFetchRange_eq_indexModeRange] at h
  split_ifs at h
  exact h

/-- Mapping the records of a filtering pass: when a pass `f` yields a record exactly on the
items `g a` that `p` accepts, and the record's image under `h` is `k (g a)`, the images of
the records are the images of the accepted items, in order. -/
theorem map_filterMap_eq_map_filter {α β γ δ : Type} (f : α → Option β) (g : α → γ)
    (p : γ → Bool) (h : β → δ) (k : γ → δ)
    (hp : ∀ a, (f a).isSome = p (g a)) (hk : ∀ a b, f a = some b → h b = k (g a))
    (l : List α) :
    (l.filterMap f).map h = ((l.map g).filter p).map k := by
  induction l with
  | nil => rfl
  | cons a rest ih =>
    cases hfa : f a with
    | none =>
      have hpa : p (g a) = false := by rw [← hp a, hfa]; rfl
      simp only [List.filterMap_cons, hfa, List.map_cons, List.filter_cons, hpa,
        Bool.false_eq_true, if_false]
      exact ih
    | some b =>
      have hpa : p (g a) = true := by rw [← hp a, hfa]; rfl
      simp only [List.filterMap_cons, hfa, List.map_cons, List.filter_cons, hpa, if_true]
      rw [ih, hk a b hfa]

/-- C22: when the part-info and name calls succeed, `GetGenericAttributeList` appends to
`OutFoundAttributes`, in order of enumeration, one record for exactly those enumerated
attribute names that start with the prefix (under the case-insensitive comparison
`StartsWith`) and whose info call and data call succeed with a supported storage type;
the name of each record is the attribute name without its first `len(prefix)` characters;
and the returned count is the number of records appended. -/
theorem C22_generic_attribute_list (api : FHoudiniGenericApi)
    (StartsWith : String → String → Bool) (InGeoNodeId InPartId : Int)
    (InGenericAttributePrefix : String) (OutFoundAttributes : List FHoudiniGenericAttribute)
    (AttributeOwner : HAPI_AttributeOwner) (InAttribIndex : Int)
    (hpart : (api.GetPartInfo InGeoNodeId InPartId).1 = HAPI_Result.HAPI_RESULT_SUCCESS)
    (hnames : (api.GetAttributeNames InGeoNodeId InPartId AttributeOwner
      ((api.GetPartInfo InGeoNodeId InPartId).2 AttributeOwner)).1
        = HAPI_Result.HAPI_RESULT_SUCCESS) :
    ∃ appended : List FHoudiniGenericAttribute,
      (GetGenericAttributeList api StartsWith InGeoNodeId InPartId InGenericAttributePrefix
        OutFoundAttributes AttributeOwner InAttribIndex).OutFoundAttributes
        = OutFoundAttributes ++ appended
      ∧ (GetGenericAttributeList api StartsWith InGeoNodeId InPartId InGenericAttributePrefix
        OutFoundAttributes AttributeOwner InAttribIndex).result = appended.length
      ∧ appended.map (fun a => a.AttributeName)
        = ((enumeratedAttributeNames api InGeoNodeId InPartId AttributeOwner).filter
            (genericAttributeAccepted api StartsWith InGeoNodeId InPartId
              InGenericAttributePrefix AttributeOwner InAttribIndex)).map
            (fun AttribName => String.mk (AttribName.data.drop InGenericAttributePrefix.length)) := by
  rw [GetGenericAttributeList_eq api StartsWith InGeoNodeId InPartId InGenericAttributePrefix
    OutFoundAttributes AttributeOwner InAttribIndex hpart hnames]
  refine ⟨_, rfl, rfl, ?_⟩
  unfold enumeratedAttributeNames
  apply map_filterMap_eq_map_filter
  · intro sh
    exact genericAttributeFor_isSome api StartsWith InGeoNodeId InPartId
      InGenericAttributePrefix AttributeOwner InAttribIndex sh
  · intro sh rec hrec
    have hf := genericAttributeFor_some api StartsWith InGeoNodeId InPartId
      InGenericAttributePrefix AttributeOwner InAttribIndex sh rec hrec
    have hn := (fetchGenericValues_some api InGeoNodeId InPartId _ _ _ _ _ rec rfl rfl rfl hf).1
    rw [hn]
    exact FString_Right_drop (api.ToFString sh) InGenericAttributePrefix.data.length

/-- Witness for `C22_generic_attribute_list`: of the five point attributes of the sample
session, `unreal_uproperty_Mobility` and `UNREAL_UPROPERTY_Tag` are recorded, as
`Mobility` and `Tag`. -/
theorem C22_generic_attribute_list_witness :
    (sampleGenericApi.GetPartInfo 0 0).1 = HAPI_Result.HAPI_RESULT_SUCCESS
    ∧ (sampleGenericApi.GetAttributeNames 0 0 HAPI_AttributeOwner.HAPI_ATTROWNER_POINT
        ((sampleGenericApi.GetPartInfo 0 0).2 HAPI_AttributeOwner.HAPI_ATTROWNER_POINT)).1
        = HAPI_Result.HAPI_RESULT_SUCCESS
    ∧ (∃ appended : List FHoudiniGenericAttribute,
      (GetGenericAttributeList sampleGenericApi FString_StartsWith_IgnoreCase 0 0
        "unreal_uproperty_" [] HAPI_AttributeOwner.HAPI_ATTROWNER_POINT (-1)).OutFoundAttributes
        = [] ++ appended
      ∧ (GetGenericAttributeList sampleGenericApi FString_StartsWith_IgnoreCase 0 0
        "unreal_uproperty_" [] HAPI_AttributeOwner.HAPI_ATTROWNER_POINT (-1)).result
        = appended.length
      ∧ appended.map (fun a => a.AttributeName)
        = ((enumeratedAttributeNames sampleGenericApi 0 0
              HAPI_AttributeOwner.HAPI_ATTROWNER_POINT).filter
            (genericAttributeAccepted sampleGenericApi FString_StartsWith_IgnoreCase 0 0
              "unreal_uproperty_" HAPI_AttributeOwner.HAPI_ATTROWNER_POINT (-1))).map
            (fun AttribName => String.mk (AttribName.data.drop "unreal_uproperty_".length)))
    ∧ (GetGenericAttributeList sampleGenericApi FString_StartsWith_IgnoreCase 0 0
        "unreal_uproperty_" [] HAPI_AttributeOwner.HAPI_ATTROWNER_POINT (-1)).result = 2
    ∧ (GetGenericAttributeList sampleGenericApi FString_StartsWith_IgnoreCase 0 0
        "unreal_uproperty_" [] HAPI_AttributeOwner.HAPI_ATTROWNER_POINT
        (-1)).OutFoundAttributes.map (fun a => a.AttributeName) = ["Mobility", "Tag"] :=
  ⟨by decide, by decide,
    C22_generic_attribute_list sampleGenericApi FString_StartsWith_IgnoreCase 0 0
      "unreal_uproperty_" [] HAPI_AttributeOwner.HAPI_ATTROWNER_POINT (-1) (by decide)
      (by decide),
    by decide, by decide⟩

/-- Every record `GetGenericAttributeList` appends comes from one enumerated handle, as the
record of that handle's pass. -/
theorem GetGenericAttributeList_appended (api : FHoudiniGenericApi)
    (StartsWith : String → String → Bool) (InGeoNodeId InPartId : Int)
    (InGenericAttributePrefix : String) (OutFoundAttributes : List FHoudiniGenericAttribute)
    (AttributeOwner : HAPI_AttributeOwner) (InAttribIndex : Int)
    (hpart : (api.GetPartInfo InGeoNodeId InPartId).1 = HAPI_Result.HAPI_RESULT_SUCCESS)
    (hnames : (api.GetAttributeNames InGeoNodeId InPartId AttributeOwner
      ((api.GetPartInfo InGeoNodeId InPartId).2 AttributeOwner)).1
        = HAPI_Result.HAPI_RESULT_SUCCESS) :
    ∃ appended : List FHoudiniGenericAttribute,
      (GetGenericAttributeList api StartsWith InGeoNodeId InPartId InGenericAttributePrefix
        OutFoundAttributes AttributeOwner InAttribIndex).OutFoundAttributes
        = OutFoundAttributes ++ appended
      ∧ (GetGenericAttributeList api StartsWith InGeoNodeId InPartId InGenericAttributePrefix
        OutFoundAttributes AttributeOwner InAttribIndex).result = appended.length
      ∧ ∀ rec ∈ appended, ∃ AttribName ∈ enumeratedAttributeNames api InGeoNodeId InPartId
          AttributeOwner,
        fetchGenericValues api InGeoNodeId InPartId AttribName
          (api.GetAttributeInfo InGeoNodeId InPartId AttribName AttributeOwner).2
          (indexModeRange AttributeOwner InAttribIndex
            (api.GetAttributeInfo InGeoNodeId InPartId AttribName AttributeOwner).2).1
          (indexModeRange AttributeOwner InAttribIndex
            (api.GetAttributeInfo InGeoNodeId InPartId AttribName AttributeOwner).2).2
          (newGenericAttribute InGenericAttributePrefix AttribName
            (api.GetAttributeInfo InGeoNodeId InPartId AttribName AttributeOwner).2)
          = some rec := by
  rw [GetGenericAttributeList_eq api StartsWith InGeoNodeId InPartId InGenericAttributePrefix
    OutFoundAttributes AttributeOwner InAttribIndex hpart hnames]
  refine ⟨_, rfl, rfl, ?_⟩
  intro rec hrec
  obtain ⟨sh, hsh, hstep⟩ := List.mem_filterMap.mp hrec
  refine ⟨api.ToFString sh, ?_, ?_⟩
  · unfold enumeratedAttributeNames
    exact List.mem_map_of_mem _ hsh
  · exact genericAttributeFor_some api StartsWith InGeoNodeId InPartId
      InGenericAttributePrefix AttributeOwner InAttribIndex sh rec hstep

/-- C23: every record `GetGenericAttributeList` appends belongs to an enumerated attribute
with element count `c` and tuple size `t` (which the record keeps). When the owner is not
detail and the given index `i` satisfies `0 ≤ i < c`, the record is what the data call
over the single element `i` fills and its value array has exactly `t` entries; when the
owner is detail, or the index is `-1`, the record is what the data call over the whole
attribute fills and its value array has exactly `c * t` entries. -/
theorem C23_index_mode (api : FHoudiniGenericApi)
    (StartsWith : String → String → Bool) (InGeoNodeId InPartId : Int)
    (InGenericAttributePrefix : String) (OutFoundAttributes : List FHoudiniGenericAttribute)
    (AttributeOwner : HAPI_AttributeOwner) (InAttribIndex : Int)
    (hpart : (api.GetPartInfo InGeoNodeId InPartId).1 = HAPI_Result.HAPI_RESULT_SUCCESS)
    (hnames : (api.GetAttributeNames InGeoNodeId InPartId AttributeOwner
      ((api.GetPartInfo InGeoNodeId InPartId).2 AttributeOwner)).1
        = HAPI_Result.HAPI_RESULT_SUCCESS) :
    ∃ appended : List FHoudiniGenericAttribute,
      (GetGenericAttributeList api StartsWith InGeoNodeId InPartId InGenericAttributePrefix
        OutFoundAttributes AttributeOwner InAttribIndex).OutFoundAttributes
        = OutFoundAttributes ++ appended
      ∧ ∀ rec ∈ appended, ∃ AttribName ∈ enumeratedAttributeNames api InGeoNodeId InPartId
          AttributeOwner,
        rec.AttributeCount
          = (api.GetAttributeInfo InGeoNodeId InPartId AttribName AttributeOwner).2.count
        ∧ rec.AttributeTupleSize
          = (api.GetAttributeInfo InGeoNodeId InPartId AttribName AttributeOwner).2.tupleSize
        ∧ ((AttributeOwner ≠ HAPI_AttributeOwner.HAPI_ATTROWNER_DETAIL ∧ 0 ≤ InAttribIndex
            ∧ InAttribIndex < (rec.AttributeCount : Int)) →
            fetchGenericValues api InGeoNodeId InPartId AttribName
              (api.GetAttributeInfo InGeoNodeId InPartId AttribName AttributeOwner).2
              InAttribIndex.toNat 1
              (newGenericAttribute InGenericAttributePrefix AttribName
                (api.GetAttributeInfo InGeoNodeId InPartId AttribName AttributeOwner).2)
              = some rec
            ∧ rec.valueCount = rec.AttributeTupleSize)
        ∧ ((AttributeOwner = HAPI_AttributeOwner.HAPI_ATTROWNER_DETAIL ∨ InAttribIndex = -1) →
            fetchGenericValues api InGeoNodeId InPartId AttribName
              (api.GetAttributeInfo InGeoNodeId InPartId AttribName AttributeOwner).2
              0 rec.AttributeCount
              (newGenericAttribute InGenericAttributePrefix AttribName
                (api.GetAttributeInfo InGeoNodeId InPartId AttribName AttributeOwner).2)
              = some rec
            ∧ rec.valueCount = rec.AttributeCount * rec.AttributeTupleSize) := by
  obtain ⟨appended, hout, _, hall⟩ := GetGenericAttributeList_appended api StartsWith
    InGeoNodeId InPartId InGenericAttributePrefix OutFoundAttributes AttributeOwner
    InAttribIndex hpart hnames
  refine ⟨appended, hout, ?_⟩
  intro rec hrec
  obtain ⟨AttribName, hname, hfetch⟩ := hall rec hrec
  refine ⟨AttribName, hname, ?_⟩
  obtain ⟨_, _, _, hcount, htuple, _, hvalues, _⟩ :=
    fetchGenericValues_some api InGeoNodeId InPartId _ _ _ _ _ rec rfl rfl rfl hfetch
  have hcount2 : rec.AttributeCount
      = (api.GetAttributeInfo InGeoNodeId InPartId AttribName AttributeOwner).2.count := hcount
  have htuple2 : rec.AttributeTupleSize
      = (api.GetAttributeInfo InGeoNodeId InPartId AttribName AttributeOwner).2.tupleSize :=
    htuple
  refine ⟨hcount2, htuple2, ?_, ?_⟩
  · intro hsplit
    rw [hcount2] at hsplit
    have hrange : indexModeRange AttributeOwner InAttribIndex
        (api.GetAttributeInfo InGeoNodeId InPartId AttribName AttributeOwner).2
        = (InAttribIndex.toNat, 1) := by
      unfold indexModeRange
      rw [if_pos hsplit]
    rw [hrange] at hfetch hvalues
    refine ⟨hfetch, ?_⟩
    rw [hvalues, htuple2, Nat.one_mul]
  · intro hwhole
    have hrange : indexModeRange AttributeOwner InAttribIndex
        (api.GetAttributeInfo InGeoNodeId InPartId AttribName AttributeOwner).2
        = (0, (api.GetAttributeInfo InGeoNodeId InPartId AttribName AttributeOwner).2.count) := by
      unfold indexModeRange
      rw [if_neg]
      rintro ⟨h1, h2, _⟩
      rcases hwhole with h | h
      · exact h1 h
      · omega
    rw [hrange] at hfetch hvalues
    rw [hcount2]
    refine ⟨hfetch, ?_⟩
    rw [hvalues, htuple2]

/-- Witness for `C23_index_mode`: with index `1` on the point owner of the sample session,
each of the two records holds the one value of element `1`. -/
theorem C23_index_mode_witness :
    (sampleGenericApi.GetPartInfo 0 0).1 = HAPI_Result.HAPI_RESULT_SUCCESS
    ∧ (sampleGenericApi.GetAttributeNames 0 0 HAPI_AttributeOwner.HAPI_ATTROWNER_POINT
        ((sampleGenericApi.GetPartInfo 0 0).2 HAPI_AttributeOwner.HAPI_ATTROWNER_POINT)).1
        = HAPI_Result.HAPI_RESULT_SUCCESS
    ∧ (∃ appended : List FHoudiniGenericAttribute,
      (GetGenericAttributeList sampleGenericApi FString_StartsWith_IgnoreCase 0 0
        "unreal_uproperty_" [] HAPI_AttributeOwner.HAPI_ATTROWNER_POINT 1).OutFoundAttributes
        = [] ++ appended
      ∧ ∀ rec ∈ appended, ∃ AttribName ∈ enumeratedAttributeNames sampleGenericApi 0 0
          HAPI_AttributeOwner.HAPI_ATTROWNER_POINT,
        rec.AttributeCount
          = (sampleGenericApi.GetAttributeInfo 0 0 AttribName
              HAPI_AttributeOwner.HAPI_ATTROWNER_POINT).2.count
        ∧ rec.AttributeTupleSize
          = (sampleGenericApi.GetAttributeInfo 0 0 AttribName
              HAPI_AttributeOwner.HAPI_ATTROWNER_POINT).2.tupleSize
        ∧ ((HAPI_AttributeOwner.HAPI_ATTROWNER_POINT ≠ HAPI_AttributeOwner.HAPI_ATTROWNER_DETAIL
            ∧ 0 ≤ (1 : Int) ∧ (1 : Int) < (rec.AttributeCount : Int)) →
            fetchGenericValues sampleGenericApi 0 0 AttribName
              (sampleGenericApi.GetAttributeInfo 0 0 AttribName
                HAPI_AttributeOwner.HAPI_ATTROWNER_POINT).2
              (1 : Int).toNat 1
              (newGenericAttribute "unreal_uproperty_" AttribName
                (sampleGenericApi.GetAttributeInfo 0 0 AttribName
                  HAPI_AttributeOwner.HAPI_ATTROWNER_POINT).2)
              = some rec
            ∧ rec.valueCount = rec.AttributeTupleSize)
        ∧ ((HAPI_AttributeOwner.HAPI_ATTROWNER_POINT = HAPI_AttributeOwner.HAPI_ATTROWNER_DETAIL
            ∨ (1 : Int) = -1) →
            fetchGenericValues sampleGenericApi 0 0 AttribName
              (sampleGenericApi.GetAttributeInfo 0 0 AttribName
                HAPI_AttributeOwner.HAPI_ATTROWNER_POINT).2
              0 rec.AttributeCount
              (newGenericAttribute "unreal_uproperty_" AttribName
                (sampleGenericApi.GetAttributeInfo 0 0 AttribName
                  HAPI_AttributeOwner.HAPI_ATTROWNER_POINT).2)
              = some rec
            ∧ rec.valueCount = rec.AttributeCount * rec.AttributeTupleSize))
    ∧ (GetGenericAttributeList sampleGenericApi FString_StartsWith_IgnoreCase 0 0
        "unreal_uproperty_" [] HAPI_AttributeOwner.HAPI_ATTROWNER_POINT
        1).OutFoundAttributes.map (fun a => (a.IntValues, a.StringValues))
        = [([10], []), ([], ["green"])]
    ∧ (GetGenericAttributeList sampleGenericApi FString_StartsWith_IgnoreCase 0 0
        "unreal_uproperty_" [] HAPI_AttributeOwner.HAPI_ATTROWNER_POINT
        (-1)).OutFoundAttributes.map (fun a => (a.IntValues, a.StringValues))
        = [([0, 10, 20], []), ([], ["red", "green", "blue"])] :=
  ⟨by decide, by decide,
    C23_index_mode sampleGenericApi FString_StartsWith_IgnoreCase 0 0
      "unreal_uproperty_" [] HAPI_AttributeOwner.HAPI_ATTROWNER_POINT 1 (by decide)
      (by decide),
    by decide, by decide⟩

/-- C24: every record `GetGenericAttributeList` appends has a supported storage type and
only the value array of that type filled: for the float types the integer and string
values are empty, for the integer types the double and string values are empty, for
strings the double and integer values are empty; the filled array has the number of
entries fetched. A pass over an attribute of any other storage type yields no record, and
the returned count is the number of records appended. -/
theorem C24_only_matching_field (api : FHoudiniGenericApi)
    (StartsWith : String → String → Bool) (InGeoNodeId InPartId : Int)
    (InGenericAttributePrefix : String) (OutFoundAttributes : List FHoudiniGenericAttribute)
    (AttributeOwner : HAPI_AttributeOwner) (InAttribIndex : Int)
    (hpart : (api.GetPartInfo InGeoNodeId InPartId).1 = HAPI_Result.HAPI_RESULT_SUCCESS)
    (hnames : (api.GetAttributeNames InGeoNodeId InPartId AttributeOwner
      ((api.GetPartInfo InGeoNodeId InPartId).2 AttributeOwner)).1
        = HAPI_Result.HAPI_RESULT_SUCCESS) :
    (∃ appended : List FHoudiniGenericAttribute,
      (GetGenericAttributeList api StartsWith InGeoNodeId InPartId InGenericAttributePrefix
        OutFoundAttributes AttributeOwner InAttribIndex).OutFoundAttributes
        = OutFoundAttributes ++ appended
      ∧ (GetGenericAttributeList api StartsWith InGeoNodeId InPartId InGenericAttributePrefix
        OutFoundAttributes AttributeOwner InAttribIndex).result = appended.length
      ∧ ∀ rec ∈ appended,
        rec.AttributeType ≠ HAPI_StorageType.HAPI_STORAGETYPE_INVALID
        ∧ ((rec.AttributeType = HAPI_StorageType.HAPI_STORAGETYPE_FLOAT
            ∨ rec.AttributeType = HAPI_StorageType.HAPI_STORAGETYPE_FLOAT64) →
              rec.IntValues = [] ∧ rec.StringValues = []
              ∧ rec.DoubleValues.length = rec.valueCount)
        ∧ ((rec.AttributeType = HAPI_StorageType.HAPI_STORAGETYPE_INT
            ∨ rec.AttributeType = HAPI_StorageType.HAPI_STORAGETYPE_INT64) →
              rec.DoubleValues = [] ∧ rec.StringValues = []
              ∧ rec.IntValues.length = rec.valueCount)
        ∧ (rec.AttributeType = HAPI_StorageType.HAPI_STORAGETYPE_STRING →
              rec.DoubleValues = [] ∧ rec.IntValues = []
              ∧ rec.StringValues.length = rec.valueCount))
    ∧ ∀ AttribNameSH : Int,
        (api.GetAttributeInfo InGeoNodeId InPartId (api.ToFString AttribNameSH)
          AttributeOwner).2.storage = HAPI_StorageType.HAPI_STORAGETYPE_INVALID →
        genericAttributeFor api StartsWith InGeoNodeId InPartId InGenericAttributePrefix
          AttributeOwner (genericHandleSplit AttributeOwner InAttribIndex)
          (genericAttribIndex AttributeOwner InAttribIndex) AttribNameSH = none := by
  constructor
  · obtain ⟨appended, hout, hres, hall⟩ := GetGenericAttributeList_appended api StartsWith
      InGeoNodeId InPartId InGenericAttributePrefix OutFoundAttributes AttributeOwner
      InAttribIndex hpart hnames
    refine ⟨appended, hout, hres, ?_⟩
    intro rec hrec
    obtain ⟨AttribName, _, hfetch⟩ := hall rec hrec
    obtain ⟨_, _, _, _, _, hsupported, _, hfloat, hint, hstring⟩ :=
      fetchGenericValues_some api InGeoNodeId InPartId _ _ _ _ _ rec rfl rfl rfl hfetch
    refine ⟨hsupported, ?_, ?_, ?_⟩
    · intro h
      refine ⟨(hfloat h).1, (hfloat h).2, ?_⟩
      rcases h with h | h <;> simp [FHoudiniGenericAttribute.valueCount, h]
    · intro h
      refine ⟨(hint h).1, (hint h).2, ?_⟩
      rcases h with h | h <;> simp [FHoudiniGenericAttribute.valueCount, h]
    · intro h
      refine ⟨(hstring h).1, (hstring h).2, ?_⟩
      simp [FHoudiniGenericAttribute.valueCount, h]
  · intro sh hst
    cases hstep : genericAttributeFor api StartsWith InGeoNodeId InPartId
        InGenericAttributePrefix AttributeOwner (genericHandleSplit AttributeOwner InAttribIndex)
        (genericAttribIndex AttributeOwner InAttribIndex) sh with
    | none => rfl
    | some rec =>
      have hf := genericAttributeFor_some api StartsWith InGeoNodeId InPartId
        InGenericAttributePrefix AttributeOwner InAttribIndex sh rec hstep
      obtain ⟨_, htype, _, _, _, hsupported, _⟩ :=
        fetchGenericValues_some api InGeoNodeId InPartId _ _ _ _ _ rec rfl rfl rfl hf
      exact absurd (htype.trans hst) hsupported

/-- Witness for `C24_only_matching_field`: the detail attribute of storage type `FLOAT64`
gives one record with three double values and no integer or string value. -/
theorem C24_only_matching_field_witness :
    (detailFloat64Api.GetPartInfo 0 0).1 = HAPI_Result.HAPI_RESULT_SUCCESS
    ∧ (detailFloat64Api.GetAttributeNames 0 0 HAPI_AttributeOwner.HAPI_ATTROWNER_DETAIL
        ((detailFloat64Api.GetPartInfo 0 0).2 HAPI_AttributeOwner.HAPI_ATTROWNER_DETAIL)).1
        = HAPI_Result.HAPI_RESULT_SUCCESS
    ∧ (GetGenericAttributeList detailFloat64Api FString_StartsWith_IgnoreCase 0 0
        "unreal_uproperty_" [] HAPI_AttributeOwner.HAPI_ATTROWNER_DETAIL 5).result = 1
    ∧ (GetGenericAttributeList detailFloat64Api FString_StartsWith_IgnoreCase 0 0
        "unreal_uproperty_" [] HAPI_AttributeOwner.HAPI_ATTROWNER_DETAIL
        5).OutFoundAttributes.map
          (fun a => (a.AttributeName, a.DoubleValues.length, a.IntValues, a.StringValues))
        = [("Scale", 3, [], [])]
    ∧ (∀ AttribNameSH : Int,
        (detailFloat64Api.GetAttributeInfo 0 0 (detailFloat64Api.ToFString AttribNameSH)
          HAPI_AttributeOwner.HAPI_ATTROWNER_DETAIL).2.storage
            = HAPI_StorageType.HAPI_STORAGETYPE_INVALID →
        genericAttributeFor detailFloat64Api FString_StartsWith_IgnoreCase 0 0
          "unreal_uproperty_" HAPI_AttributeOwner.HAPI_ATTROWNER_DETAIL
          (genericHandleSplit HAPI_AttributeOwner.HAPI_ATTROWNER_DETAIL 5)
          (genericAttribIndex HAPI_AttributeOwner.HAPI_ATTROWNER_DETAIL 5) AttribNameSH
          = none) :=
  ⟨by decide, by decide, by decide, by decide,
    (C24_only_matching_field detailFloat64Api FString_StartsWith_IgnoreCase 0 0
      "unreal_uproperty_" [] HAPI_AttributeOwner.HAPI_ATTROWNER_DETAIL 5 (by decide)
      (by decide)).2⟩

/-! ## Cook log: theorems -/

/-- A point listed from `k` on is at least `k`, lies within the entries visited, and has a
non-zero membership entry; and every such point is listed. -/
theorem mem_nonZeroPointsFrom (rest : List Int) : ∀ (k i : Nat),
    i ∈ nonZeroPointsFrom k rest ↔ k ≤ i ∧ i < k + rest.length ∧ rest.getD (i - k) 0 ≠ 0 := by
  induction rest with
  | nil => intro k i; simp [nonZeroPointsFrom]
  | cons m rest ih =>
    intro k i
    unfold nonZeroPointsFrom
    by_cases hm : m = 0
    · rw [if_pos hm, ih (k + 1) i]
      constructor
      · rintro ⟨h1, h2, h3⟩
        refine ⟨by omega, by simp only [List.length_cons]; omega, ?_⟩
        obtain ⟨d, hd⟩ : ∃ d, i - k = d + 1 := ⟨i - k - 1, by omega⟩
        rw [hd, List.getD_cons_succ]
        rw [show i - (k + 1) = d by omega] at h3
        exact h3
      · rintro ⟨h1, h2, h3⟩
        simp only [List.length_cons] at h2
        by_cases hik : i = k
        · subst hik
          simp only [Nat.sub_self, List.getD_cons_zero] at h3
          exact absurd hm h3
        · obtain ⟨d, hd⟩ : ∃ d, i - k = d + 1 := ⟨i - k - 1, by omega⟩
          rw [hd, List.getD_cons_succ] at h3
          refine ⟨by omega, by omega, ?_⟩
          rw [show i - (k + 1) = d by omega]
          exact h3
    · rw [if_neg hm, List.mem_cons, ih (k + 1) i]
      constructor
      · rintro (h | ⟨h1, h2, h3⟩)
        · subst h
          refine ⟨le_refl _, by simp only [List.length_cons]; omega, ?_⟩
          simp only [Nat.sub_self, List.getD_cons_zero]
          exact hm
        · refine ⟨by omega, by simp only [List.length_cons]; omega, ?_⟩
          obtain ⟨d, hd⟩ : ∃ d, i - k = d + 1 := ⟨i - k - 1, by omega⟩
          rw [hd, List.getD_cons_succ]
          rw [show i - (k + 1) = d by omega] at h3
          exact h3
      · rintro ⟨h1, h2, h3⟩
        simp only [List.length_cons] at h2
        by_cases hik : i = k
        · exact Or.inl hik
        · right
          obtain ⟨d, hd⟩ : ∃ d, i - k = d + 1 := ⟨i - k - 1, by omega⟩
          rw [hd, List.getD_cons_succ] at h3
          refine ⟨by omega, by omega, ?_⟩
          rw [show i - (k + 1) = d by omega]
          exact h3

/-- Over entries that are all zero the loop without the break changes nothing. -/
theorem socketPointLoopNoBreak_zeros (lib : FSocketLibrary) (K : FHoudiniSocketConstants)
    (A : SocketAttributes) (rest : List Int) (hz : ∀ x ∈ rest, x = 0) :
    ∀ (k : Nat) (st : SocketLoop), socketPointLoopNoBreak lib K A k rest st = st := by
  induction rest with
  | nil => intro k st; rfl
  | cons m rest ih =>
    intro k st
    unfold socketPointLoopNoBreak
    rw [if_pos (hz m (List.mem_cons_self m rest))]
    exact ih (fun x hx => hz x (List.mem_cons_of_mem m hx)) (k + 1) st

/-- With a sound all-equal flag the point loop and the loop without the break leave the
same socket array, counter and list of processed points. -/
theorem socketPointLoop_eq_noBreak (lib : FSocketLibrary) (K : FHoudiniSocketConstants)
    (A : SocketAttributes) (AllEquals : Bool) (rest : List Int)
    (hflag : AllEqualFlagSound AllEquals rest) :
    ∀ (k : Nat) (st : SocketLoop),
      socketPointLoop lib K A AllEquals k rest st = socketPointLoopNoBreak lib K A k rest st := by
  induction rest with
  | nil => intro k st; rfl
  | cons m rest ih =>
    intro k st
    have htail : AllEqualFlagSound AllEquals rest := fun h x hx y hy =>
      hflag h x (List.mem_cons_of_mem m hx) y (List.mem_cons_of_mem m hy)
    unfold socketPointLoop socketPointLoopNoBreak
    by_cases hm : m = 0
    · rw [if_pos hm, if_pos hm]
      by_cases ha : AllEquals = true
      · rw [if_pos ha]
        have hz : ∀ x ∈ rest, x = 0 := fun x hx =>
          (hflag ha x (List.mem_cons_of_mem m hx) m (List.mem_cons_self m rest)).trans hm
        exact (socketPointLoopNoBreak_zeros lib K A rest hz (k + 1) st).symm
      · rw [if_neg ha]
        exact ih htail (k + 1) st
    · rw [if_neg hm, if_neg hm]
      exact ih htail (k + 1) _

/-- Adding a socket keeps the sockets already there in front and adds at most one. -/
theorem AddUnique_prefix_length
    (SocketEquals : FHoudiniMeshSocket → FHoudiniMeshSocket → Bool)
    (AllSockets : List FHoudiniMeshSocket) (CurrentSocket : FHoudiniMeshSocket) :
    AllSockets <+: AddUnique SocketEquals AllSockets CurrentSocket
    ∧ (AddUnique SocketEquals AllSockets CurrentSocket).length ≤ AllSockets.length + 1 := by
  unfold AddUnique
  split_ifs
  · exact ⟨List.prefix_refl _, Nat.le_succ _⟩
  · exact ⟨List.prefix_append _ _, by simp⟩

/-- The loop without the break calls `AddSocketToArray` for the points with non-zero
membership, in ascending order, counts them, and adds at most that many sockets behind
the ones already there. -/
theorem socketPointLoopNoBreak_spec (lib : FSocketLibrary) (K : FHoudiniSocketConstants)
    (A : SocketAttributes) (rest : List Int) :
    ∀ (k : Nat) (st : SocketLoop),
      (socketPointLoopNoBreak lib K A k rest st).Processed
        = st.Processed ++ nonZeroPointsFrom k rest
      ∧ (socketPointLoopNoBreak lib K A k rest st).FoundSocketCount
        = st.FoundSocketCount + (nonZeroPointsFrom k rest).length
      ∧ st.AllSockets <+: (socketPointLoopNoBreak lib K A k rest st).AllSockets
      ∧ (socketPointLoopNoBreak lib K A k rest st).AllSockets.length
        ≤ st.AllSockets.length + (nonZeroPointsFrom k rest).length := by
  induction rest with
  | nil =>
    intro k st
    simp [socketPointLoopNoBreak, nonZeroPointsFrom]
  | cons m rest ih =>
    intro k st
    unfold socketPointLoopNoBreak nonZeroPointsFrom
    by_cases hm : m = 0
    · rw [if_pos hm, if_pos hm]
      exact ih (k + 1) st
    · rw [if_neg hm, if_neg hm]
      obtain ⟨h1, h2, h3, h4⟩ := ih (k + 1) (AddSocketToArray lib K A k st)
      obtain ⟨hp, hl⟩ := AddUnique_prefix_length lib.SocketEquals st.AllSockets
        (socketOfPoint lib K A k)
      refine ⟨?_, ?_, ?_, ?_⟩
      · rw [h1]
        simp [AddSocketToArray]
      · rw [h2]
        simp only [AddSocketToArray, List.length_cons]
        omega
      · exact List.IsPrefix.trans hp h3
      · simp only [AddSocketToArray, List.length_cons] at h4 ⊢
        omega

/-- With sound flags on the socket groups the group loop counts the points with non-zero
membership over the socket groups and adds at most that many sockets behind the ones
already there. -/
theorem socketGroupLoop_spec (api : FHoudiniSocketApi) (lib : FSocketLibrary)
    (K : FHoudiniSocketConstants) (A : SocketAttributes) (GeoId : Int)
    (PartInfo : HAPI_PartInfo) (GroupNames : List String)
    (hflag : ∀ GroupName ∈ GroupNames, isSocketGroup lib K GroupName = true →
      AllEqualFlagSound (socketGroupMembership api GeoId PartInfo GroupName).OutAllEquals
        (socketGroupMembership api GeoId PartInfo GroupName).OutGroupMembership) :
    ∀ st : SocketLoop,
      (socketGroupLoop api lib K A GeoId PartInfo GroupNames st).FoundSocketCount
        = st.FoundSocketCount + socketGroupPointTotal api lib K GeoId PartInfo GroupNames
      ∧ st.AllSockets <+: (socketGroupLoop api lib K A GeoId PartInfo GroupNames st).AllSockets
      ∧ (socketGroupLoop api lib K A GeoId PartInfo GroupNames st).AllSockets.length
        ≤ st.AllSockets.length + socketGroupPointTotal api lib K GeoId PartInfo GroupNames := by
  induction GroupNames with
  | nil =>
    intro st
    simp [socketGroupLoop, socketGroupPointTotal]
  | cons GroupName rest ih =>
    intro st
    have htail : ∀ g ∈ rest, isSocketGroup lib K g = true →
        AllEqualFlagSound (socketGroupMembership api GeoId PartInfo g).OutAllEquals
          (socketGroupMembership api GeoId PartInfo g).OutGroupMembership :=
      fun g hg => hflag g (List.mem_cons_of_mem GroupName hg)
    unfold socketGroupLoop
    by_cases hs : isSocketGroup lib K GroupName = true
    · have hcond : ¬ ((!lib.StartsWith GroupName K.HAPI_UNREAL_GROUP_SOCKET_PREFIX
          && !lib.StartsWith GroupName K.HAPI_UNREAL_GROUP_SOCKET_PREFIX_OLD) = true) := by
        unfold isSocketGroup at hs
        revert hs
        cases lib.StartsWith GroupName K.HAPI_UNREAL_GROUP_SOCKET_PREFIX <;>
          cases lib.StartsWith GroupName K.HAPI_UNREAL_GROUP_SOCKET_PREFIX_OLD <;> simp
      rw [if_neg hcond]
      simp only
      have hsound := hflag GroupName (List.mem_cons_self GroupName rest) hs
      unfold socketGroupMembership at hsound
      rw [socketPointLoop_eq_noBreak lib K A _ _ hsound 0 st]
      obtain ⟨_, h2, h3, h4⟩ := socketPointLoopNoBreak_spec lib K A
        (HapiGetGroupMembership api.toFHoudiniGroupApi GeoId PartInfo
          HAPI_GroupType.HAPI_GROUPTYPE_POINT GroupName [] false).OutGroupMembership 0 st
      obtain ⟨i1, i2, i3⟩ := ih htail (socketPointLoopNoBreak lib K A 0
        (HapiGetGroupMembership api.toFHoudiniGroupApi GeoId PartInfo
          HAPI_GroupType.HAPI_GROUPTYPE_POINT GroupName [] false).OutGroupMembership st)
      have htotal : socketGroupPointTotal api lib K GeoId PartInfo (GroupName :: rest)
          = (nonZeroPointsFrom 0 (HapiGetGroupMembership api.toFHoudiniGroupApi GeoId PartInfo
              HAPI_GroupType.HAPI_GROUPTYPE_POINT GroupName [] false).OutGroupMembership).length
            + socketGroupPointTotal api lib K GeoId PartInfo rest := by
        simp [socketGroupPointTotal, socketGroupMembership, List.filter_cons, hs]
      rw [htotal]
      refine ⟨?_, List.IsPrefix.trans h3 i2, ?_⟩
      · rw [i1, h2]; omega
      · omega
    · have hcond : (!lib.StartsWith GroupName K.HAPI_UNREAL_GROUP_SOCKET_PREFIX
          && !lib.StartsWith GroupName K.HAPI_UNREAL_GROUP_SOCKET_PREFIX_OLD) = true := by
        unfold isSocketGroup at hs
        revert hs
        cases lib.StartsWith GroupName K.HAPI_UNREAL_GROUP_SOCKET_PREFIX <;>
          cases lib.StartsWith GroupName K.HAPI_UNREAL_GROUP_SOCKET_PREFIX_OLD <;> simp
      rw [if_pos hcond]
      have htotal : socketGroupPointTotal api lib K GeoId PartInfo (GroupName :: rest)
          = socketGroupPointTotal api lib K GeoId PartInfo rest := by
        simp [socketGroupPointTotal, List.filter_cons, hs]
      rw [htotal]
      exact ih htail st

/-- C30 (as stated, refuted): in a session whose part has the socket group `socket_a`
with two member points (and sound all-equal flags) but no position attribute,
`AddMeshSocketsToArray_Group` returns `0`, not the number `2` of points with non-zero
membership over the socket groups: the failed position fetch returns before the loop. -/
theorem C30_returned_count_counterexample :
    (HapiGetGroupNames (socketGroupApi false) 0 0 HAPI_GroupType.HAPI_GROUPTYPE_POINT false
      []).2 = ["socket_a", "collision", "Socket_empty"]
    ∧ (∀ GroupName ∈ ["socket_a", "collision", "Socket_empty"],
        AllEqualFlagSound
          (socketGroupMembership (socketGroupApi false) 0
            ((socketGroupApi false).GetPartInfo 0 0).2 GroupName).OutAllEquals
          (socketGroupMembership (socketGroupApi false) 0
            ((socketGroupApi false).GetPartInfo 0 0).2 GroupName).OutGroupMembership)
    ∧ socketGroupPointTotal (socketGroupApi false) sampleSocketLibrary sampleSocketConstants 0
        ((socketGroupApi false).GetPartInfo 0 0).2 ["socket_a", "collision", "Socket_empty"] = 2
    ∧ (AddMeshSocketsToArray_Group (socketGroupApi false) digitStringLibrary
        sampleSocketLibrary sampleSocketConstants 0 0 [] false).result = 0 := by
  refine ⟨by decide, ?_, by decide, by decide⟩
  unfold AllEqualFlagSound
  decide

/-- C30 (amended): when the part-info call and the position fetch of
`AddMeshSocketsToArray_Group` succeed, and for each socket group the all-equal flag is
set only when all membership entries are equal, then for each socket group the point loop
with its early break leaves what a loop without the break leaves, and calls
`AddSocketToArray` for exactly the points whose membership is non-zero, in ascending
order; the returned count is the total number of such points over all groups whose name
starts with a socket prefix; and the socket array keeps its sockets in front and grows by
at most that count. -/
theorem C30_socket_groups_amended (api : FHoudiniSocketApi) (strings : FStringLibrary)
    (lib : FSocketLibrary) (K : FHoudiniSocketConstants) (GeoId PartId : Int)
    (AllSockets : List FHoudiniMeshSocket) (isPackedPrim : Bool)
    (hpart : (api.GetPartInfo GeoId PartId).1 = HAPI_Result.HAPI_RESULT_SUCCESS)
    (hpos : (HapiGetAttributeDataAsFloat api.toFHoudiniApi strings GeoId PartId
      K.HAPI_UNREAL_ATTRIB_POSITION AttributeInfo_Init K.DefaultTupleSize
      K.DefaultOwner).ok = true)
    (hflag : ∀ GroupName ∈ (HapiGetGroupNames api GeoId PartId
        HAPI_GroupType.HAPI_GROUPTYPE_POINT isPackedPrim []).2,
      isSocketGroup lib K GroupName = true →
      AllEqualFlagSound
        (socketGroupMembership api GeoId (api.GetPartInfo GeoId PartId).2
          GroupName).OutAllEquals
        (socketGroupMembership api GeoId (api.GetPartInfo GeoId PartId).2
          GroupName).OutGroupMembership) :
    (∀ GroupName ∈ (HapiGetGroupNames api GeoId PartId HAPI_GroupType.HAPI_GROUPTYPE_POINT
          isPackedPrim []).2,
        isSocketGroup lib K GroupName = true →
        ∀ (A : SocketAttributes) (st : SocketLoop),
          socketPointLoop lib K A
              (socketGroupMembership api GeoId (api.GetPartInfo GeoId PartId).2
                GroupName).OutAllEquals 0
              (socketGroupMembership api GeoId (api.GetPartInfo GeoId PartId).2
                GroupName).OutGroupMembership st
            = socketPointLoopNoBreak lib K A 0
              (socketGroupMembership api GeoId (api.GetPartInfo GeoId PartId).2
                GroupName).OutGroupMembership st
          ∧ (socketPointLoop lib K A
              (socketGroupMembership api GeoId (api.GetPartInfo GeoId PartId).2
                GroupName).OutAllEquals 0
              (socketGroupMembership api GeoId (api.GetPartInfo GeoId PartId).2
                GroupName).OutGroupMembership st).Processed
            = st.Processed ++ nonZeroPointsFrom 0
              (socketGroupMembership api GeoId (api.GetPartInfo GeoId PartId).2
                GroupName).OutGroupMembership)
    ∧ (∀ (Membership : List Int) (PointIdx : Nat),
        PointIdx ∈ nonZeroPointsFrom 0 Membership
          ↔ PointIdx < Membership.length ∧ Membership.getD PointIdx 0 ≠ 0)
    ∧ (AddMeshSocketsToArray_Group api strings lib K GeoId PartId AllSockets
        isPackedPrim).result
      = socketGroupPointTotal api lib K GeoId (api.GetPartInfo GeoId PartId).2
          (HapiGetGroupNames api GeoId PartId HAPI_GroupType.HAPI_GROUPTYPE_POINT
            isPackedPrim []).2
    ∧ AllSockets <+: (AddMeshSocketsToArray_Group api strings lib K GeoId PartId AllSockets
        isPackedPrim).AllSockets
    ∧ (AddMeshSocketsToArray_Group api strings lib K GeoId PartId AllSockets
        isPackedPrim).AllSockets.length
      ≤ AllSockets.length
        + (AddMeshSocketsToArray_Group api strings lib K GeoId PartId AllSockets
            isPackedPrim).result := by
  refine ⟨?_, ?_, ?_⟩
  · intro GroupName hmem hs A st
    have hsound := hflag GroupName hmem hs
    rw [socketPointLoop_eq_noBreak lib K A _ _ hsound 0 st]
    exact ⟨rfl, (socketPointLoopNoBreak_spec lib K A _ 0 st).1⟩
  · intro Membership PointIdx
    rw [mem_nonZeroPointsFrom]
    simp only [Nat.zero_le, true_and, Nat.zero_add, Nat.sub_zero]
  · by_cases hany : (HapiGetGroupNames api GeoId PartId HAPI_GroupType.HAPI_GROUPTYPE_POINT
        isPackedPrim []).2.any (fun GroupName =>
          lib.StartsWith GroupName K.HAPI_UNREAL_GROUP_SOCKET_PREFIX
            || lib.StartsWith GroupName K.HAPI_UNREAL_GROUP_SOCKET_PREFIX_OLD) = true
    · obtain ⟨h1, h2, h3⟩ := socketGroupLoop_spec api lib K
        (fetchSocketAttributes api strings K GeoId PartId
          (HapiGetAttributeDataAsFloat api.toFHoudiniApi strings GeoId PartId
            K.HAPI_UNREAL_ATTRIB_POSITION AttributeInfo_Init K.DefaultTupleSize
            K.DefaultOwner).OutData)
        GeoId (api.GetPartInfo GeoId PartId).2 _ hflag
        { AllSockets := AllSockets, FoundSocketCount := 0, Processed := [] }
      simp only [Nat.zero_add] at h1
      have hres : AddMeshSocketsToArray_Group api strings lib K GeoId PartId AllSockets
          isPackedPrim
          = { result := (socketGroupLoop api lib K
                (fetchSocketAttributes api strings K GeoId PartId
                  (HapiGetAttributeDataAsFloat api.toFHoudiniApi strings GeoId PartId
                    K.HAPI_UNREAL_ATTRIB_POSITION AttributeInfo_Init K.DefaultTupleSize
                    K.DefaultOwner).OutData)
                GeoId (api.GetPartInfo GeoId PartId).2
                (HapiGetGroupNames api GeoId PartId HAPI_GroupType.HAPI_GROUPTYPE_POINT
                  isPackedPrim []).2
                { AllSockets := AllSockets, FoundSocketCount := 0
                  Processed := [] }).FoundSocketCount
              AllSockets := (socketGroupLoop api lib K
                (fetchSocketAttributes api strings K GeoId PartId
                  (HapiGetAttributeDataAsFloat api.toFHoudiniApi strings GeoId PartId
                    K.HAPI_UNREAL_ATTRIB_POSITION AttributeInfo_Init K.DefaultTupleSize
                    K.DefaultOwner).OutData)
                GeoId (api.GetPartInfo GeoId PartId).2
                (HapiGetGroupNames api GeoId PartId HAPI_GroupType.HAPI_GROUPTYPE_POINT
                  isPackedPrim []).2
                { AllSockets := AllSockets, FoundSocketCount := 0
                  Processed := [] }).AllSockets
              Processed := (socketGroupLoop api lib K
                (fetchSocketAttributes api strings K GeoId PartId
                  (HapiGetAttributeDataAsFloat api.toFHoudiniApi strings GeoId PartId
                    K.HAPI_UNREAL_ATTRIB_POSITION AttributeInfo_Init K.DefaultTupleSize
                    K.DefaultOwner).OutData)
                GeoId (api.GetPartInfo GeoId PartId).2
                (HapiGetGroupNames api GeoId PartId HAPI_GroupType.HAPI_GROUPTYPE_POINT
                  isPackedPrim []).2
                { AllSockets := AllSockets, FoundSocketCount := 0
                  Processed := [] }).Processed } := by
        unfold AddMeshSocketsToArray_Group
        simp only [hany, hpart, hpos, Bool.not_true, Bool.false_eq_true, if_false, ne_eq,
          not_true_eq_false]
      rw [hres]
      simp only
      rw [h1]
      exact ⟨rfl, h2, h3⟩
    · have hres : AddMeshSocketsToArray_Group api strings lib K GeoId PartId AllSockets
          isPackedPrim = { result := 0, AllSockets := AllSockets, Processed := [] } := by
        unfold AddMeshSocketsToArray_Group
        simp only [hany, Bool.not_false, if_true]
      have hnone : (HapiGetGroupNames api GeoId PartId HAPI_GroupType.HAPI_GROUPTYPE_POINT
          isPackedPrim []).2.filter (isSocketGroup lib K) = [] := by
        rw [List.filter_eq_nil_iff]
        intro g hg hsg
        apply hany
        rw [List.any_eq_true]
        exact ⟨g, hg, hsg⟩
      rw [hres]
      simp only [socketGroupPointTotal, hnone, List.map_nil, List.sum_nil, Nat.add_zero]
      exact ⟨trivial, List.prefix_refl _, le_refl _⟩

/-- Witness for `C30_socket_groups_amended`: with the position attribute present, the
three point groups give the count `2` (the two member points of `socket_a`; `collision`
is no socket group, `Socket_empty` has no member), and `AddSocketToArray` is called for
the points `0` and `1`. -/
theorem C30_socket_groups_amended_witness :
    ((socketGroupApi true).GetPartInfo 0 0).1 = HAPI_Result.HAPI_RESULT_SUCCESS
    ∧ (HapiGetAttributeDataAsFloat (socketGroupApi true).toFHoudiniApi digitStringLibrary 0 0
        sampleSocketConstants.HAPI_UNREAL_ATTRIB_POSITION AttributeInfo_Init
        sampleSocketConstants.DefaultTupleSize sampleSocketConstants.DefaultOwner).ok = true
    ∧ (AddMeshSocketsToArray_Group (socketGroupApi true) digitStringLibrary
        sampleSocketLibrary sampleSocketConstants 0 0 [] false).result
      = socketGroupPointTotal (socketGroupApi true) sampleSocketLibrary sampleSocketConstants 0
          ((socketGroupApi true).GetPartInfo 0 0).2
          (HapiGetGroupNames (socketGroupApi true) 0 0 HAPI_GroupType.HAPI_GROUPTYPE_POINT
            false []).2
    ∧ (AddMeshSocketsToArray_Group (socketGroupApi true) digitStringLibrary
        sampleSocketLibrary sampleSocketConstants 0 0 [] false).result = 2
    ∧ (AddMeshSocketsToArray_Group (socketGroupApi true) digitStringLibrary
        sampleSocketLibrary sampleSocketConstants 0 0 [] false).Processed = [0, 1] :=
  ⟨by decide, by decide,
    (C30_socket_groups_amended (socketGroupApi true) digitStringLibrary sampleSocketLibrary
      sampleSocketConstants 0 0 [] false (by decide) (by decide)
      (by
        intro GroupName hmem _
        have hnames : (HapiGetGroupNames (socketGroupApi true) 0 0
            HAPI_GroupType.HAPI_GROUPTYPE_POINT false []).2
            = ["socket_a", "collision", "Socket_empty"] := by decide
        rw [hnames] at hmem
        revert GroupName
        unfold AllEqualFlagSound
        decide)).2.2.1,
    by decide, by decide⟩

end HoudiniEngine
